import Mathlib

/-!
# SC450AI sensor driver: gain mapping, mode selection, stream control

Shallow embedding of `kernel-6.1/drivers/media/i2c/sc450ai.c`.

Unsigned 32-bit values are natural numbers; where the C arithmetic can wrap the
reduction modulo `2^32` is written out.  `int` values that can be negative are
integers.
-/

namespace Sc450ai

/-! ## Machine arithmetic -/

/-- Modulus of `u32` arithmetic. -/
def U32 : Nat := 4294967296

/-! ## Gain mapping (`sc450ai_set_gain_reg`, lines 1383-1446) -/

def SC450AI_GAIN_MIN : Nat := 0x40

def SC450AI_GAIN_MAX : Nat := 61975

/-- The four local code variables of `sc450ai_set_gain_reg`. -/
structure gain_codes where
  coarse_again : Nat
  coarse_dgain : Nat
  fine_again : Nat
  fine_dgain : Nat
deriving DecidableEq, Repr

/-- Lines 1389-1392: the value of `gain` after the two range checks. -/
def gain_clamp (gain : Nat) : Nat :=
  if gain < 64 then 64
  else if gain > SC450AI_GAIN_MAX then SC450AI_GAIN_MAX
  else gain

/-- Line 1394: `gain_factor = gain * 1000 / 64`, the product taken in `u32`. -/
def gain_factor_of (gain : Nat) : Nat :=
  (gain_clamp gain * 1000 % U32) / 64

/-- Lines 1386-1446: the codes computed by `sc450ai_set_gain_reg` for a `u32`
argument.  The codes start at zero and stay there when no bracket of the
`if`/`else` chain is taken.  Inside a bracket the guard bounds `gain_factor`
below `60523 * 16`, so the `int` products `gain_factor * 64` and
`gain_factor * 128` are exact. -/
def sc450ai_set_gain_reg_codes (gain : Nat) : gain_codes :=
  let gain_factor := gain_factor_of gain
  if gain_factor < 2000 then
    { coarse_again := 0x03, coarse_dgain := 0x00, fine_dgain := 0x80,
      fine_again := gain_factor * 64 / 1000 }
  else if gain_factor < 3813 then
    { coarse_again := 0x07, coarse_dgain := 0x00, fine_dgain := 0x80,
      fine_again := gain_factor * 64 / 2000 }
  else if gain_factor < 7625 then
    { coarse_again := 0x23, coarse_dgain := 0x00, fine_dgain := 0x80,
      fine_again := gain_factor * 64 / 3813 }
  else if gain_factor < 15250 then
    { coarse_again := 0x27, coarse_dgain := 0x00, fine_dgain := 0x80,
      fine_again := gain_factor * 64 / 7625 }
  else if gain_factor < 30500 then
    { coarse_again := 0x2f, coarse_dgain := 0x00, fine_dgain := 0x80,
      fine_again := gain_factor * 64 / 15250 }
  else if gain_factor ≤ 60523 then
    { coarse_again := 0x3f, coarse_dgain := 0x00, fine_dgain := 0x80,
      fine_again := gain_factor * 64 / 30500 }
  else if gain_factor < 60523 * 2 then
    { coarse_again := 0x3f, coarse_dgain := 0x00, fine_again := 0x7f,
      fine_dgain := gain_factor * 128 / 60523 }
  else if gain_factor < 60523 * 4 then
    { coarse_again := 0x3f, coarse_dgain := 0x01, fine_again := 0x7f,
      fine_dgain := gain_factor * 128 / 60523 / 2 }
  else if gain_factor < 60523 * 8 then
    { coarse_again := 0x3f, coarse_dgain := 0x03, fine_again := 0x7f,
      fine_dgain := gain_factor * 128 / 60523 / 4 }
  else if gain_factor < 60523 * 16 then
    { coarse_again := 0x3f, coarse_dgain := 0x07, fine_again := 0x7f,
      fine_dgain := gain_factor * 128 / 60523 / 8 }
  else
    { coarse_again := 0, coarse_dgain := 0, fine_again := 0, fine_dgain := 0 }

/-- Analog base factor (gain x1000) named by a coarse analog code. -/
def gain_base (coarse_again : Nat) : Nat :=
  if coarse_again = 0x03 then 1000
  else if coarse_again = 0x07 then 2000
  else if coarse_again = 0x23 then 3813
  else if coarse_again = 0x27 then 7625
  else if coarse_again = 0x2f then 15250
  else if coarse_again = 0x3f then 30500
  else 0

/-- Digital multiplier named by a coarse digital code. -/
def gain_mult (coarse_dgain : Nat) : Nat :=
  if coarse_dgain = 0x00 then 1
  else if coarse_dgain = 0x01 then 2
  else if coarse_dgain = 0x03 then 4
  else if coarse_dgain = 0x07 then 8
  else 0

/-- Gain (x1000) that a set of codes stands for:
`base * fine_again/64 * mult * fine_dgain/128`, as a rational. -/
def reconstructed_gain (c : gain_codes) : ℚ :=
  (gain_base c.coarse_again : ℚ) * (c.fine_again : ℚ) / 64
    * (gain_mult c.coarse_dgain : ℚ) * (c.fine_dgain : ℚ) / 128

/-- Numerator of `reconstructed_gain` over the common denominator `64 * 128`. -/
def reconstructed_num (c : gain_codes) : Nat :=
  gain_base c.coarse_again * c.fine_again * gain_mult c.coarse_dgain * c.fine_dgain

/-! ## Mode catalog (lines 125-144, 193-1291) -/

def REG_DELAY : Nat := 0xFFFE

def REG_NULL : Nat := 0xFFFF

/-- An address/value pair of a register table (`struct regval`). -/
structure regval where
  addr : Nat
  val : Nat
deriving DecidableEq, Repr

/-- A frame interval (`struct v4l2_fract`). -/
structure v4l2_fract where
  numerator : Nat
  denominator : Nat
deriving DecidableEq, Repr, Inhabited

/-- Modelled from the spec: the HDR kinds, `hdrKind ∈ {NONE, HDR_X2, HDR_X3}`,
of `enum rkmodule_hdr_mode`.  The enumeration is declared in
`rk-camera-module.h`, which is not among the sources; only the fact that the
kinds are pairwise different is used. -/
def NO_HDR : Nat := 0

/-- Modelled from the spec: the two-exposure HDR kind (see `NO_HDR`). -/
def HDR_X2 : Nat := 5

/-- Modelled from the spec: the three-exposure HDR kind (see `NO_HDR`). -/
def HDR_X3 : Nat := 6

/-- Modelled from the spec: the `busFormat` of every catalog mode, the 10-bit
Bayer media bus code of `media-bus-format.h` (not among the sources). -/
def MEDIA_BUS_FMT_SBGGR10_1X10 : Nat := 0x3007

/-- A supported mode (`struct sc450ai_mode`); `vc` holds the virtual channels of
`PAD0 .. PAD3`. -/
structure sc450ai_mode where
  bus_fmt : Nat
  width : Nat
  height : Nat
  max_fps : v4l2_fract
  hts_def : Nat
  vts_def : Nat
  exp_def : Nat
  reg_list : List regval
  hdr_mode : Nat
  xvclk_freq : Nat
  link_freq_idx : Nat
  vc : List Nat
  lanes : Nat
deriving DecidableEq, Repr, Inhabited

/-- Register table `sc450ai_global_regs` (lines 193-195), sentinel included. -/
def sc450ai_global_regs : List regval := [
  regval.mk REG_NULL 0x00]

/-- Register table `sc450ai_linear_10_1344x760_120fps_2lane_regs` (lines 203-388), sentinel included. -/
def sc450ai_linear_10_1344x760_120fps_2lane_regs : List regval := [
  regval.mk 0x0103 0x01, regval.mk 0x0100 0x00, regval.mk 0x36e9 0x80, regval.mk 0x36f9 0x80, regval.mk 0x3018 0x3a, regval.mk 0x3019 0x0c,
  regval.mk 0x301c 0x78, regval.mk 0x301f 0x75, regval.mk 0x302e 0x00, regval.mk 0x3208 0x05, regval.mk 0x3209 0x40, regval.mk 0x320a 0x02,
  regval.mk 0x320b 0xf8, regval.mk 0x320c 0x03, regval.mk 0x320d 0xa8, regval.mk 0x320e 0x03, regval.mk 0x320f 0x0c, regval.mk 0x3211 0x04,
  regval.mk 0x3213 0x04, regval.mk 0x3214 0x11, regval.mk 0x3215 0x31, regval.mk 0x3220 0x01, regval.mk 0x3223 0xc0, regval.mk 0x3253 0x10,
  regval.mk 0x325f 0x44, regval.mk 0x3274 0x09, regval.mk 0x3280 0x01, regval.mk 0x3301 0x08, regval.mk 0x3306 0x24, regval.mk 0x3309 0x60,
  regval.mk 0x330b 0x64, regval.mk 0x330d 0x30, regval.mk 0x3315 0x00, regval.mk 0x331f 0x59, regval.mk 0x335d 0x60, regval.mk 0x3364 0x56,
  regval.mk 0x338f 0x80, regval.mk 0x3390 0x08, regval.mk 0x3391 0x18, regval.mk 0x3392 0x38, regval.mk 0x3393 0x0a, regval.mk 0x3394 0x10,
  regval.mk 0x3395 0x18, regval.mk 0x3396 0x08, regval.mk 0x3397 0x18, regval.mk 0x3398 0x38, regval.mk 0x3399 0x0f, regval.mk 0x339a 0x12,
  regval.mk 0x339b 0x14, regval.mk 0x339c 0x18, regval.mk 0x33af 0x18, regval.mk 0x360f 0x13, regval.mk 0x3621 0xec, regval.mk 0x3627 0xa0,
  regval.mk 0x3630 0x90, regval.mk 0x3633 0x56, regval.mk 0x3637 0x1d, regval.mk 0x3638 0x0a, regval.mk 0x363c 0x0f, regval.mk 0x363d 0x0f,
  regval.mk 0x363e 0x08, regval.mk 0x3670 0x4a, regval.mk 0x3671 0xe0, regval.mk 0x3672 0xe0, regval.mk 0x3673 0xe0, regval.mk 0x3674 0xb0,
  regval.mk 0x3675 0x88, regval.mk 0x3676 0x8c, regval.mk 0x367a 0x48, regval.mk 0x367b 0x58, regval.mk 0x367c 0x48, regval.mk 0x367d 0x58,
  regval.mk 0x3690 0x34, regval.mk 0x3691 0x43, regval.mk 0x3692 0x44, regval.mk 0x3699 0x03, regval.mk 0x369a 0x0f, regval.mk 0x369b 0x1f,
  regval.mk 0x369c 0x40, regval.mk 0x369d 0x48, regval.mk 0x36a2 0x48, regval.mk 0x36a3 0x78, regval.mk 0x36b0 0x54, regval.mk 0x36b1 0x75,
  regval.mk 0x36b2 0x35, regval.mk 0x36b3 0x48, regval.mk 0x36b4 0x78, regval.mk 0x36b7 0xa0, regval.mk 0x36b8 0xa0, regval.mk 0x36b9 0x20,
  regval.mk 0x36bd 0x40, regval.mk 0x36be 0x48, regval.mk 0x36d0 0x20, regval.mk 0x36e0 0x08, regval.mk 0x36e1 0x08, regval.mk 0x36e2 0x12,
  regval.mk 0x36e3 0x48, regval.mk 0x36e4 0x78, regval.mk 0x36fa 0x0d, regval.mk 0x36fb 0xa4, regval.mk 0x36fc 0x00, regval.mk 0x36fd 0x24,
  regval.mk 0x3907 0x00, regval.mk 0x3908 0x41, regval.mk 0x391e 0x01, regval.mk 0x391f 0x11, regval.mk 0x3933 0x82, regval.mk 0x3934 0x0b,
  regval.mk 0x3935 0x02, regval.mk 0x3936 0x5e, regval.mk 0x3937 0x76, regval.mk 0x3938 0x78, regval.mk 0x3939 0x00, regval.mk 0x393a 0x28,
  regval.mk 0x393b 0x00, regval.mk 0x393c 0x1d, regval.mk 0x3e00 0x00, regval.mk 0x3e01 0x61, regval.mk 0x3e02 0x00, regval.mk 0x3e03 0x0b,
  regval.mk 0x3e08 0x03, regval.mk 0x3e1b 0x2a, regval.mk 0x440e 0x02, regval.mk 0x4509 0x20, regval.mk 0x4837 0x16, regval.mk 0x5000 0x4e,
  regval.mk 0x5001 0x44, regval.mk 0x5780 0x76, regval.mk 0x5784 0x08, regval.mk 0x5785 0x04, regval.mk 0x5787 0x0a, regval.mk 0x5788 0x0a,
  regval.mk 0x5789 0x0a, regval.mk 0x578a 0x0a, regval.mk 0x578b 0x0a, regval.mk 0x578c 0x0a, regval.mk 0x578d 0x40, regval.mk 0x5790 0x08,
  regval.mk 0x5791 0x04, regval.mk 0x5792 0x04, regval.mk 0x5793 0x08, regval.mk 0x5794 0x04, regval.mk 0x5795 0x04, regval.mk 0x5799 0x46,
  regval.mk 0x579a 0x77, regval.mk 0x57a1 0x04, regval.mk 0x57a8 0xd0, regval.mk 0x57aa 0x2a, regval.mk 0x57ab 0x7f, regval.mk 0x57ac 0x00,
  regval.mk 0x57ad 0x00, regval.mk 0x5900 0x01, regval.mk 0x5901 0x04, regval.mk 0x59e0 0xfe, regval.mk 0x59e1 0x40, regval.mk 0x59e2 0x3f,
  regval.mk 0x59e3 0x38, regval.mk 0x59e4 0x30, regval.mk 0x59e5 0x3f, regval.mk 0x59e6 0x38, regval.mk 0x59e7 0x30, regval.mk 0x59e8 0x3f,
  regval.mk 0x59e9 0x3c, regval.mk 0x59ea 0x38, regval.mk 0x59eb 0x3f, regval.mk 0x59ec 0x3c, regval.mk 0x59ed 0x38, regval.mk 0x59ee 0xfe,
  regval.mk 0x59ef 0x40, regval.mk 0x59f4 0x3f, regval.mk 0x59f5 0x38, regval.mk 0x59f6 0x30, regval.mk 0x59f7 0x3f, regval.mk 0x59f8 0x38,
  regval.mk 0x59f9 0x30, regval.mk 0x59fa 0x3f, regval.mk 0x59fb 0x3c, regval.mk 0x59fc 0x38, regval.mk 0x59fd 0x3f, regval.mk 0x59fe 0x3c,
  regval.mk 0x59ff 0x38, regval.mk 0x36e9 0x44, regval.mk 0x36f9 0x20, regval.mk REG_NULL 0x00]

/-- Register table `sc450ai_linear_10_2688x1520_30fps_2lane_regs` (lines 396-579), sentinel included. -/
def sc450ai_linear_10_2688x1520_30fps_2lane_regs : List regval := [
  regval.mk 0x0103 0x01, regval.mk 0x0100 0x00, regval.mk 0x36e9 0x80, regval.mk 0x36f9 0x80, regval.mk 0x3018 0x3a, regval.mk 0x3019 0x0c,
  regval.mk 0x301c 0x78, regval.mk 0x301f 0x3c, regval.mk 0x302d 0xa0, regval.mk 0x302e 0x00, regval.mk 0x3208 0x0a, regval.mk 0x3209 0x80,
  regval.mk 0x320a 0x05, regval.mk 0x320b 0xf0, regval.mk 0x320c 0x02, regval.mk 0x320d 0xee, regval.mk 0x320e 0x06, regval.mk 0x320f 0x38,
  regval.mk 0x3214 0x11, regval.mk 0x3215 0x11, regval.mk 0x3220 0x00, regval.mk 0x3223 0xc0, regval.mk 0x3253 0x10, regval.mk 0x325f 0x44,
  regval.mk 0x3274 0x09, regval.mk 0x3280 0x01, regval.mk 0x3301 0x07, regval.mk 0x3306 0x20, regval.mk 0x3308 0x08, regval.mk 0x330b 0x58,
  regval.mk 0x330e 0x18, regval.mk 0x3315 0x00, regval.mk 0x335d 0x60, regval.mk 0x3364 0x56, regval.mk 0x338f 0x80, regval.mk 0x3390 0x08,
  regval.mk 0x3391 0x18, regval.mk 0x3392 0x38, regval.mk 0x3393 0x07, regval.mk 0x3394 0x10, regval.mk 0x3395 0x18, regval.mk 0x3396 0x08,
  regval.mk 0x3397 0x18, regval.mk 0x3398 0x38, regval.mk 0x3399 0x10, regval.mk 0x339a 0x13, regval.mk 0x339b 0x15, regval.mk 0x339c 0x18,
  regval.mk 0x33af 0x18, regval.mk 0x3400 0x16, regval.mk 0x360f 0x13, regval.mk 0x3621 0xec, regval.mk 0x3622 0x00, regval.mk 0x3625 0x0b,
  regval.mk 0x3627 0x20, regval.mk 0x3630 0x90, regval.mk 0x3633 0x56, regval.mk 0x3637 0x1d, regval.mk 0x3638 0x12, regval.mk 0x363c 0x0f,
  regval.mk 0x363d 0x0f, regval.mk 0x363e 0x08, regval.mk 0x3670 0x4a, regval.mk 0x3671 0xe0, regval.mk 0x3672 0xe0, regval.mk 0x3673 0xe0,
  regval.mk 0x3674 0xc0, regval.mk 0x3675 0x87, regval.mk 0x3676 0x8c, regval.mk 0x367a 0x48, regval.mk 0x367b 0x58, regval.mk 0x367c 0x48,
  regval.mk 0x367d 0x58, regval.mk 0x3690 0x22, regval.mk 0x3691 0x33, regval.mk 0x3692 0x44, regval.mk 0x3699 0x03, regval.mk 0x369a 0x0f,
  regval.mk 0x369b 0x1f, regval.mk 0x369c 0x40, regval.mk 0x369d 0x78, regval.mk 0x36a2 0x48, regval.mk 0x36a3 0x78, regval.mk 0x36b0 0x53,
  regval.mk 0x36b1 0x74, regval.mk 0x36b2 0x34, regval.mk 0x36b3 0x40, regval.mk 0x36b4 0x78, regval.mk 0x36b7 0xa0, regval.mk 0x36b8 0xa0,
  regval.mk 0x36b9 0x20, regval.mk 0x36bd 0x40, regval.mk 0x36be 0x48, regval.mk 0x36d0 0x20, regval.mk 0x36e0 0x08, regval.mk 0x36e1 0x08,
  regval.mk 0x36e2 0x12, regval.mk 0x36e3 0x48, regval.mk 0x36e4 0x78, regval.mk 0x36ec 0x43, regval.mk 0x36fc 0x00, regval.mk 0x3907 0x00,
  regval.mk 0x3908 0x41, regval.mk 0x391e 0xf1, regval.mk 0x391f 0x11, regval.mk 0x3921 0x10, regval.mk 0x3933 0x82, regval.mk 0x3934 0x30,
  regval.mk 0x3935 0x02, regval.mk 0x3936 0xc7, regval.mk 0x3937 0x76, regval.mk 0x3938 0x76, regval.mk 0x3939 0x00, regval.mk 0x393a 0x28,
  regval.mk 0x393b 0x00, regval.mk 0x393c 0x23, regval.mk 0x3e01 0xc2, regval.mk 0x3e02 0x60, regval.mk 0x3e03 0x0b, regval.mk 0x3e08 0x03,
  regval.mk 0x3e1b 0x2a, regval.mk 0x440e 0x02, regval.mk 0x4509 0x20, regval.mk 0x4837 0x16, regval.mk 0x5000 0x0e, regval.mk 0x5001 0x44,
  regval.mk 0x5780 0x76, regval.mk 0x5784 0x08, regval.mk 0x5785 0x04, regval.mk 0x5787 0x0a, regval.mk 0x5788 0x0a, regval.mk 0x5789 0x0a,
  regval.mk 0x578a 0x0a, regval.mk 0x578b 0x0a, regval.mk 0x578c 0x0a, regval.mk 0x578d 0x40, regval.mk 0x5790 0x08, regval.mk 0x5791 0x04,
  regval.mk 0x5792 0x04, regval.mk 0x5793 0x08, regval.mk 0x5794 0x04, regval.mk 0x5795 0x04, regval.mk 0x5799 0x46, regval.mk 0x579a 0x77,
  regval.mk 0x57a1 0x04, regval.mk 0x57a8 0xd0, regval.mk 0x57aa 0x28, regval.mk 0x57ab 0x00, regval.mk 0x57ac 0x00, regval.mk 0x57ad 0x00,
  regval.mk 0x59e0 0xfe, regval.mk 0x59e1 0x40, regval.mk 0x59e2 0x3f, regval.mk 0x59e3 0x38, regval.mk 0x59e4 0x30, regval.mk 0x59e5 0x3f,
  regval.mk 0x59e6 0x38, regval.mk 0x59e7 0x30, regval.mk 0x59e8 0x3f, regval.mk 0x59e9 0x3c, regval.mk 0x59ea 0x38, regval.mk 0x59eb 0x3f,
  regval.mk 0x59ec 0x3c, regval.mk 0x59ed 0x38, regval.mk 0x59ee 0xfe, regval.mk 0x59ef 0x40, regval.mk 0x59f4 0x3f, regval.mk 0x59f5 0x38,
  regval.mk 0x59f6 0x30, regval.mk 0x59f7 0x3f, regval.mk 0x59f8 0x38, regval.mk 0x59f9 0x30, regval.mk 0x59fa 0x3f, regval.mk 0x59fb 0x3c,
  regval.mk 0x59fc 0x38, regval.mk 0x59fd 0x3f, regval.mk 0x59fe 0x3c, regval.mk 0x59ff 0x38, regval.mk 0x36e9 0x44, regval.mk 0x36f9 0x20,
  regval.mk REG_NULL 0x00]

/-- Register table `sc450ai_hdr2_10_2688x1520_25fps_2lane_regs` (lines 581-791), sentinel included. -/
def sc450ai_hdr2_10_2688x1520_25fps_2lane_regs : List regval := [
  regval.mk 0x0103 0x01, regval.mk 0x0100 0x00, regval.mk 0x36e9 0x80, regval.mk 0x36f9 0x80, regval.mk 0x3018 0x3a, regval.mk 0x3019 0x0c,
  regval.mk 0x301c 0x78, regval.mk 0x301f 0x3d, regval.mk 0x302d 0xa0, regval.mk 0x302e 0x00, regval.mk 0x3208 0x0a, regval.mk 0x3209 0x80,
  regval.mk 0x320a 0x05, regval.mk 0x320b 0xf0, regval.mk 0x320c 0x03, regval.mk 0x320d 0x9e, regval.mk 0x320e 0x0c, regval.mk 0x320f 0x26,
  regval.mk 0x3213 0x14, regval.mk 0x3214 0x11, regval.mk 0x3215 0x11, regval.mk 0x3220 0x00, regval.mk 0x3223 0xc0, regval.mk 0x3250 0xff,
  regval.mk 0x3253 0x10, regval.mk 0x325f 0x44, regval.mk 0x3274 0x09, regval.mk 0x3280 0x01, regval.mk 0x3281 0x01, regval.mk 0x3301 0x08,
  regval.mk 0x3306 0x24, regval.mk 0x3309 0x60, regval.mk 0x330b 0x64, regval.mk 0x330d 0x30, regval.mk 0x3314 0x94, regval.mk 0x3315 0x00,
  regval.mk 0x331f 0x59, regval.mk 0x335d 0x60, regval.mk 0x3364 0x56, regval.mk 0x338f 0x80, regval.mk 0x3390 0x08, regval.mk 0x3391 0x18,
  regval.mk 0x3392 0x38, regval.mk 0x3393 0x0a, regval.mk 0x3394 0x10, regval.mk 0x3395 0x18, regval.mk 0x3396 0x08, regval.mk 0x3397 0x18,
  regval.mk 0x3398 0x38, regval.mk 0x3399 0x0f, regval.mk 0x339a 0x12, regval.mk 0x339b 0x14, regval.mk 0x339c 0x18, regval.mk 0x33af 0x18,
  regval.mk 0x3400 0x16, regval.mk 0x3410 0x04, regval.mk 0x360f 0x13, regval.mk 0x3621 0xec, regval.mk 0x3627 0xa0, regval.mk 0x3630 0x90,
  regval.mk 0x3633 0x56, regval.mk 0x3637 0x1d, regval.mk 0x3638 0x0a, regval.mk 0x363c 0x0f, regval.mk 0x363d 0x0f, regval.mk 0x363e 0x08,
  regval.mk 0x3670 0x4a, regval.mk 0x3671 0xe0, regval.mk 0x3672 0xe0, regval.mk 0x3673 0xe0, regval.mk 0x3674 0xb0, regval.mk 0x3675 0x88,
  regval.mk 0x3676 0x8c, regval.mk 0x367a 0x48, regval.mk 0x367b 0x58, regval.mk 0x367c 0x48, regval.mk 0x367d 0x58, regval.mk 0x3690 0x34,
  regval.mk 0x3691 0x43, regval.mk 0x3692 0x44, regval.mk 0x3699 0x03, regval.mk 0x369a 0x0f, regval.mk 0x369b 0x1f, regval.mk 0x369c 0x40,
  regval.mk 0x369d 0x48, regval.mk 0x36a2 0x48, regval.mk 0x36a3 0x78, regval.mk 0x36b0 0x54, regval.mk 0x36b1 0x55, regval.mk 0x36b2 0x55,
  regval.mk 0x36b3 0x48, regval.mk 0x36b4 0x78, regval.mk 0x36b7 0xa0, regval.mk 0x36b8 0xa0, regval.mk 0x36b9 0x20, regval.mk 0x36bd 0x40,
  regval.mk 0x36be 0x48, regval.mk 0x36d0 0x20, regval.mk 0x36e0 0x08, regval.mk 0x36e1 0x08, regval.mk 0x36e2 0x12, regval.mk 0x36e3 0x48,
  regval.mk 0x36e4 0x78, regval.mk 0x36ea 0x0c, regval.mk 0x36eb 0x05, regval.mk 0x36ec 0x43, regval.mk 0x36ed 0x24, regval.mk 0x36fa 0x0a,
  regval.mk 0x36fb 0xa4, regval.mk 0x36fc 0x00, regval.mk 0x36fd 0x14, regval.mk 0x3900 0x07, regval.mk 0x3902 0xf0, regval.mk 0x3907 0x00,
  regval.mk 0x3908 0x41, regval.mk 0x391e 0x01, regval.mk 0x391f 0x11, regval.mk 0x3921 0x10, regval.mk 0x3933 0x82, regval.mk 0x3934 0x0b,
  regval.mk 0x3935 0x02, regval.mk 0x3936 0x5e, regval.mk 0x3937 0x76, regval.mk 0x3938 0x78, regval.mk 0x3939 0x00, regval.mk 0x393a 0x28,
  regval.mk 0x393b 0x00, regval.mk 0x393c 0x1d, regval.mk 0x3e00 0x01, regval.mk 0x3e01 0x67, regval.mk 0x3e02 0x00, regval.mk 0x3e03 0x0b,
  regval.mk 0x3e04 0x16, regval.mk 0x3e05 0x70, regval.mk 0x3e06 0x00, regval.mk 0x3e07 0x80, regval.mk 0x3e08 0x03, regval.mk 0x3e09 0x40,
  regval.mk 0x3e10 0x00, regval.mk 0x3e11 0x80, regval.mk 0x3e12 0x03, regval.mk 0x3e13 0x40, regval.mk 0x3e1b 0x2a, regval.mk 0x3e22 0x00,
  regval.mk 0x3e23 0x00, regval.mk 0x3e24 0xba, regval.mk 0x440e 0x02, regval.mk 0x4503 0x60, regval.mk 0x4509 0x20, regval.mk 0x4837 0x16,
  regval.mk 0x4853 0xf8, regval.mk 0x5000 0x0e, regval.mk 0x5001 0x44, regval.mk 0x5011 0x80, regval.mk 0x5780 0x76, regval.mk 0x5784 0x08,
  regval.mk 0x5785 0x04, regval.mk 0x5787 0x0a, regval.mk 0x5788 0x0a, regval.mk 0x5789 0x0a, regval.mk 0x578a 0x0a, regval.mk 0x578b 0x0a,
  regval.mk 0x578c 0x0a, regval.mk 0x578d 0x40, regval.mk 0x5790 0x08, regval.mk 0x5791 0x04, regval.mk 0x5792 0x04, regval.mk 0x5793 0x08,
  regval.mk 0x5794 0x04, regval.mk 0x5795 0x04, regval.mk 0x5799 0x46, regval.mk 0x579a 0x77, regval.mk 0x57a1 0x04, regval.mk 0x57a8 0xd0,
  regval.mk 0x57aa 0x2a, regval.mk 0x57ab 0x7f, regval.mk 0x57ac 0x00, regval.mk 0x57ad 0x00, regval.mk 0x59e0 0xfe, regval.mk 0x59e1 0x40,
  regval.mk 0x59e2 0x3f, regval.mk 0x59e3 0x38, regval.mk 0x59e4 0x30, regval.mk 0x59e5 0x3f, regval.mk 0x59e6 0x38, regval.mk 0x59e7 0x30,
  regval.mk 0x59e8 0x3f, regval.mk 0x59e9 0x3c, regval.mk 0x59ea 0x38, regval.mk 0x59eb 0x3f, regval.mk 0x59ec 0x3c, regval.mk 0x59ed 0x38,
  regval.mk 0x59ee 0xfe, regval.mk 0x59ef 0x40, regval.mk 0x59f4 0x3f, regval.mk 0x59f5 0x38, regval.mk 0x59f6 0x30, regval.mk 0x59f7 0x3f,
  regval.mk 0x59f8 0x38, regval.mk 0x59f9 0x30, regval.mk 0x59fa 0x3f, regval.mk 0x59fb 0x3c, regval.mk 0x59fc 0x38, regval.mk 0x59fd 0x3f,
  regval.mk 0x59fe 0x3c, regval.mk 0x59ff 0x38, regval.mk 0x36e9 0x44, regval.mk 0x36f9 0x44, regval.mk REG_NULL 0x00]

/-- Register table `sc450ai_linear_10_2688x1520_30fps_4lane_regs` (lines 798-981), sentinel included. -/
def sc450ai_linear_10_2688x1520_30fps_4lane_regs : List regval := [
  regval.mk 0x0103 0x01, regval.mk 0x0100 0x00, regval.mk 0x36e9 0x80, regval.mk 0x36f9 0x80, regval.mk 0x301c 0x78, regval.mk 0x301f 0x02,
  regval.mk 0x302d 0xa0, regval.mk 0x302e 0x00, regval.mk 0x3208 0x0a, regval.mk 0x3209 0x80, regval.mk 0x320a 0x05, regval.mk 0x320b 0xf0,
  regval.mk 0x320c 0x04, regval.mk 0x320d 0x60, regval.mk 0x320e 0x0c, regval.mk 0x320f 0x30, regval.mk 0x3214 0x11, regval.mk 0x3215 0x11,
  regval.mk 0x3220 0x00, regval.mk 0x3223 0xc0, regval.mk 0x3253 0x10, regval.mk 0x325f 0x44, regval.mk 0x3274 0x09, regval.mk 0x3280 0x01,
  regval.mk 0x3301 0x08, regval.mk 0x3306 0x24, regval.mk 0x3309 0x60, regval.mk 0x330b 0x64, regval.mk 0x330d 0x30, regval.mk 0x3315 0x00,
  regval.mk 0x331f 0x59, regval.mk 0x335d 0x60, regval.mk 0x3364 0x56, regval.mk 0x338f 0x80, regval.mk 0x3390 0x08, regval.mk 0x3391 0x18,
  regval.mk 0x3392 0x38, regval.mk 0x3393 0x0a, regval.mk 0x3394 0x10, regval.mk 0x3395 0x18, regval.mk 0x3396 0x08, regval.mk 0x3397 0x18,
  regval.mk 0x3398 0x38, regval.mk 0x3399 0x0f, regval.mk 0x339a 0x12, regval.mk 0x339b 0x14, regval.mk 0x339c 0x18, regval.mk 0x33af 0x18,
  regval.mk 0x3400 0x16, regval.mk 0x360f 0x13, regval.mk 0x3621 0xec, regval.mk 0x3627 0xa0, regval.mk 0x3630 0x90, regval.mk 0x3633 0x56,
  regval.mk 0x3637 0x1d, regval.mk 0x3638 0x0a, regval.mk 0x363c 0x0f, regval.mk 0x363d 0x0f, regval.mk 0x363e 0x08, regval.mk 0x3670 0x4a,
  regval.mk 0x3671 0xe0, regval.mk 0x3672 0xe0, regval.mk 0x3673 0xe0, regval.mk 0x3674 0xb0, regval.mk 0x3675 0x88, regval.mk 0x3676 0x8c,
  regval.mk 0x367a 0x48, regval.mk 0x367b 0x58, regval.mk 0x367c 0x48, regval.mk 0x367d 0x58, regval.mk 0x3690 0x34, regval.mk 0x3691 0x43,
  regval.mk 0x3692 0x44, regval.mk 0x3699 0x03, regval.mk 0x369a 0x0f, regval.mk 0x369b 0x1f, regval.mk 0x369c 0x40, regval.mk 0x369d 0x48,
  regval.mk 0x36a2 0x48, regval.mk 0x36a3 0x78, regval.mk 0x36b0 0x54, regval.mk 0x36b1 0x75, regval.mk 0x36b2 0x35, regval.mk 0x36b3 0x48,
  regval.mk 0x36b4 0x78, regval.mk 0x36b7 0xa0, regval.mk 0x36b8 0xa0, regval.mk 0x36b9 0x20, regval.mk 0x36bd 0x40, regval.mk 0x36be 0x48,
  regval.mk 0x36d0 0x20, regval.mk 0x36e0 0x08, regval.mk 0x36e1 0x08, regval.mk 0x36e2 0x12, regval.mk 0x36e3 0x48, regval.mk 0x36e4 0x78,
  regval.mk 0x36fa 0x0d, regval.mk 0x36fb 0xa4, regval.mk 0x36fc 0x00, regval.mk 0x36fd 0x24, regval.mk 0x3907 0x00, regval.mk 0x3908 0x41,
  regval.mk 0x391e 0x01, regval.mk 0x391f 0x11, regval.mk 0x3921 0x10, regval.mk 0x3933 0x82, regval.mk 0x3934 0x0b, regval.mk 0x3935 0x02,
  regval.mk 0x3936 0x5e, regval.mk 0x3937 0x76, regval.mk 0x3938 0x78, regval.mk 0x3939 0x00, regval.mk 0x393a 0x28, regval.mk 0x393b 0x00,
  regval.mk 0x393c 0x1d, regval.mk 0x3e01 0xc2, regval.mk 0x3e02 0x60, regval.mk 0x3e03 0x0b, regval.mk 0x3e08 0x03, regval.mk 0x3e1b 0x2a,
  regval.mk 0x440e 0x02, regval.mk 0x4509 0x20, regval.mk 0x4837 0x16, regval.mk 0x5000 0x0e, regval.mk 0x5001 0x44, regval.mk 0x5780 0x76,
  regval.mk 0x5784 0x08, regval.mk 0x5785 0x04, regval.mk 0x5787 0x0a, regval.mk 0x5788 0x0a, regval.mk 0x5789 0x0a, regval.mk 0x578a 0x0a,
  regval.mk 0x578b 0x0a, regval.mk 0x578c 0x0a, regval.mk 0x578d 0x40, regval.mk 0x5790 0x08, regval.mk 0x5791 0x04, regval.mk 0x5792 0x04,
  regval.mk 0x5793 0x08, regval.mk 0x5794 0x04, regval.mk 0x5795 0x04, regval.mk 0x5799 0x46, regval.mk 0x579a 0x77, regval.mk 0x57a1 0x04,
  regval.mk 0x57a8 0xd0, regval.mk 0x57aa 0x2a, regval.mk 0x57ab 0x7f, regval.mk 0x57ac 0x00, regval.mk 0x57ad 0x00, regval.mk 0x59e0 0xfe,
  regval.mk 0x59e1 0x40, regval.mk 0x59e2 0x3f, regval.mk 0x59e3 0x38, regval.mk 0x59e4 0x30, regval.mk 0x59e5 0x3f, regval.mk 0x59e6 0x38,
  regval.mk 0x59e7 0x30, regval.mk 0x59e8 0x3f, regval.mk 0x59e9 0x3c, regval.mk 0x59ea 0x38, regval.mk 0x59eb 0x3f, regval.mk 0x59ec 0x3c,
  regval.mk 0x59ed 0x38, regval.mk 0x59ee 0xfe, regval.mk 0x59ef 0x40, regval.mk 0x59f4 0x3f, regval.mk 0x59f5 0x38, regval.mk 0x59f6 0x30,
  regval.mk 0x59f7 0x3f, regval.mk 0x59f8 0x38, regval.mk 0x59f9 0x30, regval.mk 0x59fa 0x3f, regval.mk 0x59fb 0x3c, regval.mk 0x59fc 0x38,
  regval.mk 0x59fd 0x3f, regval.mk 0x59fe 0x3c, regval.mk 0x59ff 0x38, regval.mk 0x36e9 0x44, regval.mk 0x36f9 0x20, regval.mk REG_NULL 0x00]

/-- Register table `sc450ai_hdr2_10_2688x1520_30fps_4lane_regs` (lines 983-1189), sentinel included. -/
def sc450ai_hdr2_10_2688x1520_30fps_4lane_regs : List regval := [
  regval.mk 0x0103 0x01, regval.mk 0x0100 0x00, regval.mk 0x36e9 0x80, regval.mk 0x36f9 0x80, regval.mk 0x301c 0x78, regval.mk 0x301f 0x03,
  regval.mk 0x302d 0xa0, regval.mk 0x302e 0x00, regval.mk 0x3208 0x0a, regval.mk 0x3209 0x80, regval.mk 0x320a 0x05, regval.mk 0x320b 0xf0,
  regval.mk 0x320c 0x03, regval.mk 0x320d 0xa8, regval.mk 0x320e 0x0c, regval.mk 0x320f 0x30, regval.mk 0x3213 0x14, regval.mk 0x3214 0x11,
  regval.mk 0x3215 0x11, regval.mk 0x3220 0x00, regval.mk 0x3223 0xc0, regval.mk 0x3250 0xff, regval.mk 0x3253 0x10, regval.mk 0x325f 0x44,
  regval.mk 0x3274 0x09, regval.mk 0x3280 0x01, regval.mk 0x3281 0x01, regval.mk 0x3301 0x08, regval.mk 0x3306 0x24, regval.mk 0x3309 0x60,
  regval.mk 0x330b 0x64, regval.mk 0x330d 0x30, regval.mk 0x3314 0x94, regval.mk 0x3315 0x00, regval.mk 0x331f 0x59, regval.mk 0x335d 0x60,
  regval.mk 0x3364 0x56, regval.mk 0x338f 0x80, regval.mk 0x3390 0x08, regval.mk 0x3391 0x18, regval.mk 0x3392 0x38, regval.mk 0x3393 0x0a,
  regval.mk 0x3394 0x10, regval.mk 0x3395 0x18, regval.mk 0x3396 0x08, regval.mk 0x3397 0x18, regval.mk 0x3398 0x38, regval.mk 0x3399 0x0f,
  regval.mk 0x339a 0x12, regval.mk 0x339b 0x14, regval.mk 0x339c 0x18, regval.mk 0x33af 0x18, regval.mk 0x3400 0x16, regval.mk 0x3410 0x04,
  regval.mk 0x360f 0x13, regval.mk 0x3621 0xec, regval.mk 0x3627 0xa0, regval.mk 0x3630 0x90, regval.mk 0x3633 0x56, regval.mk 0x3637 0x1d,
  regval.mk 0x3638 0x0a, regval.mk 0x363c 0x0f, regval.mk 0x363d 0x0f, regval.mk 0x363e 0x08, regval.mk 0x3670 0x4a, regval.mk 0x3671 0xe0,
  regval.mk 0x3672 0xe0, regval.mk 0x3673 0xe0, regval.mk 0x3674 0xb0, regval.mk 0x3675 0x88, regval.mk 0x3676 0x8c, regval.mk 0x367a 0x48,
  regval.mk 0x367b 0x58, regval.mk 0x367c 0x48, regval.mk 0x367d 0x58, regval.mk 0x3690 0x34, regval.mk 0x3691 0x43, regval.mk 0x3692 0x44,
  regval.mk 0x3699 0x03, regval.mk 0x369a 0x0f, regval.mk 0x369b 0x1f, regval.mk 0x369c 0x40, regval.mk 0x369d 0x48, regval.mk 0x36a2 0x48,
  regval.mk 0x36a3 0x78, regval.mk 0x36b0 0x54, regval.mk 0x36b1 0x55, regval.mk 0x36b2 0x55, regval.mk 0x36b3 0x48, regval.mk 0x36b4 0x78,
  regval.mk 0x36b7 0xa0, regval.mk 0x36b8 0xa0, regval.mk 0x36b9 0x20, regval.mk 0x36bd 0x40, regval.mk 0x36be 0x48, regval.mk 0x36d0 0x20,
  regval.mk 0x36e0 0x08, regval.mk 0x36e1 0x08, regval.mk 0x36e2 0x12, regval.mk 0x36e3 0x48, regval.mk 0x36e4 0x78, regval.mk 0x36fa 0x0d,
  regval.mk 0x36fb 0xa4, regval.mk 0x36fc 0x00, regval.mk 0x36fd 0x24, regval.mk 0x3900 0x07, regval.mk 0x3902 0xf0, regval.mk 0x3907 0x00,
  regval.mk 0x3908 0x41, regval.mk 0x391e 0x01, regval.mk 0x391f 0x11, regval.mk 0x3921 0x10, regval.mk 0x3933 0x82, regval.mk 0x3934 0x0b,
  regval.mk 0x3935 0x02, regval.mk 0x3936 0x5e, regval.mk 0x3937 0x76, regval.mk 0x3938 0x78, regval.mk 0x3939 0x00, regval.mk 0x393a 0x28,
  regval.mk 0x393b 0x00, regval.mk 0x393c 0x1d, regval.mk 0x3e00 0x01, regval.mk 0x3e01 0x6b, regval.mk 0x3e02 0x00, regval.mk 0x3e03 0x0b,
  regval.mk 0x3e04 0x16, regval.mk 0x3e05 0xb0, regval.mk 0x3e06 0x00, regval.mk 0x3e07 0x80, regval.mk 0x3e08 0x03, regval.mk 0x3e09 0x40,
  regval.mk 0x3e10 0x00, regval.mk 0x3e11 0x80, regval.mk 0x3e12 0x03, regval.mk 0x3e13 0x40, regval.mk 0x3e1b 0x2a, regval.mk 0x3e22 0x00,
  regval.mk 0x3e23 0x00, regval.mk 0x3e24 0xba, regval.mk 0x440e 0x02, regval.mk 0x4503 0x60, regval.mk 0x4509 0x20, regval.mk 0x4837 0x16,
  regval.mk 0x4853 0xf8, regval.mk 0x5000 0x0e, regval.mk 0x5001 0x44, regval.mk 0x5011 0x80, regval.mk 0x5780 0x76, regval.mk 0x5784 0x08,
  regval.mk 0x5785 0x04, regval.mk 0x5787 0x0a, regval.mk 0x5788 0x0a, regval.mk 0x5789 0x0a, regval.mk 0x578a 0x0a, regval.mk 0x578b 0x0a,
  regval.mk 0x578c 0x0a, regval.mk 0x578d 0x40, regval.mk 0x5790 0x08, regval.mk 0x5791 0x04, regval.mk 0x5792 0x04, regval.mk 0x5793 0x08,
  regval.mk 0x5794 0x04, regval.mk 0x5795 0x04, regval.mk 0x5799 0x46, regval.mk 0x579a 0x77, regval.mk 0x57a1 0x04, regval.mk 0x57a8 0xd0,
  regval.mk 0x57aa 0x2a, regval.mk 0x57ab 0x7f, regval.mk 0x57ac 0x00, regval.mk 0x57ad 0x00, regval.mk 0x59e0 0xfe, regval.mk 0x59e1 0x40,
  regval.mk 0x59e2 0x3f, regval.mk 0x59e3 0x38, regval.mk 0x59e4 0x30, regval.mk 0x59e5 0x3f, regval.mk 0x59e6 0x38, regval.mk 0x59e7 0x30,
  regval.mk 0x59e8 0x3f, regval.mk 0x59e9 0x3c, regval.mk 0x59ea 0x38, regval.mk 0x59eb 0x3f, regval.mk 0x59ec 0x3c, regval.mk 0x59ed 0x38,
  regval.mk 0x59ee 0xfe, regval.mk 0x59ef 0x40, regval.mk 0x59f4 0x3f, regval.mk 0x59f5 0x38, regval.mk 0x59f6 0x30, regval.mk 0x59f7 0x3f,
  regval.mk 0x59f8 0x38, regval.mk 0x59f9 0x30, regval.mk 0x59fa 0x3f, regval.mk 0x59fb 0x3c, regval.mk 0x59fc 0x38, regval.mk 0x59fd 0x3f,
  regval.mk 0x59fe 0x3c, regval.mk 0x59ff 0x38, regval.mk 0x36e9 0x44, regval.mk 0x36f9 0x20, regval.mk REG_NULL 0x00]

/-- Catalog `supported_modes_2lane` (lines 1191-1249). -/
def supported_modes_2lane : List sc450ai_mode := [
  { width := 2688, height := 1520,
    max_fps := { numerator := 10000, denominator := 300000 },
    exp_def := 0x0080, hts_def := 0x2ee * 4, vts_def := 0x0638,
    bus_fmt := MEDIA_BUS_FMT_SBGGR10_1X10,
    reg_list := sc450ai_linear_10_2688x1520_30fps_2lane_regs,
    hdr_mode := NO_HDR, xvclk_freq := 27000000, link_freq_idx := 1,
    vc := [0, 0, 0, 0], lanes := 2 },
  { width := 2688, height := 1520,
    max_fps := { numerator := 10000, denominator := 250000 },
    exp_def := 0x0080, hts_def := 0x39e * 4, vts_def := 0x0c26,
    bus_fmt := MEDIA_BUS_FMT_SBGGR10_1X10,
    reg_list := sc450ai_hdr2_10_2688x1520_25fps_2lane_regs,
    hdr_mode := HDR_X2, xvclk_freq := 27000000, link_freq_idx := 2,
    vc := [1, 0, 1, 1], lanes := 2 },
  { width := 1344, height := 760,
    max_fps := { numerator := 10000, denominator := 1200000 },
    exp_def := 0x0080, hts_def := 0x03a8, vts_def := 0x030c,
    bus_fmt := MEDIA_BUS_FMT_SBGGR10_1X10,
    reg_list := sc450ai_linear_10_1344x760_120fps_2lane_regs,
    hdr_mode := NO_HDR, xvclk_freq := 27000000, link_freq_idx := 1,
    vc := [0, 0, 0, 0], lanes := 2 }]

/-- Catalog `supported_modes_4lane` (lines 1251-1291). -/
def supported_modes_4lane : List sc450ai_mode := [
  { width := 2688, height := 1520,
    max_fps := { numerator := 10000, denominator := 300000 },
    exp_def := 0x0080, hts_def := 0x2ee * 4, vts_def := 0x0c30,
    bus_fmt := MEDIA_BUS_FMT_SBGGR10_1X10,
    reg_list := sc450ai_linear_10_2688x1520_30fps_4lane_regs,
    hdr_mode := NO_HDR, xvclk_freq := 27000000, link_freq_idx := 0,
    vc := [0, 0, 0, 0], lanes := 4 },
  { width := 2688, height := 1520,
    max_fps := { numerator := 10000, denominator := 300000 },
    exp_def := 0x0080, hts_def := 0x3a8 * 4, vts_def := 0x0c30,
    bus_fmt := MEDIA_BUS_FMT_SBGGR10_1X10,
    reg_list := sc450ai_hdr2_10_2688x1520_30fps_4lane_regs,
    hdr_mode := HDR_X2, xvclk_freq := 27000000, link_freq_idx := 1,
    vc := [1, 0, 1, 1], lanes := 4 }]

/-- `link_freq_menu_items` (lines 1293-1297). -/
def link_freq_menu_items : List Nat := [180000000, 360000000, 540000000]

/-! ## Best-fit mode selection (lines 1489-1514) -/

/-- Difference of two `u32` values, taken in `u32`. -/
def u32_sub (a b : Nat) : Nat := (a % U32 + U32 - b % U32) % U32

/-- Value of a `u32` converted to `int`. -/
def to_s32 (x : Nat) : Int :=
  if x % U32 < 2147483648 then ((x % U32 : Nat) : Int) else ((x % U32 : Nat) : Int) - 4294967296

/-- An integer result brought back into the range of `int` (two's complement). -/
def wrap_s32 (x : Int) : Int := (x + 2147483648) % 4294967296 - 2147483648

/-- Modelled from the spec: `|a - b|` as the kernel's `abs()` takes it of a `u32`
operand (the macro is in `linux/math.h`, not among the sources): the operand is
read as an `int` and negated when negative. -/
def abs_u32 (x : Nat) : Int :=
  if to_s32 x < 0 then wrap_s32 (- to_s32 x) else to_s32 x

/-- Lines 1489-1494: `sc450ai_get_reso_dist`; the differences are `u32`
subtractions and the sum is an `int`. -/
def sc450ai_get_reso_dist (mode : sc450ai_mode) (width height : Nat) : Int :=
  wrap_s32 (abs_u32 (u32_sub mode.width width) + abs_u32 (u32_sub mode.height height))

/-- Lines 1505-1511: the loop of `sc450ai_find_best_fit` over the entries from
index `i` on, carrying `cur_best_fit` and `cur_best_fit_dist`. -/
def find_best_fit_loop (width height : Nat) :
    List sc450ai_mode → Nat → Nat × Int → Nat × Int
  | [], _, acc => acc
  | mode :: rest, i, (cur_best_fit, cur_best_fit_dist) =>
    let dist := sc450ai_get_reso_dist mode width height
    if cur_best_fit_dist = -1 ∨ dist < cur_best_fit_dist then
      find_best_fit_loop width height rest (i + 1) (i, dist)
    else
      find_best_fit_loop width height rest (i + 1) (cur_best_fit, cur_best_fit_dist)

/-- Lines 1496-1514: `sc450ai_find_best_fit` on a catalog and the requested
frame size; the result is the index `cur_best_fit` of the entry returned. -/
def sc450ai_find_best_fit (supported_modes : List sc450ai_mode) (width height : Nat) : Nat :=
  (find_best_fit_loop width height supported_modes 0 (0, -1)).1

/-- Distance `|mode.width - width| + |mode.height - height|` of the
specification, over the integers. -/
def manhattan_dist (mode : sc450ai_mode) (width height : Nat) : Int :=
  |(mode.width : Int) - (width : Int)| + |(mode.height : Int) - (height : Int)|

/-! ## Register access (lines 1307-1381) -/

def EINVAL : Int := 22

def EIO : Int := 5

def ENOIOCTLCMD : Int := 515

def SC450AI_REG_VALUE_08BIT : Nat := 1

def SC450AI_REG_VALUE_16BIT : Nat := 2

/-- One transfer attempted on the bus: a register write with the payload bytes
put on the wire, or a register read, and whether it went through. -/
inductive i2c_msg where
  | write (reg len val : Nat) (ok : Bool)
  | read (reg len : Nat) (ok : Bool)
deriving DecidableEq, Repr

/-- The bus as the driver sees it (`struct i2c_client`).  `xfer_ok n` tells
whether the `n`-th transfer attempted succeeds, `rd_data n` is the data it
returns when it is a read, `log` lists the transfers attempted so far. -/
structure i2c_client where
  xfer_ok : Nat → Bool
  rd_data : Nat → Nat
  log : List i2c_msg

/-- `ret |= x` on `int` values (two's complement). -/
def int_or (a b : Int) : Int :=
  to_s32 (Int.toNat (a % 4294967296) ||| Int.toNat (b % 4294967296))

/-- Lines 1308-1333: `sc450ai_write_reg`.  The low `len` bytes of `val` are
sent after the address. -/
def sc450ai_write_reg (client : i2c_client) (reg len val : Nat) : Int × i2c_client :=
  if len > 4 then (- EINVAL, client)
  else
    let ok := client.xfer_ok client.log.length
    let client1 : i2c_client :=
      { client with log := client.log ++ [i2c_msg.write reg len (val % 2 ^ (8 * len)) ok] }
    if ok then (0, client1) else (- EIO, client1)

/-- Lines 1335-1346: `sc450ai_write_array`; stops at the first failing write
and at the `REG_NULL` sentinel. -/
def sc450ai_write_array (client : i2c_client) : List regval → Int × i2c_client
  | [] => (0, client)
  | r :: regs =>
    if r.addr = REG_NULL then (0, client)
    else
      let w := sc450ai_write_reg client r.addr SC450AI_REG_VALUE_08BIT r.val
      if w.1 = 0 then sc450ai_write_array w.2 regs else w

/-- Lines 1349-1381: `sc450ai_read_reg`; the result is the return code, the
value stored through `val` (the old one when the transfer fails) and the bus. -/
def sc450ai_read_reg (client : i2c_client) (reg len val : Nat) : Int × Nat × i2c_client :=
  if len > 4 ∨ len = 0 then (- EINVAL, val, client)
  else
    let n := client.log.length
    let ok := client.xfer_ok n
    let client1 : i2c_client := { client with log := client.log ++ [i2c_msg.read reg len ok] }
    if ok then (0, client.rd_data n % 2 ^ (8 * len), client1) else (- EIO, val, client1)

/-! ## Sensor state (lines 146-186) -/

def SC450AI_REG_CTRL_MODE : Nat := 0x0100

def SC450AI_MODE_SW_STANDBY : Nat := 0x0

def SC450AI_MODE_STREAMING : Nat := 1

def SC450AI_REG_EXPOSURE_H : Nat := 0x3e00

def SC450AI_REG_EXPOSURE_M : Nat := 0x3e01

def SC450AI_REG_EXPOSURE_L : Nat := 0x3e02

def SC450AI_REG_EXPOSURE_SHORT_H : Nat := 0x3e22

def SC450AI_REG_EXPOSURE_SHORT_M : Nat := 0x3e04

def SC450AI_REG_EXPOSURE_SHORT_L : Nat := 0x3e05

def SC450AI_VTS_MAX : Nat := 0x7fff

def SC450AI_REG_DIG_GAIN : Nat := 0x3e06

def SC450AI_REG_DIG_FINE_GAIN : Nat := 0x3e07

def SC450AI_REG_ANA_GAIN : Nat := 0x3e08

def SC450AI_REG_ANA_FINE_GAIN : Nat := 0x3e09

def SC450AI_REG_DIG_GAIN_SHORT : Nat := 0x3e10

def SC450AI_REG_DIG_FINE_GAIN_SHORT : Nat := 0x3e11

def SC450AI_REG_ANA_GAIN_SHORT : Nat := 0x3e12

def SC450AI_REG_ANA_FINE_GAIN_SHORT : Nat := 0x3e13

def SC450AI_REG_TEST_PATTERN : Nat := 0x4501

def SC450AI_TEST_PATTERN_BIT_MASK : Nat := 8

def SC450AI_REG_VTS_H : Nat := 0x320e

def SC450AI_REG_VTS_L : Nat := 0x320f

def SC450AI_FLIP_MIRROR_REG : Nat := 0x3221

def SC450AI_BITS_PER_SAMPLE : Nat := 10

def SC450AI_FETCH_EXP_H (VAL : Nat) : Nat := (VAL >>> 12) &&& 0xF

def SC450AI_FETCH_EXP_M (VAL : Nat) : Nat := (VAL >>> 4) &&& 0xFF

def SC450AI_FETCH_EXP_L (VAL : Nat) : Nat := (VAL &&& 0xF) <<< 4

def SC450AI_FETCH_MIRROR (VAL : Nat) (ENABLE : Bool) : Nat :=
  if ENABLE then VAL ||| 0x06 else VAL &&& 0xf9

def SC450AI_FETCH_FLIP (VAL : Nat) (ENABLE : Bool) : Nat :=
  if ENABLE then VAL ||| 0x60 else VAL &&& 0x9f

/-- The exposure record of `PREISP_CMD_SET_HDRAE_EXP`: the six `u32` register
values of `struct preisp_hdrae_exp_s` that the driver reads. -/
structure preisp_hdrae_exp_s where
  long_exp_reg : Nat
  long_gain_reg : Nat
  middle_exp_reg : Nat
  middle_gain_reg : Nat
  short_exp_reg : Nat
  short_gain_reg : Nat
deriving DecidableEq, Repr

/-- Modelled from the spec: a control of the V4L2 control framework (`struct
v4l2_ctrl`, not among the sources), reduced to its range and current value. -/
structure v4l2_ctrl where
  minimum : Int
  maximum : Int
  step : Int
  default_value : Int
  val : Int
deriving DecidableEq, Repr

/-- The driver state (`struct sc450ai`); `cfg_num` is the length of
`supported_modes` and `cur_mode` holds the catalog entry pointed to. -/
structure sc450ai where
  client : i2c_client
  exposure : v4l2_ctrl
  anal_gain : v4l2_ctrl
  hblank : v4l2_ctrl
  vblank : v4l2_ctrl
  pixel_rate : v4l2_ctrl
  link_freq : v4l2_ctrl
  test_pattern : v4l2_ctrl
  cur_fps : v4l2_fract
  streaming : Bool
  power_on : Bool
  cur_mode : sc450ai_mode
  cur_vts : Nat
  has_init_exp : Bool
  is_thunderboot : Bool
  is_first_streamoff : Bool
  init_hdrae_exp : preisp_hdrae_exp_s
  supported_modes : List sc450ai_mode

/-- Modelled from the spec: `__v4l2_ctrl_modify_range` of the control framework
(not among the sources) "recomputes derived blanking-control ranges": the
control takes the new range.  What the framework then does with the current
value is left out. -/
def __v4l2_ctrl_modify_range (ctrl : v4l2_ctrl) (min max step def_ : Int) : v4l2_ctrl :=
  { ctrl with minimum := min, maximum := max, step := step, default_value := def_ }

/-- Modelled from the spec: `__v4l2_ctrl_s_ctrl` / `__v4l2_ctrl_s_ctrl_int64` of
the control framework (not among the sources) "republishes" a derived value:
the control takes the value. -/
def __v4l2_ctrl_s_ctrl (ctrl : v4l2_ctrl) (val : Int) : v4l2_ctrl :=
  { ctrl with val := val }

/-! ## Gain and exposure programming (lines 1383-1487, 1680-1743) -/

/-- Lines 1383-1487: `sc450ai_set_gain_reg`, the codes followed by the register
writes; the return codes are or-ed together. -/
def sc450ai_set_gain_reg (s : sc450ai) (gain : Nat) : Int × sc450ai :=
  let c := sc450ai_set_gain_reg_codes gain
  let w1 := sc450ai_write_reg s.client SC450AI_REG_DIG_GAIN SC450AI_REG_VALUE_08BIT
    c.coarse_dgain
  let w2 := sc450ai_write_reg w1.2 SC450AI_REG_DIG_FINE_GAIN SC450AI_REG_VALUE_08BIT
    c.fine_dgain
  let w3 := sc450ai_write_reg w2.2 SC450AI_REG_ANA_GAIN SC450AI_REG_VALUE_08BIT
    c.coarse_again
  let w4 := sc450ai_write_reg w3.2 SC450AI_REG_ANA_FINE_GAIN SC450AI_REG_VALUE_08BIT
    c.fine_again
  let ret := int_or (int_or (int_or w1.1 w2.1) w3.1) w4.1
  if s.cur_mode.hdr_mode = HDR_X2 then
    let w5 := sc450ai_write_reg w4.2 SC450AI_REG_DIG_GAIN_SHORT SC450AI_REG_VALUE_08BIT
      c.coarse_dgain
    let w6 := sc450ai_write_reg w5.2 SC450AI_REG_DIG_FINE_GAIN_SHORT SC450AI_REG_VALUE_08BIT
      c.fine_dgain
    let w7 := sc450ai_write_reg w6.2 SC450AI_REG_ANA_GAIN_SHORT SC450AI_REG_VALUE_08BIT
      c.coarse_again
    let w8 := sc450ai_write_reg w7.2 SC450AI_REG_ANA_FINE_GAIN_SHORT SC450AI_REG_VALUE_08BIT
      c.fine_again
    (int_or (int_or (int_or (int_or ret w5.1) w6.1) w7.1) w8.1, { s with client := w8.2 })
  else
    (ret, { s with client := w4.2 })

/-- Lines 1693-1743: the part of `sc450ai_set_hdrae` that programs the
registers, reached when the record is not stored for later. -/
def sc450ai_set_hdrae_apply (s : sc450ai) (ae : preisp_hdrae_exp_s) : Int × sc450ai :=
  let l_exp_time := ae.long_exp_reg
  let m_exp_time := ae.middle_exp_reg
  let s_exp_time := ae.short_exp_reg
  let l_a_gain := ae.long_gain_reg
  let m_a_gain := ae.middle_gain_reg
  let l_a_gain := if s.cur_mode.hdr_mode = HDR_X2 then m_a_gain else l_a_gain
  let l_exp_time := if s.cur_mode.hdr_mode = HDR_X2 then m_exp_time else l_exp_time
  let l_exp_time := l_exp_time * 2 % U32
  let s_exp_time := s_exp_time * 2 % U32
  let l_max := u32_sub (2 * u32_sub s.cur_vts 0xba % U32) 13
  let l_exp_time := if l_exp_time > l_max then l_max else l_exp_time
  let s_exp_time := if s_exp_time > 2 * 0xba - 11 then 2 * 0xba - 11 else s_exp_time
  let w1 := sc450ai_write_reg s.client SC450AI_REG_EXPOSURE_H SC450AI_REG_VALUE_08BIT
    (SC450AI_FETCH_EXP_H l_exp_time)
  let w2 := sc450ai_write_reg w1.2 SC450AI_REG_EXPOSURE_M SC450AI_REG_VALUE_08BIT
    (SC450AI_FETCH_EXP_M l_exp_time)
  let w3 := sc450ai_write_reg w2.2 SC450AI_REG_EXPOSURE_L SC450AI_REG_VALUE_08BIT
    (SC450AI_FETCH_EXP_L l_exp_time)
  let w4 := sc450ai_write_reg w3.2 SC450AI_REG_EXPOSURE_SHORT_M SC450AI_REG_VALUE_08BIT
    (SC450AI_FETCH_EXP_M s_exp_time)
  let w5 := sc450ai_write_reg w4.2 SC450AI_REG_EXPOSURE_SHORT_L SC450AI_REG_VALUE_08BIT
    (SC450AI_FETCH_EXP_L s_exp_time)
  let ret := int_or (int_or (int_or (int_or w1.1 w2.1) w3.1) w4.1) w5.1
  let g := sc450ai_set_gain_reg { s with client := w5.2 } l_a_gain
  (int_or ret g.1, g.2)

/-- Lines 1680-1743: `sc450ai_set_hdrae`. -/
def sc450ai_set_hdrae (s : sc450ai) (ae : preisp_hdrae_exp_s) : Int × sc450ai :=
  if !s.has_init_exp && !s.streaming then
    (0, { s with init_hdrae_exp := ae, has_init_exp := true })
  else
    sc450ai_set_hdrae_apply s ae

/-! ## Commands (lines 1745-1820) -/

/-- The commands of `sc450ai_ioctl` with the argument each one reads. -/
inductive sc450ai_cmd where
  | RKMODULE_GET_MODULE_INFO
  | RKMODULE_GET_HDR_CFG
  | RKMODULE_SET_HDR_CFG (hdr_mode : Nat)
  | PREISP_CMD_SET_HDRAE_EXP (ae : preisp_hdrae_exp_s)
  | RKMODULE_SET_QUICK_STREAM (stream : Nat)
  | unknown
deriving DecidableEq, Repr

/-- Lines 1770-1777: the search loop of `RKMODULE_SET_HDR_CFG` from index `i`
on; the result is the value of `i` when the loop is left (the index of the
first match, or `cfg_num`). -/
def set_hdr_cfg_loop (w h hdr_mode : Nat) : List sc450ai_mode → Nat → Nat
  | [], i => i
  | mode :: rest, i =>
    if w = mode.width ∧ h = mode.height ∧ mode.hdr_mode = hdr_mode then i
    else set_hdr_cfg_loop w h hdr_mode rest (i + 1)

/-- Lines 1784-1797: the control updates that follow a successful mode change in
`RKMODULE_SET_HDR_CFG`. -/
def set_hdr_cfg_update (s : sc450ai) (mode : sc450ai_mode) : sc450ai :=
  let w := u32_sub mode.hts_def mode.width
  let h := u32_sub mode.vts_def mode.height
  let dst_link_freq := mode.link_freq_idx
  let dst_pixel_rate :=
    (link_freq_menu_items.getD mode.link_freq_idx 0) % U32 / SC450AI_BITS_PER_SAMPLE * 2 % U32
      * mode.lanes % U32
  { s with
    cur_mode := mode
    hblank := __v4l2_ctrl_modify_range s.hblank w w 1 w
    vblank := __v4l2_ctrl_modify_range s.vblank h (u32_sub SC450AI_VTS_MAX mode.height) 1 h
    pixel_rate := __v4l2_ctrl_s_ctrl s.pixel_rate dst_pixel_rate
    link_freq := __v4l2_ctrl_s_ctrl s.link_freq dst_link_freq
    cur_fps := mode.max_fps }

/-- Lines 1745-1820: `sc450ai_ioctl`.  The third component is the HDR mode
written back through the argument by `RKMODULE_GET_HDR_CFG`. -/
def sc450ai_ioctl (s : sc450ai) : sc450ai_cmd → Int × sc450ai × Option Nat
  | .RKMODULE_GET_MODULE_INFO => (0, s, none)
  | .RKMODULE_GET_HDR_CFG => (0, s, some s.cur_mode.hdr_mode)
  | .RKMODULE_SET_HDR_CFG hdr_mode =>
    let w := s.cur_mode.width
    let h := s.cur_mode.height
    let i := set_hdr_cfg_loop w h hdr_mode s.supported_modes 0
    if i = s.supported_modes.length then (- EINVAL, s, none)
    else
      match s.supported_modes[i]? with
      | some mode => (0, set_hdr_cfg_update s mode, none)
      | none => (- EINVAL, s, none)
  | .PREISP_CMD_SET_HDRAE_EXP ae =>
    let r := sc450ai_set_hdrae s ae
    (r.1, r.2, none)
  | .RKMODULE_SET_QUICK_STREAM stream =>
    let w :=
      if stream ≠ 0 then
        sc450ai_write_reg s.client SC450AI_REG_CTRL_MODE SC450AI_REG_VALUE_08BIT
          SC450AI_MODE_STREAMING
      else
        sc450ai_write_reg s.client SC450AI_REG_CTRL_MODE SC450AI_REG_VALUE_08BIT
          SC450AI_MODE_SW_STANDBY
    (w.1, { s with client := w.2 }, none)
  | .unknown => (- ENOIOCTLCMD, s, none)

/-! ## Controls (lines 1628-1643, 2263-2362) -/

/-- The control ids handled by `sc450ai_set_ctrl`. -/
inductive v4l2_cid where
  | V4L2_CID_EXPOSURE
  | V4L2_CID_ANALOGUE_GAIN
  | V4L2_CID_VBLANK
  | V4L2_CID_TEST_PATTERN
  | V4L2_CID_HFLIP
  | V4L2_CID_VFLIP
  | unhandled
deriving DecidableEq, Repr

/-- Value of an `s32` control value converted to `u32`. -/
def s32_to_u32 (v : Int) : Nat := Int.toNat (v % 4294967296)

/-- Lines 1628-1643: `sc450ai_enable_test_pattern`. -/
def sc450ai_enable_test_pattern (s : sc450ai) (pattern : Nat) : Int × sc450ai :=
  let r := sc450ai_read_reg s.client SC450AI_REG_TEST_PATTERN SC450AI_REG_VALUE_08BIT 0
  let val :=
    if pattern ≠ 0 then r.2.1 ||| SC450AI_TEST_PATTERN_BIT_MASK
    else r.2.1 &&& (U32 - 1 - SC450AI_TEST_PATTERN_BIT_MASK)
  let w := sc450ai_write_reg r.2.2 SC450AI_REG_TEST_PATTERN SC450AI_REG_VALUE_08BIT val
  (int_or r.1 w.1, { s with client := w.2 })

/-- Lines 2263-2269: `sc450ai_modify_fps_info`; the product is a `u32` product. -/
def sc450ai_modify_fps_info (s : sc450ai) : sc450ai :=
  let mode := s.cur_mode
  { s with cur_fps :=
      { s.cur_fps with
        denominator := mode.max_fps.denominator * mode.vts_def % U32 / s.cur_vts } }

/-- Lines 2271-2362: `sc450ai_set_ctrl` for the control `id` with value `val`;
`in_use` is the answer of `pm_runtime_get_if_in_use`. -/
def sc450ai_set_ctrl (in_use : Bool) (s : sc450ai) (id : v4l2_cid) (val : Int) :
    Int × sc450ai :=
  let s :=
    if id = .V4L2_CID_VBLANK then
      let max_ : Int := ((s.cur_mode.height + s32_to_u32 val + U32 - 5) % U32 : Nat)
      { s with exposure :=
          (__v4l2_ctrl_modify_range s.exposure s.exposure.minimum max_ s.exposure.step
            s.exposure.default_value) }
    else s
  if !in_use then (0, s)
  else
    match id with
    | .V4L2_CID_EXPOSURE =>
      if s.cur_mode.hdr_mode = NO_HDR then
        let v := s32_to_u32 (val * 2)
        let w1 := sc450ai_write_reg s.client SC450AI_REG_EXPOSURE_H SC450AI_REG_VALUE_08BIT
          (SC450AI_FETCH_EXP_H v)
        let w2 := sc450ai_write_reg w1.2 SC450AI_REG_EXPOSURE_M SC450AI_REG_VALUE_08BIT
          (SC450AI_FETCH_EXP_M v)
        let w3 := sc450ai_write_reg w2.2 SC450AI_REG_EXPOSURE_L SC450AI_REG_VALUE_08BIT
          (SC450AI_FETCH_EXP_L v)
        (int_or (int_or w1.1 w2.1) w3.1, { s with client := w3.2 })
      else (0, s)
    | .V4L2_CID_ANALOGUE_GAIN =>
      if s.cur_mode.hdr_mode = NO_HDR then sc450ai_set_gain_reg s (s32_to_u32 val)
      else (0, s)
    | .V4L2_CID_VBLANK =>
      let vts := (s32_to_u32 val + s.cur_mode.height) % U32
      let w1 := sc450ai_write_reg s.client SC450AI_REG_VTS_H SC450AI_REG_VALUE_08BIT
        (vts >>> 8)
      let w2 := sc450ai_write_reg w1.2 SC450AI_REG_VTS_L SC450AI_REG_VALUE_08BIT
        (vts &&& 0xff)
      let s1 := { s with client := w2.2, cur_vts := vts }
      (int_or w1.1 w2.1,
        if s1.cur_vts ≠ s1.cur_mode.vts_def then sc450ai_modify_fps_info s1 else s1)
    | .V4L2_CID_TEST_PATTERN => sc450ai_enable_test_pattern s (s32_to_u32 val)
    | .V4L2_CID_HFLIP =>
      let r := sc450ai_read_reg s.client SC450AI_FLIP_MIRROR_REG SC450AI_REG_VALUE_08BIT 0
      let w := sc450ai_write_reg r.2.2 SC450AI_FLIP_MIRROR_REG SC450AI_REG_VALUE_08BIT
        (SC450AI_FETCH_MIRROR r.2.1 (val ≠ 0))
      (int_or r.1 w.1, { s with client := w.2 })
    | .V4L2_CID_VFLIP =>
      let r := sc450ai_read_reg s.client SC450AI_FLIP_MIRROR_REG SC450AI_REG_VALUE_08BIT 0
      let w := sc450ai_write_reg r.2.2 SC450AI_FLIP_MIRROR_REG SC450AI_REG_VALUE_08BIT
        (SC450AI_FETCH_FLIP r.2.1 (val ≠ 0))
      (int_or r.1 w.1, { s with client := w.2 })
    | .unhandled => (0, s)

/-- Answers of the kernel services the driver calls and the model does not
compute: `rkisp_tb_get_state() == RKISP_TB_NG`, the result of
`pm_runtime_get_sync`, whether `pm_runtime_get_if_in_use` is non-zero, and the
controls the control framework holds, with their current values, in the order
in which it re-applies them. -/
structure kernel_env where
  tb_ng : Bool
  pm_get_sync : Int
  pm_in_use : Bool
  ctrls : List (v4l2_cid × Int)

/-- Modelled from the spec: `__v4l2_ctrl_handler_setup` of the control framework
(not among the sources) "re-applies all pending control values": each control
is passed to `sc450ai_set_ctrl`, and the first error ends the pass. -/
def __v4l2_ctrl_handler_setup (in_use : Bool) (s : sc450ai) :
    List (v4l2_cid × Int) → Int × sc450ai
  | [] => (0, s)
  | c :: rest =>
    let r := sc450ai_set_ctrl in_use s c.1 c.2
    if r.1 ≠ 0 then r else __v4l2_ctrl_handler_setup in_use r.2 rest

/-! ## Format and frame interval (lines 1516-1562, 1645-1656) -/

/-- The fields of `struct v4l2_subdev_format` that `sc450ai_set_fmt` reads
and writes; `which_try` says whether `which` is `V4L2_SUBDEV_FORMAT_TRY`. -/
structure v4l2_subdev_format where
  which_try : Bool
  code : Nat
  width : Nat
  height : Nat
deriving DecidableEq, Repr

/-- Lines 1541-1557: the mode change of `sc450ai_set_fmt` for an active
format; the blanking values are `u32` differences. -/
def set_fmt_update (s : sc450ai) (mode : sc450ai_mode) : sc450ai :=
  let h_blank := u32_sub mode.hts_def mode.width
  let vblank_def := u32_sub mode.vts_def mode.height
  let dst_link_freq := mode.link_freq_idx
  let dst_pixel_rate :=
    (link_freq_menu_items.getD mode.link_freq_idx 0) % U32 / SC450AI_BITS_PER_SAMPLE * 2 % U32
      * mode.lanes % U32
  { s with
    cur_mode := mode
    hblank := __v4l2_ctrl_modify_range s.hblank h_blank h_blank 1 h_blank
    vblank := __v4l2_ctrl_modify_range s.vblank vblank_def
      (u32_sub SC450AI_VTS_MAX mode.height) 1 vblank_def
    pixel_rate := __v4l2_ctrl_s_ctrl s.pixel_rate dst_pixel_rate
    link_freq := __v4l2_ctrl_s_ctrl s.link_freq dst_link_freq
    cur_fps := mode.max_fps }

/-- Lines 1516-1562: `sc450ai_set_fmt`, built with the subdev API: a try format
is kept in the subdev state, which is not part of the driver state. -/
def sc450ai_set_fmt (s : sc450ai) (fmt : v4l2_subdev_format) :
    Int × sc450ai × v4l2_subdev_format :=
  let mode := s.supported_modes.getD
    (sc450ai_find_best_fit s.supported_modes fmt.width fmt.height) default
  let fmt := { fmt with code := mode.bus_fmt, width := mode.width, height := mode.height }
  if fmt.which_try then (0, s, fmt) else (0, set_fmt_update s mode, fmt)

/-- Lines 1645-1656: `sc450ai_g_frame_interval`: the return code and the
interval reported. -/
def sc450ai_g_frame_interval (s : sc450ai) : Int × v4l2_fract :=
  (0, if s.streaming then s.cur_fps else s.cur_mode.max_fps)

/-- A run of vertical-blank updates: `sc450ai_set_ctrl` for `V4L2_CID_VBLANK`
with each value in turn, the device being in use. -/
def vblank_updates (s : sc450ai) (vs : List Int) : sc450ai :=
  vs.foldl (fun t v => (sc450ai_set_ctrl true t .V4L2_CID_VBLANK v).2) s

/-! ## Streaming (lines 1906-1978) -/

/-- Lines 1928-1930: the write of the streaming bit that ends
`__sc450ai_start_stream`. -/
def start_stream_mode_write (s : sc450ai) : Int × sc450ai :=
  let w := sc450ai_write_reg s.client SC450AI_REG_CTRL_MODE SC450AI_REG_VALUE_08BIT
    SC450AI_MODE_STREAMING
  (w.1, { s with client := w.2 })

/-- Lines 1918-1926: the HDR-apply step of `__sc450ai_start_stream`: the stored
record goes through `sc450ai_ioctl` when one is held and the mode is an HDR
mode; a failure ends the start. -/
def start_stream_hdr_apply (s : sc450ai) : Int × sc450ai :=
  if s.has_init_exp && s.cur_mode.hdr_mode != NO_HDR then
    let r := sc450ai_ioctl s (.PREISP_CMD_SET_HDRAE_EXP s.init_hdrae_exp)
    if r.1 ≠ 0 then (r.1, r.2.1) else start_stream_mode_write r.2.1
  else start_stream_mode_write s

/-- Lines 1906-1931: `__sc450ai_start_stream`. -/
def __sc450ai_start_stream (env : kernel_env) (s : sc450ai) : Int × sc450ai :=
  if !s.is_thunderboot then
    let w := sc450ai_write_array s.client s.cur_mode.reg_list
    if w.1 ≠ 0 then (w.1, { s with client := w.2 })
    else
      let c := __v4l2_ctrl_handler_setup env.pm_in_use { s with client := w.2 } env.ctrls
      if c.1 ≠ 0 then c else start_stream_hdr_apply c.2
  else start_stream_mode_write s

/-- Lines 1933-1940: `__sc450ai_stop_stream`. -/
def __sc450ai_stop_stream (s : sc450ai) : Int × sc450ai :=
  let s1 := { s with has_init_exp := false }
  let s2 := if s1.is_thunderboot then { s1 with is_first_streamoff := true } else s1
  let w := sc450ai_write_reg s2.client SC450AI_REG_CTRL_MODE SC450AI_REG_VALUE_08BIT
    SC450AI_MODE_SW_STANDBY
  (w.1, { s2 with client := w.2 })

/-- Lines 1943-1978: `sc450ai_s_stream`.  The power sequencing of
`__sc450ai_power_on` and the runtime-PM reference counting touch no field of
the driver state and are left out. -/
def sc450ai_s_stream (env : kernel_env) (s : sc450ai) (on_ : Int) : Int × sc450ai :=
  let on_ : Bool := decide (on_ ≠ 0)
  if on_ = s.streaming then (0, s)
  else if on_ then
    let s1 := if s.is_thunderboot && env.tb_ng then { s with is_thunderboot := false } else s
    let ret := env.pm_get_sync
    if ret < 0 then (ret, s1)
    else
      let r := __sc450ai_start_stream env s1
      if r.1 ≠ 0 then r else (r.1, { r.2 with streaming := on_ })
  else
    let r := __sc450ai_stop_stream s
    (0, { r.2 with streaming := on_ })

/-! ## Probe (lines 2368-2446, 2541-2558) -/

def SC450AI_LANES_4LANE : Nat := 4

def SC450AI_MAX_LINK_FREQ : Nat := 540000000

def SC450AI_EXPOSURE_MIN : Nat := 1

def SC450AI_EXPOSURE_STEP : Nat := 1

def SC450AI_GAIN_STEP : Nat := 1

def SC450AI_GAIN_DEFAULT : Nat := 0x40

/-- Modelled from the spec: a control as `v4l2_ctrl_new_std` and its menu
variants of the control framework (not among the sources) create it, holding
its default value. -/
def v4l2_ctrl_new_std (min max step def_ : Int) : v4l2_ctrl :=
  { minimum := min, maximum := max, step := step, default_value := def_, val := def_ }

/-- Lines 2368-2446: `sc450ai_initialize_controls`, the controls kept in the
driver state. -/
def sc450ai_initialize_controls (s : sc450ai) : sc450ai :=
  let mode := s.cur_mode
  let dst_link_freq := mode.link_freq_idx
  let max_dst_pixel_rate := SC450AI_MAX_LINK_FREQ / SC450AI_BITS_PER_SAMPLE * 2 * SC450AI_LANES_4LANE
  let dst_pixel_rate :=
    (link_freq_menu_items.getD mode.link_freq_idx 0) % U32 / SC450AI_BITS_PER_SAMPLE * 2 % U32
      * mode.lanes % U32
  let h_blank := u32_sub mode.hts_def mode.width
  let vblank_def := u32_sub mode.vts_def mode.height
  let exposure_max := u32_sub mode.vts_def 8
  { s with
    link_freq := __v4l2_ctrl_s_ctrl
      (v4l2_ctrl_new_std 0 ((link_freq_menu_items.length : Int) - 1) 0 0) dst_link_freq
    pixel_rate := v4l2_ctrl_new_std 0 max_dst_pixel_rate 1 dst_pixel_rate
    hblank := v4l2_ctrl_new_std h_blank h_blank 1 h_blank
    vblank := v4l2_ctrl_new_std vblank_def (u32_sub SC450AI_VTS_MAX mode.height) 1 vblank_def
    exposure := v4l2_ctrl_new_std SC450AI_EXPOSURE_MIN exposure_max SC450AI_EXPOSURE_STEP
      mode.exp_def
    anal_gain := v4l2_ctrl_new_std SC450AI_GAIN_MIN SC450AI_GAIN_MAX SC450AI_GAIN_STEP
      SC450AI_GAIN_DEFAULT
    test_pattern := v4l2_ctrl_new_std 0 4 0 0
    has_init_exp := false
    cur_fps := mode.max_fps }

/-- Lines 2550-2558: the mode `sc450ai_probe` starts with, the first entry of
the requested HDR kind or else entry 0. -/
def probe_cur_mode (supported_modes : List sc450ai_mode) (hdr_mode : Nat) : sc450ai_mode :=
  match supported_modes.find? (fun m => decide (hdr_mode = m.hdr_mode)) with
  | some m => m
  | none => supported_modes.getD 0 default

/-- Lines 2501-2666: the driver state at the end of a successful
`sc450ai_probe`, for the lane count and HDR kind given by the firmware node.
The state is zero-allocated. -/
def sc450ai_probe (client : i2c_client) (num_data_lanes hdr_mode : Nat)
    (is_thunderboot : Bool) : sc450ai :=
  let supported_modes :=
    if num_data_lanes = SC450AI_LANES_4LANE then supported_modes_4lane
    else supported_modes_2lane
  let zero : v4l2_ctrl := { minimum := 0, maximum := 0, step := 0, default_value := 0, val := 0 }
  sc450ai_initialize_controls
    { client := client
      exposure := zero, anal_gain := zero, hblank := zero, vblank := zero
      pixel_rate := zero, link_freq := zero, test_pattern := zero
      cur_fps := { numerator := 0, denominator := 0 }
      streaming := false
      power_on := false
      cur_mode := probe_cur_mode supported_modes hdr_mode
      cur_vts := 0
      has_init_exp := false
      is_thunderboot := is_thunderboot
      is_first_streamoff := false
      init_hdrae_exp :=
        { long_exp_reg := 0, long_gain_reg := 0, middle_exp_reg := 0, middle_gain_reg := 0,
          short_exp_reg := 0, short_gain_reg := 0 }
      supported_modes := supported_modes }

/-- A bus on which every transfer succeeds and every read returns zero. -/
def i2c_all_ok : i2c_client :=
  { xfer_ok := fun _ => true, rd_data := fun _ => 0, log := [] }

/-- A bus on which every transfer fails. -/
def i2c_all_fail : i2c_client :=
  { xfer_ok := fun _ => false, rd_data := fun _ => 0, log := [] }

/-- A freshly probed 2-lane sensor in HDR_X2 mode on a bus without faults. -/
def probed_hdr_2lane : sc450ai := sc450ai_probe i2c_all_ok 2 HDR_X2 false

/-- A sample exposure record. -/
def sample_hdrae : preisp_hdrae_exp_s :=
  { long_exp_reg := 1, long_gain_reg := 64, middle_exp_reg := 2, middle_gain_reg := 64,
    short_exp_reg := 3, short_gain_reg := 64 }

/-- A kernel in which runtime PM is active and the control pass re-applies the
default vertical blank and gain. -/
def sample_env : kernel_env :=
  { tb_ng := false, pm_get_sync := 0, pm_in_use := true,
    ctrls := [(.V4L2_CID_VBLANK, 1590), (.V4L2_CID_ANALOGUE_GAIN, 64)] }

/-! ## Reading the transfer log -/

/-- Whether a logged transfer failed. -/
def i2c_msg.failed : i2c_msg → Bool
  | .write _ _ _ ok => !ok
  | .read _ _ ok => !ok

/-- Register and payload of a logged write. -/
def i2c_msg.written : i2c_msg → Option (Nat × Nat)
  | .write reg _ val _ => some (reg, val)
  | .read _ _ _ => none

/-- The register writes of a log, in order, as (register, payload) pairs. -/
def writes_of (log : List i2c_msg) : List (Nat × Nat) :=
  log.filterMap i2c_msg.written

/-- The bus `c2` is the bus `c1` after a call that returned `ret`: the answers
of the bus are the same, the log has grown at its end, the return code is 0 or
`-EIO`, and it is 0 only if every transfer added went through. -/
def runs_to (c1 c2 : i2c_client) (ret : Int) : Prop :=
  (ret = 0 ∨ ret = - EIO) ∧ c2.xfer_ok = c1.xfer_ok ∧ c2.rd_data = c1.rd_data ∧
    ∃ added : List i2c_msg, c2.log = c1.log ++ added ∧
      (ret = 0 → ∀ m ∈ added, m.failed = false)

/-- Lines 1693-1715: the long exposure `l_exp_time` of `sc450ai_set_hdrae` when
the registers are written. -/
def set_hdrae_l_exp_time (s : sc450ai) (ae : preisp_hdrae_exp_s) : Nat :=
  let l_exp_time := if s.cur_mode.hdr_mode = HDR_X2 then ae.middle_exp_reg else ae.long_exp_reg
  let l_exp_time := l_exp_time * 2 % U32
  let l_max := u32_sub (2 * u32_sub s.cur_vts 0xba % U32) 13
  if l_exp_time > l_max then l_max else l_exp_time

/-- Lines 1695-1717: the short exposure `s_exp_time` of `sc450ai_set_hdrae` when
the registers are written. -/
def set_hdrae_s_exp_time (ae : preisp_hdrae_exp_s) : Nat :=
  let s_exp_time := ae.short_exp_reg * 2 % U32
  if s_exp_time > 2 * 0xba - 11 then 2 * 0xba - 11 else s_exp_time

/-- Lines 1696-1708: the gain `l_a_gain` that `sc450ai_set_hdrae` passes to
`sc450ai_set_gain_reg`. -/
def set_hdrae_l_a_gain (s : sc450ai) (ae : preisp_hdrae_exp_s) : Nat :=
  if s.cur_mode.hdr_mode = HDR_X2 then ae.middle_gain_reg else ae.long_gain_reg

/-- The (register, payload) pairs written by `sc450ai_set_gain_reg`: the four
codes, and once more to the short-frame registers in HDR_X2 mode. -/
def gain_reg_writes (s : sc450ai) (gain : Nat) : List (Nat × Nat) :=
  let c := sc450ai_set_gain_reg_codes gain
  [(SC450AI_REG_DIG_GAIN, c.coarse_dgain % 256), (SC450AI_REG_DIG_FINE_GAIN, c.fine_dgain % 256),
    (SC450AI_REG_ANA_GAIN, c.coarse_again % 256), (SC450AI_REG_ANA_FINE_GAIN, c.fine_again % 256)]
  ++ (if s.cur_mode.hdr_mode = HDR_X2 then
        [(SC450AI_REG_DIG_GAIN_SHORT, c.coarse_dgain % 256),
          (SC450AI_REG_DIG_FINE_GAIN_SHORT, c.fine_dgain % 256),
          (SC450AI_REG_ANA_GAIN_SHORT, c.coarse_again % 256),
          (SC450AI_REG_ANA_FINE_GAIN_SHORT, c.fine_again % 256)]
      else [])

/-- A bus on which the transfer of index `k` fails and all others succeed. -/
def i2c_fail_at (k : Nat) : i2c_client :=
  { xfer_ok := fun n => decide (n ≠ k), rd_data := fun _ => 0, log := [] }

/-- A 2-lane sensor after `sc450ai_set_fmt` with an active format of
2688x1520: the linear mode, at its `max_fps`. -/
def formatted_2lane : sc450ai :=
  (sc450ai_set_fmt (sc450ai_probe i2c_all_ok 2 NO_HDR false)
    { which_try := false, code := 0, width := 2688, height := 1520 }).2.1

/-- The frame-rate denominator after a run of vertical-blank updates on the
mode `m`: the one of the last update whose vertical total `height + v` differs
from `vts_def`, and the one of `max_fps` when there is none. -/
def fps_denominator_after (m : sc450ai_mode) (vs : List Int) : Nat :=
  match (vs.filter (fun v => decide ((m.height : Int) + v ≠ m.vts_def))).getLast? with
  | none => m.max_fps.denominator
  | some v => m.max_fps.denominator * m.vts_def / ((m.height : Int) + v).toNat

/-! ## Restart of the stream -/

/-- The (register, payload) pairs of a register list, in the order of the
list and up to the `REG_NULL` sentinel. -/
def reg_list_writes (regs : List regval) : List (Nat × Nat) :=
  (regs.takeWhile (fun r => decide (r.addr ≠ REG_NULL))).map (fun r => (r.addr, r.val))

/-- A restart: `sc450ai_s_stream` with 0, then `sc450ai_s_stream` with 1. -/
def restart (env : kernel_env) (s : sc450ai) : Int × sc450ai :=
  sc450ai_s_stream env (sc450ai_s_stream env s 0).2 1

/-- The register writes of the start of a restart: those the second call adds
to the log the first call left. -/
def restart_writes (env : kernel_env) (s : sc450ai) : List (Nat × Nat) :=
  writes_of ((restart env s).2.client.log.drop (sc450ai_s_stream env s 0).2.client.log.length)

/-- The register writes of the control pass of `__sc450ai_start_stream` from
the state `s`. -/
def ctrl_setup_writes (env : kernel_env) (s : sc450ai) : List (Nat × Nat) :=
  writes_of ((__v4l2_ctrl_handler_setup env.pm_in_use s env.ctrls).2.client.log.drop
    s.client.log.length)

/-- The state in which `__sc450ai_start_stream` enters the control pass: the
register list of the current mode has been written. -/
def after_reg_list (s : sc450ai) : sc450ai :=
  { s with client := (sc450ai_write_array s.client s.cur_mode.reg_list).2 }

/-- Two buses answer alike from where their logs stand: every transfer goes
through on both, and reads at matching positions return the same data. -/
def bus_agree (c d : i2c_client) : Prop :=
  (∀ n, c.xfer_ok n = true) ∧ (∀ n, d.xfer_ok n = true) ∧
    ∀ j, c.rd_data (c.log.length + j) = d.rd_data (d.log.length + j)

/-- Two calls run alike: started on buses that answer alike, they leave buses
that answer alike, both return 0, and both add the same transfers. -/
def alike (c d c2 d2 : i2c_client) (r r2 : Int) : Prop :=
  bus_agree c d →
    bus_agree c2 d2 ∧ r = 0 ∧ r2 = 0 ∧
      ∃ added : List i2c_msg, c2.log = c.log ++ added ∧ d2.log = d.log ++ added

/-- A 2-lane sensor in HDR_X2 mode that is streaming. -/
def streaming_hdr_2lane : sc450ai :=
  { sc450ai_probe i2c_all_ok 2 HDR_X2 false with streaming := true }

end Sc450ai

/-!
# Sensor-to-ISP interface: routing and stream control

Shallow embedding of
`kernel-6.1/drivers/media/platform/rockchip/cif/subdev-itf.c`.

The state is the `sditf_priv` of one interface together with the `rkcif_device`
it points to.  `unsigned int` values are natural numbers reduced modulo `2^32`
where the C arithmetic can wrap.  Functions of other files of the driver are
parameters (`cif_ops`); so are the enumerators and macros of headers that are
not among the sources (`cif_consts`).
-/

namespace Sditf

/-! ## Types -/

/-- Modulus of `unsigned int` arithmetic. -/
def U32 : Nat := 4294967296

def EINVAL : Int := 22

/-- The values of `hdr_cfg.hdr_mode` and `hdr.hdr_mode` the file tests for. -/
inductive rkmodule_hdr_mode where
  | NO_HDR
  | HDR_X2
  | HDR_X3
  | HDR_COMPR
deriving DecidableEq, Repr

/-- The values of `toisp_inf.link_mode`. -/
inductive toisp_link_mode where
  | TOISP_NONE
  | TOISP0
  | TOISP1
  | TOISP_UNITE
deriving DecidableEq, Repr

/-- The values of `mode.rdbk_mode` the file names. -/
inductive rkisp_vicap_link where
  | RKISP_VICAP_ONLINE
  | RKISP_VICAP_ONLINE_UNITE
  | RKISP_VICAP_ONLINE_MULTI
  | RKISP_VICAP_RDBK_AIQ
  | RKISP_VICAP_RDBK_AUTO
deriving DecidableEq, Repr

/-- The second argument of `rkcif_do_start_stream` and `rkcif_do_stop_stream`. -/
inductive rkcif_stream_mode where
  | RKCIF_STREAM_MODE_TOISP
  | RKCIF_STREAM_MODE_TOISP_RDBK
deriving DecidableEq, Repr

/-- The values of `rkisp_rx_buf.type`. -/
inductive rkisp_buf_type where
  | BUF_SHORT
  | BUF_MIDDLE
  | BUF_LONG
deriving DecidableEq, Repr

/-- The registers the file accesses. -/
inductive cif_reg_index where
  | CIF_REG_GLB_INTEN
  | CIF_REG_MIPI_LVDS_CTRL
  | CIF_REG_TOISP0_CTRL
  | CIF_REG_TOISP0_CROP
  | CIF_REG_TOISP0_SIZE
  | CIF_REG_TOISP0_CH1_CTRL
  | CIF_REG_TOISP0_CH1_CROP
  | CIF_REG_TOISP0_CH1_SIZE
  | CIF_REG_TOISP0_CH2_CTRL
  | CIF_REG_TOISP0_CH2_CROP
  | CIF_REG_TOISP0_CH2_SIZE
  | CIF_REG_TOISP1_CTRL
  | CIF_REG_TOISP1_CROP
  | CIF_REG_TOISP1_SIZE
deriving DecidableEq, Repr

/-- One call of a register accessor: `rkcif_write_register`,
`rkcif_write_register_or`, `rkcif_write_register_and` or
`rkcif_read_register`. -/
inductive reg_op where
  | write (reg : cif_reg_index) (val : Nat)
  | write_or (reg : cif_reg_index) (val : Nat)
  | write_and (reg : cif_reg_index) (val : Nat)
  | read (reg : cif_reg_index)
deriving DecidableEq, Repr

/-- Enumerators and macros of `dev.h`, `regs.h` and `rk-camera-module.h`, which
are not among the sources: the chip identifiers the file compares with, the
unite overlap, the capture-enable bit and the interrupt-enable bits. -/
structure cif_consts where
  CHIP_RK3562_CIF : Nat
  CHIP_RK3576_CIF : Nat
  CHIP_RK3588_CIF : Nat
  CHIP_RV1103B_CIF : Nat
  RKMOUDLE_UNITE_EXTEND_PIXEL : Nat
  CSI_ENABLE_CAPTURE : Nat
  CIF_TOISP0_FS : Nat → Nat
  CIF_TOISP0_FE : Nat → Nat
  CIF_TOISP1_FS : Nat → Nat
  CIF_TOISP1_FE : Nat → Nat
  CIF_TOISP0_FS_RK3576 : Nat → Nat
  CIF_TOISP0_FE_RK3576 : Nat → Nat

/-- One entry of `toisp_inf.ch_info`. -/
structure toisp_ch_info where
  is_valid : Bool
  id : Nat
deriving DecidableEq, Repr

/-- The routing configuration `priv->toisp_inf`; `ch_info0`, `ch_info1` and
`ch_info2` are `ch_info[0]`, `ch_info[1]` and `ch_info[2]`. -/
structure toisp_info where
  link_mode : toisp_link_mode
  ch_info0 : toisp_ch_info
  ch_info1 : toisp_ch_info
  ch_info2 : toisp_ch_info
deriving DecidableEq, Repr

/-- The fields of `struct rkisp_vicap_mode` the file reads. -/
structure rkisp_vicap_mode where
  rdbk_mode : rkisp_vicap_link
  dev_id : Nat
deriving DecidableEq, Repr

/-- The fields of `struct rkisp_rx_buf` the file reads. -/
structure rkisp_rx_buf where
  type : rkisp_buf_type
  is_switch : Bool
  sequence : Nat
  runtime_us : Nat
deriving DecidableEq, Repr

/-- The value of `capture_info->mode` the file tests for, and the others. -/
inductive rkmodule_capture_mode where
  | RKMODULE_MULTI_DEV_COMBINE_ONE
  | RKMODULE_CAPTURE_MODE_OTHER
deriving DecidableEq, Repr

/-- The value of `inf_id` the file tests for, and the other one (dvp). -/
inductive rkcif_inf_id where
  | RKCIF_MIPI_LVDS
  | RKCIF_DVP
deriving DecidableEq, Repr

/-- The fields of `rkmodule_capture_info` read by the channel enable
functions; `dev_num`, `pixel_offset` and `dev_idx` are those of `multi_dev`. -/
structure rkmodule_capture_info where
  mode : rkmodule_capture_mode
  dev_num : Nat
  pixel_offset : Nat
  dev_idx : Nat → Nat

/-- The fields of `struct rkcif_stream` the file accesses; `to_en_dma_by_isp`
says whether `to_en_dma` is `RKCIF_DMAEN_BY_ISP`, `pixm_height` is
`pixm.height`. -/
structure rkcif_stream where
  id : Nat
  is_line_wake_up : Bool
  is_m_online_fb_res : Bool
  rx_buf_num : Nat
  is_in_vblank : Bool
  is_line_inten : Bool
  is_change_toisp : Bool
  thunderboot_skip_interval : Nat
  last_rx_buf_idx : Nat
  buf_cnt : Int
  total_buf_num : Nat
  rx_buf_head : List rkisp_rx_buf
  dma_en : Nat
  to_en_dma_by_isp : Bool
  is_finish_single_cap : Bool
  is_wait_single_cap : Bool
  pixm_height : Nat
  is_compact : Bool
  is_high_align : Bool

/-- The part of `struct rkcif_hw` read by `sditf_stop_stream`:
`pipe_stream_cnt i` is `hw_dev->cif_dev[i]->pipe.stream_cnt`. -/
structure rkcif_hw where
  dev_num : Nat
  pipe_stream_cnt : Nat → Int

/-- The fields of `struct rkcif_device` the file accesses; `capture_info` is
`channels[0].capture_info`, `hdr_mode` is `hdr.hdr_mode`,
`resume_mode_one_frame` says whether `resume_mode` is
`RKISP_RTT_MODE_ONE_FRAME`, `sensor_work_scheduled` records
`schedule_work(&cif_dev->sensor_work.work)`, and `terminal_sensor_sd` says
whether `terminal_sensor.sd` is set. -/
structure rkcif_device where
  chip_id : Nat
  csi_host_idx : Nat
  inf_id : rkcif_inf_id
  capture_info : rkmodule_capture_info
  hdr_mode : rkmodule_hdr_mode
  stream : Nat → rkcif_stream
  hw_dev : rkcif_hw
  is_thunderboot : Bool
  is_rdbk_to_online : Bool
  is_stop_skip : Bool
  wait_line_cache : Nat
  wait_line : Nat
  wait_line_bak : Nat
  fb_res_bufs : Nat
  resume_mode_one_frame : Bool
  sensor_off : Int
  sensor_work_on : Nat
  sensor_work_scheduled : Bool
  early_line : Nat
  sensor_linetime : Nat
  isp_runtime_max : Nat
  terminal_sensor_sd : Bool
  is_thunderboot_start : Bool
  resmem_size : Nat
  resmem_pa : Nat

/-- The fields of `struct sditf_priv` used by routing and stream control;
`hdr_mode` is `hdr_cfg.hdr_mode`, `cap_width` and `cap_height` are
`cap_info.width` and `cap_info.height`, `sensor_sd` says whether
`priv->sensor_sd` is set.  `reg_ops` is the list of register accesses made by
the functions of this file, oldest first; `buffree_work_scheduled` records
`schedule_work(&priv->buffree_work.work)`. -/
structure sditf_priv where
  cif_dev : rkcif_device
  hdr_mode : rkmodule_hdr_mode
  toisp_inf : toisp_info
  cap_width : Nat
  cap_height : Nat
  mode : rkisp_vicap_mode
  mode_src : rkisp_vicap_mode
  is_toisp_off : Bool
  is_buf_init : Bool
  buf_num : Nat
  stream_cnt : Int
  buf_free_list : List rkisp_rx_buf
  buffree_work_scheduled : Bool
  reg_ops : List reg_op
  sensor_sd : Bool
  hdr_wrap_line : Nat

/-- What `sditf_get_set_fmt` keeps of a `v4l2_subdev_format`. -/
structure subdev_format where
  code : Nat
  width : Nat
  height : Nat
deriving DecidableEq, Repr

/-- The fields of `v4l2_pix_format_mplane` set by `sditf_get_set_fmt`. -/
structure pix_format where
  pixelformat : Nat
  width : Nat
  height : Nat
deriving DecidableEq, Repr

/-- The fields of `struct rkisp_init_buf` read by `sditf_ioctl`. -/
structure rkisp_init_buf where
  buf_cnt : Nat
  hdr_wrap_line : Nat
deriving DecidableEq, Repr

/-- Functions of `capture.c`, which is not among the sources, as functions on
the device state; a stream is named by its index in `cif_dev->stream`.  The
calls into the sensor driver answer with their return value and what they
fill in: `sensor_get_hdr_cfg` is the `RKMODULE_GET_HDR_CFG` ioctl,
`sensor_get_fmt` and `sensor_get_selection` are the pad operations `get_fmt`
and `get_selection` (width and height of the crop bounds) of the terminal
sensor, `sensor_sd_get_fmt` and `sensor_sd_get_selection` those of
`priv->sensor_sd`.  `raw_bpp f` is `rkcif_find_output_fmt(NULL, f)->raw_bpp`. -/
structure cif_ops where
  rkcif_do_stop_stream : rkcif_device → Nat → rkcif_stream_mode → rkcif_device
  rkcif_free_rx_buf : rkcif_device → Nat → Nat → rkcif_device
  rkcif_reinit_right_half_config : rkcif_device → Nat → rkcif_device
  rkcif_modify_line_int : rkcif_device → Nat → Bool → rkcif_device
  rkcif_assign_check_buffer_update_toisp : rkcif_device → Nat → rkcif_device
  rkcif_enable_dma_capture : rkcif_device → Nat → Bool → rkcif_device
  rkcif_dphy_quick_stream : rkcif_device → Nat → rkcif_device
  rkcif_quick_stream_on : rkcif_device → Bool → rkcif_device
  rkcif_get_linetime : rkcif_device → Nat → Nat
  rkcif_do_start_stream : rkcif_device → Nat → rkcif_stream_mode → rkcif_device
  rkcif_update_sensor_info : rkcif_device → Nat → rkcif_device
  rkcif_set_fmt : rkcif_device → Nat → pix_format → rkcif_device
  rkcif_init_rx_buf : rkcif_device → Nat → Nat → Int × rkcif_device
  rkcif_mbus_pixelcode_to_v4l2 : Nat → Nat
  raw_bpp : Nat → Nat
  sensor_get_hdr_cfg : rkcif_device → Int × rkmodule_hdr_mode
  sensor_get_fmt : rkcif_device → Int × subdev_format
  sensor_get_selection : rkcif_device → Int × Nat × Nat
  sensor_sd_get_fmt : rkcif_device → Int × subdev_format
  sensor_sd_get_selection : rkcif_device → Int × Nat × Nat

/-! ## Register access -/

/-- Modelled from the spec: the register accessors live in `hw.c` and `dev.c`,
which are not among the sources; a call is recorded at the end of `reg_ops`. -/
def rkcif_write_register (priv : sditf_priv) (reg : cif_reg_index) (val : Nat) : sditf_priv :=
  { priv with reg_ops := priv.reg_ops ++ [reg_op.write reg val] }

/-- Modelled from the spec: see `rkcif_write_register`. -/
def rkcif_write_register_or (priv : sditf_priv) (reg : cif_reg_index) (val : Nat) : sditf_priv :=
  { priv with reg_ops := priv.reg_ops ++ [reg_op.write_or reg val] }

/-- Modelled from the spec: see `rkcif_write_register`. -/
def rkcif_write_register_and (priv : sditf_priv) (reg : cif_reg_index) (val : Nat) : sditf_priv :=
  { priv with reg_ops := priv.reg_ops ++ [reg_op.write_and reg val] }

/-- Modelled from the spec: see `rkcif_write_register`; the value read is only
printed. -/
def rkcif_read_register (priv : sditf_priv) (reg : cif_reg_index) : sditf_priv :=
  { priv with reg_ops := priv.reg_ops ++ [reg_op.read reg] }

/-- Whether a register access modifies the register. -/
def reg_op.is_write : reg_op → Bool
  | .read _ => false
  | _ => true

/-- The register an access names. -/
def reg_op.reg : reg_op → cif_reg_index
  | .write r _ => r
  | .write_or r _ => r
  | .write_and r _ => r
  | .read r => r

/-- Bitwise complement of a `u32`. -/
def u32_not (x : Nat) : Nat := U32 - 1 - x % U32

/-- Replace the stream of index `i`. -/
def set_stream (d : rkcif_device) (i : Nat) (f : rkcif_stream → rkcif_stream) : rkcif_device :=
  { d with stream := fun j => if j = i then f (d.stream i) else d.stream j }

/-! ## Format and buffers (lines 105-127, 163-350, 511-526) -/

/-- The conversion of an `int` to `u32` followed by a reading as `int`. -/
def to_s32 (x : Nat) : Int :=
  if x % U32 < 2147483648 then (x % U32 : Nat) else (x % U32 : Nat) - 4294967296

/-- The statement `ret |= x` on `int` values (two's complement). -/
def int_or (a b : Int) : Int :=
  to_s32 (Int.toNat (a % 4294967296) ||| Int.toNat (b % 4294967296))

/-- Lines 105-127: `sditf_get_hdr_mode`. -/
def sditf_get_hdr_mode (e : cif_ops) (priv : sditf_priv) : sditf_priv :=
  let d :=
    if ¬ priv.cif_dev.terminal_sensor_sd then e.rkcif_update_sensor_info priv.cif_dev 0
    else priv.cif_dev
  let priv := { priv with cif_dev := d }
  if d.terminal_sensor_sd then
    let r := e.sensor_get_hdr_cfg d
    if r.1 = 0 then { priv with hdr_mode := r.2 } else { priv with hdr_mode := .NO_HDR }
  else { priv with hdr_mode := .NO_HDR }

/-- Lines 163-283: `sditf_get_set_fmt`, with the format it fills in left out
(the callers modelled here drop it). -/
def sditf_get_set_fmt (k : cif_consts) (e : cif_ops) (priv : sditf_priv) : Int × sditf_priv :=
  let d :=
    if ¬ priv.cif_dev.terminal_sensor_sd then e.rkcif_update_sensor_info priv.cif_dev 0
    else priv.cif_dev
  let priv := { priv with cif_dev := d }
  if d.terminal_sensor_sd then
    let priv := sditf_get_hdr_mode e priv
    let g := e.sensor_get_fmt priv.cif_dev
    if g.1 ≠ 0 then (g.1, priv)
    else
      let sel := e.sensor_get_selection priv.cif_dev
      let width := if sel.1 = 0 then sel.2.1 else g.2.width
      let height := if sel.1 = 0 then sel.2.2 else g.2.height
      let priv := { priv with cap_width := width, cap_height := height }
      let pixm : pix_format :=
        { pixelformat := e.rkcif_mbus_pixelcode_to_v4l2 g.2.code, width := width,
          height := height }
      let is_uncompact : Bool :=
        priv.toisp_inf.link_mode = .TOISP_UNITE ∧
        ((pixm.width / 2 + U32 - k.RKMOUDLE_UNITE_EXTEND_PIXEL % U32) % U32
            * e.raw_bpp pixm.pixelformat % U32 / 8) &&& 0xf ≠ 0
      let unite : Bool := priv.mode.rdbk_mode = .RKISP_VICAP_ONLINE ∧
        priv.toisp_inf.link_mode = .TOISP_UNITE
      let d := priv.cif_dev
      let d :=
        if priv.hdr_mode = .NO_HDR ∨ priv.hdr_mode = .HDR_COMPR then e.rkcif_set_fmt d 0 pixm
        else if priv.hdr_mode = .HDR_X2 then
          let d :=
            if unite then
              if is_uncompact then
                set_stream d 0 (fun st => { st with is_compact := false, is_high_align := true })
              else set_stream d 0 (fun st => { st with is_compact := true })
            else d
          let d := e.rkcif_set_fmt d 0 pixm
          e.rkcif_set_fmt d 1 pixm
        else if priv.hdr_mode = .HDR_X3 then
          let d :=
            if unite then
              if is_uncompact then
                let d := set_stream d 0
                  (fun st => { st with is_compact := false, is_high_align := true })
                set_stream d 1 (fun st => { st with is_compact := false, is_high_align := true })
              else
                let d := set_stream d 0 (fun st => { st with is_compact := true })
                set_stream d 1 (fun st => { st with is_compact := true })
            else d
          let d := e.rkcif_set_fmt d 0 pixm
          let d := e.rkcif_set_fmt d 1 pixm
          e.rkcif_set_fmt d 2 pixm
        else d
      (0, { priv with cif_dev := d })
  else if priv.sensor_sd then
    let g := e.sensor_sd_get_fmt priv.cif_dev
    if g.1 ≠ 0 then (g.1, priv)
    else
      let sel := e.sensor_sd_get_selection priv.cif_dev
      let width := if sel.1 = 0 then sel.2.1 else g.2.width
      let height := if sel.1 = 0 then sel.2.2 else g.2.height
      (0, { priv with cap_width := width, cap_height := height })
  else (0, priv)

/-- Lines 285-329: `sditf_init_buf`. -/
def sditf_init_buf (e : cif_ops) (priv : sditf_priv) : Int × sditf_priv :=
  let d := priv.cif_dev
  let r : Int × rkcif_device :=
    if priv.hdr_mode = .HDR_X2 then
      if priv.mode.rdbk_mode = .RKISP_VICAP_RDBK_AUTO then
        let d := if d.is_thunderboot then { d with resmem_size := d.resmem_size / 2 } else d
        let r0 := e.rkcif_init_rx_buf d 0 priv.buf_num
        let d := r0.2
        let d :=
          if d.is_thunderboot then { d with resmem_pa := (d.resmem_pa + d.resmem_size) % U32 }
          else d
        let r1 := e.rkcif_init_rx_buf d 1 priv.buf_num
        (int_or r0.1 r1.1, r1.2)
      else
        let r0 := e.rkcif_init_rx_buf d 0 priv.buf_num
        if priv.mode.rdbk_mode = .RKISP_VICAP_ONLINE_UNITE then
          let r1 := e.rkcif_init_rx_buf r0.2 1 priv.buf_num
          (int_or r0.1 r1.1, r1.2)
        else r0
    else if priv.hdr_mode = .HDR_X3 then
      if priv.mode.rdbk_mode = .RKISP_VICAP_RDBK_AUTO then
        let d := if d.is_thunderboot then { d with resmem_size := d.resmem_size / 3 } else d
        let r0 := e.rkcif_init_rx_buf d 0 priv.buf_num
        let d := r0.2
        let d :=
          if d.is_thunderboot then { d with resmem_pa := (d.resmem_pa + d.resmem_size) % U32 }
          else d
        let r1 := e.rkcif_init_rx_buf d 1 priv.buf_num
        let d := r1.2
        let d :=
          if d.is_thunderboot then { d with resmem_pa := (d.resmem_pa + d.resmem_size) % U32 }
          else d
        let r2 := e.rkcif_init_rx_buf d 2 priv.buf_num
        (int_or (int_or r0.1 r1.1) r2.1, r2.2)
      else
        let r0 := e.rkcif_init_rx_buf d 0 priv.buf_num
        let r1 := e.rkcif_init_rx_buf r0.2 1 priv.buf_num
        if priv.mode.rdbk_mode = .RKISP_VICAP_ONLINE_UNITE then
          let r2 := e.rkcif_init_rx_buf r1.2 2 priv.buf_num
          (int_or (int_or r0.1 r1.1) r2.1, r2.2)
        else (int_or r0.1 r1.1, r1.2)
    else if priv.mode.rdbk_mode = .RKISP_VICAP_RDBK_AUTO ∨
        priv.mode.rdbk_mode = .RKISP_VICAP_ONLINE_UNITE then
      e.rkcif_init_rx_buf d 0 priv.buf_num
    else (- EINVAL, d)
  (r.1, { priv with cif_dev := r.2, is_buf_init := true })

/-- Lines 331-350: `sditf_free_buf`. -/
def sditf_free_buf (e : cif_ops) (priv : sditf_priv) : sditf_priv :=
  let d := priv.cif_dev
  let d :=
    if priv.hdr_mode = .HDR_X2 then
      let d := e.rkcif_free_rx_buf d 0 (d.stream 0).rx_buf_num
      e.rkcif_free_rx_buf d 1 (d.stream 1).rx_buf_num
    else if priv.hdr_mode = .HDR_X3 then
      let d := e.rkcif_free_rx_buf d 0 (d.stream 0).rx_buf_num
      let d := e.rkcif_free_rx_buf d 1 (d.stream 1).rx_buf_num
      e.rkcif_free_rx_buf d 2 (d.stream 2).rx_buf_num
    else e.rkcif_free_rx_buf d 0 (d.stream 0).rx_buf_num
  let d :=
    if d.is_thunderboot then
      { d with wait_line_cache := 0, wait_line := 0, wait_line_bak := 0,
               is_thunderboot := false }
    else d
  { priv with cif_dev := d, is_buf_init := false }

/-- Lines 511-526: the case `RKISP_VICAP_CMD_INIT_BUF` of `sditf_ioctl`. -/
def sditf_ioctl_init_buf (k : cif_consts) (e : cif_ops) (priv : sditf_priv)
    (pisp_buf_info : rkisp_init_buf) : Int × sditf_priv :=
  let priv := { priv with
    buf_num := pisp_buf_info.buf_cnt,
    cif_dev := { priv.cif_dev with fb_res_bufs := pisp_buf_info.buf_cnt } }
  let priv := (sditf_get_set_fmt k e priv).2
  let priv :=
    if pisp_buf_info.hdr_wrap_line ≤ priv.cap_height then
      { priv with hdr_wrap_line := pisp_buf_info.hdr_wrap_line }
    else priv
  if ¬ priv.is_buf_init then sditf_init_buf e priv else (0, priv)

/-! ## Channel enable and disable (lines 729-1025) -/

/-- The local variables of the channel enable functions that the mode branches
assign; all start at 0. -/
structure channel_locals where
  ch0 : Nat
  ch1 : Nat
  ch2 : Nat
  ctrl_ch0 : Nat
  ctrl_ch1 : Nat
  ctrl_ch2 : Nat
  ctrl_val : Nat
  int_en : Nat
deriving DecidableEq, Repr

/-- Lines 760-811: the mode branches of `sditf_channel_enable_rv1103b`: the
local variables and `toisp_inf` after them. -/
def channel_enable_rv1103b_modes (k : cif_consts) (priv : sditf_priv) (user : Nat) (csi_idx : Nat) :
    channel_locals × toisp_info :=
  let cif_dev := priv.cif_dev
  let l0 : channel_locals := ⟨0, 0, 0, 0, 0, 0, 0, 0⟩
  if priv.hdr_mode = .NO_HDR ∨ priv.hdr_mode = .HDR_COMPR then
    let ch0 := if cif_dev.inf_id = .RKCIF_MIPI_LVDS then csi_idx * 4 % U32 else 24
    ({ l0 with
        ch0 := ch0, ctrl_ch0 := (ch0 <<< 3) % U32 ||| 0x1,
        int_en := if user = 0 then k.CIF_TOISP0_FS_RK3576 0 ||| k.CIF_TOISP0_FE_RK3576 0
          else 0 },
      { priv.toisp_inf with ch_info0 := { is_valid := true, id := ch0 } })
  else if priv.hdr_mode = .HDR_X2 then
    let ch0 := (cif_dev.csi_host_idx * 4 + 1) % U32
    let ch1 := cif_dev.csi_host_idx * 4 % U32
    ({ l0 with
        ch0 := ch0, ch1 := ch1, ctrl_ch0 := (ch0 <<< 3) % U32 ||| 0x1,
        ctrl_ch1 := (ch1 <<< 3) % U32 ||| 0x1,
        int_en :=
          if cif_dev.chip_id < k.CHIP_RK3576_CIF then
            if user = 0 then
              k.CIF_TOISP0_FS 0 ||| k.CIF_TOISP0_FS 1 ||| k.CIF_TOISP0_FE 0
                ||| k.CIF_TOISP0_FE 1
            else
              k.CIF_TOISP1_FS 0 ||| k.CIF_TOISP1_FS 1 ||| k.CIF_TOISP1_FE 0
                ||| k.CIF_TOISP1_FE 1
          else if user = 0 then
            k.CIF_TOISP0_FS_RK3576 0 ||| k.CIF_TOISP0_FS_RK3576 1
              ||| k.CIF_TOISP0_FE_RK3576 0 ||| k.CIF_TOISP0_FE_RK3576 1
          else 0 },
      { priv.toisp_inf with
        ch_info0 := { is_valid := true, id := ch0 },
        ch_info1 := { is_valid := true, id := ch1 } })
  else if priv.hdr_mode = .HDR_X3 then
    let ch0 := (cif_dev.csi_host_idx * 4 + 2) % U32
    let ch1 := (cif_dev.csi_host_idx * 4 + 1) % U32
    let ch2 := cif_dev.csi_host_idx * 4 % U32
    ({ l0 with
        ch0 := ch0, ch1 := ch1, ch2 := ch2, ctrl_ch0 := (ch0 <<< 3) % U32 ||| 0x1,
        ctrl_ch1 := (ch1 <<< 3) % U32 ||| 0x1, ctrl_ch2 := (ch2 <<< 3) % U32 ||| 0x1,
        int_en :=
          if user = 0 then
            k.CIF_TOISP0_FS_RK3576 0 ||| k.CIF_TOISP0_FS_RK3576 1
              ||| k.CIF_TOISP0_FS_RK3576 2 ||| k.CIF_TOISP0_FE_RK3576 0
              ||| k.CIF_TOISP0_FE_RK3576 1 ||| k.CIF_TOISP0_FE_RK3576 2
          else 0 },
      { priv.toisp_inf with
        ch_info0 := { is_valid := true, id := ch0 },
        ch_info1 := { is_valid := true, id := ch1 },
        ch_info2 := { is_valid := true, id := ch2 } })
  else (l0, priv.toisp_inf)

/-- Lines 729-862: `sditf_channel_enable_rv1103b`, one control register per
channel; `ops` are the register accesses of lines 816-860, in call order (the
width written is the halved one only for user 0, the only user that writes
it). -/
def sditf_channel_enable_rv1103b (k : cif_consts) (priv : sditf_priv) (user : Nat) :
    Int × sditf_priv :=
  let cif_dev := priv.cif_dev
  let capture_info := cif_dev.capture_info
  let width := priv.cap_width
  let height := priv.cap_height
  let combine : Bool := capture_info.mode = .RKMODULE_MULTI_DEV_COMBINE_ONE ∧
    priv.toisp_inf.link_mode = .TOISP_UNITE
  if combine ∧ (capture_info.dev_num ≠ 2 ∨
      capture_info.pixel_offset ≠ k.RKMOUDLE_UNITE_EXTEND_PIXEL) then (- EINVAL, priv)
  else
    let csi_idx := if combine then capture_info.dev_idx user else cif_dev.csi_host_idx
    let r := channel_enable_rv1103b_modes k priv user csi_idx
    let l := r.1
    let priv := { priv with toisp_inf := r.2 }
    if width = 0 ∨ height = 0 then (- EINVAL, priv)
    else
      let width :=
        if priv.mode.rdbk_mode = .RKISP_VICAP_ONLINE_UNITE then
          (width / 2 + k.RKMOUDLE_UNITE_EXTEND_PIXEL) % U32
        else if priv.toisp_inf.link_mode = .TOISP_UNITE then
          (priv.cap_width / 2 + k.RKMOUDLE_UNITE_EXTEND_PIXEL) % U32
        else width
      let size := width ||| (height <<< 16) % U32
      let ops : List reg_op :=
        [reg_op.write_or .CIF_REG_GLB_INTEN l.int_en]
        ++ (if user = 0 then
              [reg_op.write .CIF_REG_TOISP0_CTRL l.ctrl_ch0,
                reg_op.write .CIF_REG_TOISP0_CROP 0,
                reg_op.write .CIF_REG_TOISP0_SIZE size]
              ++ (if priv.hdr_mode ≠ .NO_HDR ∧ priv.hdr_mode ≠ .HDR_COMPR then
                    [reg_op.write .CIF_REG_TOISP0_CH1_CTRL l.ctrl_ch1,
                      reg_op.write .CIF_REG_TOISP0_CH1_CROP 0,
                      reg_op.write .CIF_REG_TOISP0_CH1_SIZE size]
                  else [])
              ++ (if priv.hdr_mode = .HDR_X3 then
                    [reg_op.write .CIF_REG_TOISP0_CH2_CTRL l.ctrl_ch2,
                      reg_op.write .CIF_REG_TOISP0_CH2_CROP 0,
                      reg_op.write .CIF_REG_TOISP0_CH2_SIZE size]
                  else [])
            else [])
        ++ (if priv.mode.rdbk_mode = .RKISP_VICAP_ONLINE_MULTI then
              [reg_op.write_or .CIF_REG_MIPI_LVDS_CTRL k.CSI_ENABLE_CAPTURE]
            else [])
        ++ [reg_op.read .CIF_REG_TOISP0_CTRL]
        ++ (if priv.hdr_mode ≠ .NO_HDR then [reg_op.read .CIF_REG_TOISP0_CH1_CTRL] else [])
        ++ (if priv.hdr_mode = .HDR_X3 then [reg_op.read .CIF_REG_TOISP0_CH2_CTRL] else [])
      (0, { priv with reg_ops := priv.reg_ops ++ ops })

/-- Lines 890-952: the mode branches of `sditf_channel_enable`: the local
variables and `toisp_inf` after them. -/
def channel_enable_modes (k : cif_consts) (priv : sditf_priv) (user : Nat) (csi_idx : Nat) :
    channel_locals × toisp_info :=
  let cif_dev := priv.cif_dev
  let l0 : channel_locals := ⟨0, 0, 0, 0, 0, 0, 0, 0⟩
  if priv.hdr_mode = .NO_HDR ∨ priv.hdr_mode = .HDR_COMPR then
    let ch0 := if cif_dev.inf_id = .RKCIF_MIPI_LVDS then csi_idx * 4 % U32 else 24
    ({ l0 with
        ch0 := ch0, ctrl_val := (ch0 <<< 3) % U32 ||| 0x1,
        int_en :=
          if cif_dev.chip_id < k.CHIP_RK3576_CIF then
            if user = 0 then k.CIF_TOISP0_FS 0 ||| k.CIF_TOISP0_FE 0
            else k.CIF_TOISP1_FS 0 ||| k.CIF_TOISP1_FE 0
          else if user = 0 then k.CIF_TOISP0_FS_RK3576 0 ||| k.CIF_TOISP0_FE_RK3576 0
          else 0 },
      { priv.toisp_inf with ch_info0 := { is_valid := true, id := ch0 } })
  else if priv.hdr_mode = .HDR_X2 then
    let ch0 := (cif_dev.csi_host_idx * 4 + 1) % U32
    let ch1 := cif_dev.csi_host_idx * 4 % U32
    ({ l0 with
        ch0 := ch0, ch1 := ch1,
        ctrl_val := (ch0 <<< 3) % U32 ||| 0x1 ||| ((ch1 <<< 11) % U32 ||| 0x100),
        int_en :=
          if cif_dev.chip_id < k.CHIP_RK3576_CIF then
            if user = 0 then
              k.CIF_TOISP0_FS 0 ||| k.CIF_TOISP0_FS 1 ||| k.CIF_TOISP0_FE 0
                ||| k.CIF_TOISP0_FE 1
            else
              k.CIF_TOISP1_FS 0 ||| k.CIF_TOISP1_FS 1 ||| k.CIF_TOISP1_FE 0
                ||| k.CIF_TOISP1_FE 1
          else if user = 0 then
            k.CIF_TOISP0_FS_RK3576 0 ||| k.CIF_TOISP0_FS_RK3576 1
              ||| k.CIF_TOISP0_FE_RK3576 0 ||| k.CIF_TOISP0_FE_RK3576 1
          else 0 },
      { priv.toisp_inf with
        ch_info0 := { is_valid := true, id := ch0 },
        ch_info1 := { priv.toisp_inf.ch_info1 with id := ch1 } })
  else if priv.hdr_mode = .HDR_X3 then
    let ch0 := (cif_dev.csi_host_idx * 4 + 2) % U32
    let ch1 := (cif_dev.csi_host_idx * 4 + 1) % U32
    let ch2 := cif_dev.csi_host_idx * 4 % U32
    ({ l0 with
        ch0 := ch0, ch1 := ch1, ch2 := ch2,
        ctrl_val := (ch0 <<< 3) % U32 ||| 0x1 ||| ((ch1 <<< 11) % U32 ||| 0x100)
          ||| ((ch2 <<< 19) % U32 ||| 0x10000),
        int_en :=
          if cif_dev.chip_id < k.CHIP_RK3576_CIF then
            if user = 0 then
              k.CIF_TOISP0_FS 0 ||| k.CIF_TOISP0_FS 1 ||| k.CIF_TOISP0_FS 2
                ||| k.CIF_TOISP0_FE 0 ||| k.CIF_TOISP0_FE 1 ||| k.CIF_TOISP0_FE 2
            else
              k.CIF_TOISP1_FS 0 ||| k.CIF_TOISP1_FS 1 ||| k.CIF_TOISP1_FS 2
                ||| k.CIF_TOISP1_FE 0 ||| k.CIF_TOISP1_FE 1 ||| k.CIF_TOISP1_FE 2
          else if user = 0 then
            k.CIF_TOISP0_FS_RK3576 0 ||| k.CIF_TOISP0_FS_RK3576 1
              ||| k.CIF_TOISP0_FS_RK3576 2 ||| k.CIF_TOISP0_FE_RK3576 0
              ||| k.CIF_TOISP0_FE_RK3576 1 ||| k.CIF_TOISP0_FE_RK3576 2
          else 0 },
      { priv.toisp_inf with
        ch_info0 := { is_valid := true, id := ch0 },
        ch_info1 := { priv.toisp_inf.ch_info1 with id := ch1 },
        ch_info2 := { priv.toisp_inf.ch_info2 with id := ch2 } })
  else (l0, priv.toisp_inf)

/-- Lines 864-995: `sditf_channel_enable`, one packed control register. -/
def sditf_channel_enable (k : cif_consts) (priv : sditf_priv) (user : Nat) :
    Int × sditf_priv :=
  let cif_dev := priv.cif_dev
  let capture_info := cif_dev.capture_info
  let width := priv.cap_width
  let height := priv.cap_height
  let combine : Bool := capture_info.mode = .RKMODULE_MULTI_DEV_COMBINE_ONE ∧
    priv.toisp_inf.link_mode = .TOISP_UNITE
  if combine ∧ (capture_info.dev_num ≠ 2 ∨
      capture_info.pixel_offset ≠ k.RKMOUDLE_UNITE_EXTEND_PIXEL) then (- EINVAL, priv)
  else
    let csi_idx := if combine then capture_info.dev_idx user else cif_dev.csi_host_idx
    let r := channel_enable_modes k priv user csi_idx
    let l := r.1
    let priv := { priv with toisp_inf := r.2 }
    let ctrl_val := if cif_dev.chip_id > k.CHIP_RK3562_CIF then l.ctrl_val ||| 2 ^ 28
      else l.ctrl_val
    if user = 0 then
      let width :=
        if priv.toisp_inf.link_mode = .TOISP_UNITE then
          (priv.cap_width / 2 + k.RKMOUDLE_UNITE_EXTEND_PIXEL) % U32
        else width
      let priv := rkcif_write_register priv .CIF_REG_TOISP0_CTRL ctrl_val
      if width ≠ 0 ∧ height ≠ 0 then
        let priv := rkcif_write_register priv .CIF_REG_TOISP0_CROP 0
        let priv := rkcif_write_register priv .CIF_REG_TOISP0_SIZE
          (width ||| (height <<< 16) % U32)
        (0, rkcif_write_register_or priv .CIF_REG_GLB_INTEN l.int_en)
      else (- EINVAL, priv)
    else
      let offset_x :=
        if priv.toisp_inf.link_mode = .TOISP_UNITE then
          if capture_info.mode = .RKMODULE_MULTI_DEV_COMBINE_ONE then 0
          else (priv.cap_width / 2 + U32 - k.RKMOUDLE_UNITE_EXTEND_PIXEL % U32) % U32
        else 0
      let width :=
        if priv.toisp_inf.link_mode = .TOISP_UNITE then
          (priv.cap_width / 2 + k.RKMOUDLE_UNITE_EXTEND_PIXEL) % U32
        else width
      let priv := rkcif_write_register priv .CIF_REG_TOISP1_CTRL ctrl_val
      if width ≠ 0 ∧ height ≠ 0 then
        let priv := rkcif_write_register priv .CIF_REG_TOISP1_CROP offset_x
        let priv := rkcif_write_register priv .CIF_REG_TOISP1_SIZE
          (width ||| (height <<< 16) % U32)
        (0, rkcif_write_register_or priv .CIF_REG_GLB_INTEN l.int_en)
      else (- EINVAL, priv)

/-- Lines 997-1006: `sditf_channel_disable`. -/
def sditf_channel_disable (priv : sditf_priv) (user : Nat) : sditf_priv :=
  if user = 0 then rkcif_write_register_and priv .CIF_REG_TOISP0_CTRL (u32_not 0x10101)
  else rkcif_write_register_and priv .CIF_REG_TOISP1_CTRL (u32_not 0x10101)

/-- Lines 1008-1025: `sditf_channel_disable_rv1103b`. -/
def sditf_channel_disable_rv1103b (k : cif_consts) (priv : sditf_priv) (_user : Nat) :
    sditf_priv :=
  let priv :=
    if priv.mode.rdbk_mode = .RKISP_VICAP_ONLINE_MULTI then
      rkcif_write_register_and priv .CIF_REG_MIPI_LVDS_CTRL (u32_not k.CSI_ENABLE_CAPTURE)
    else priv
  let priv := rkcif_write_register_and priv .CIF_REG_TOISP0_CTRL (u32_not 0x1)
  let priv := rkcif_read_register priv .CIF_REG_TOISP0_CTRL
  let priv :=
    if priv.hdr_mode ≠ .NO_HDR then
      rkcif_write_register_and priv .CIF_REG_TOISP0_CH1_CTRL (u32_not 0x1)
    else priv
  if priv.hdr_mode = .HDR_X3 then
    rkcif_write_register_and priv .CIF_REG_TOISP0_CH2_CTRL (u32_not 0x1)
  else priv

/-! ## Immediate switching (lines 1027-1112) -/

/-- Lines 1066-1088: `sditf_disable_immediately`. -/
def sditf_disable_immediately (k : cif_consts) (priv : sditf_priv) : sditf_priv :=
  let priv :=
    if priv.toisp_inf.link_mode = .TOISP0 then
      if priv.cif_dev.chip_id = k.CHIP_RV1103B_CIF then sditf_channel_disable_rv1103b k priv 0
      else sditf_channel_disable priv 0
    else if priv.toisp_inf.link_mode = .TOISP1 then
      if priv.cif_dev.chip_id = k.CHIP_RV1103B_CIF then sditf_channel_disable_rv1103b k priv 1
      else sditf_channel_disable priv 1
    else if priv.toisp_inf.link_mode = .TOISP_UNITE then
      if priv.cif_dev.chip_id = k.CHIP_RV1103B_CIF then sditf_channel_disable_rv1103b k priv 0
      else
        let priv := sditf_channel_disable priv 0
        if priv.cif_dev.chip_id = k.CHIP_RK3588_CIF then sditf_channel_disable priv 1
        else priv
    else priv
  { priv with is_toisp_off := true }

/-- Lines 1090-1112: `sditf_enable_immediately`; the return values of the
channel enable functions are dropped. -/
def sditf_enable_immediately (k : cif_consts) (priv : sditf_priv) : sditf_priv :=
  let priv :=
    if priv.toisp_inf.link_mode = .TOISP0 then
      if priv.cif_dev.chip_id = k.CHIP_RV1103B_CIF then
        (sditf_channel_enable_rv1103b k priv 0).2
      else (sditf_channel_enable k priv 0).2
    else if priv.toisp_inf.link_mode = .TOISP1 then
      if priv.cif_dev.chip_id = k.CHIP_RV1103B_CIF then
        (sditf_channel_enable_rv1103b k priv 1).2
      else (sditf_channel_enable k priv 1).2
    else if priv.toisp_inf.link_mode = .TOISP_UNITE then
      if priv.cif_dev.chip_id = k.CHIP_RV1103B_CIF then
        (sditf_channel_enable_rv1103b k priv 0).2
      else
        let priv := (sditf_channel_enable k priv 0).2
        if priv.cif_dev.chip_id = k.CHIP_RK3588_CIF then (sditf_channel_enable k priv 1).2
        else priv
    else priv
  { priv with is_toisp_off := false }

/-- Lines 1037-1063: the thunderboot part of `sditf_change_to_online`.  The
result is `none` when `cur_stream` is dereferenced while it is still `NULL` (an
HDR mode other than `NO_HDR`, `HDR_X2`, `HDR_X3`). -/
def change_to_online_thunderboot (e : cif_ops) (priv : sditf_priv) : Option sditf_priv :=
  let d := priv.cif_dev
  let cur_stream : Option Nat :=
    if priv.hdr_mode = .NO_HDR then some 0
    else if priv.hdr_mode = .HDR_X2 then some 1
    else if priv.hdr_mode = .HDR_X3 then some 2
    else none
  let d :=
    if priv.hdr_mode = .NO_HDR then
      set_stream d 0 (fun st => { st with is_line_wake_up := false })
    else if priv.hdr_mode = .HDR_X2 then
      let d := set_stream d 0 (fun st => { st with is_line_wake_up := false })
      set_stream d 1 (fun st => { st with is_line_wake_up := false })
    else if priv.hdr_mode = .HDR_X3 then
      let d := set_stream d 0 (fun st => { st with is_line_wake_up := false })
      let d := set_stream d 1 (fun st => { st with is_line_wake_up := false })
      set_stream d 2 (fun st => { st with is_line_wake_up := false })
    else d
  match cur_stream with
  | none => none
  | some cur_stream =>
    let d :=
      if priv.mode.rdbk_mode = .RKISP_VICAP_ONLINE_UNITE then
        set_stream d cur_stream (fun st => { st with is_m_online_fb_res := true })
      else d
    let d := e.rkcif_free_rx_buf d cur_stream (d.stream cur_stream).rx_buf_num
    let d := { d with wait_line_cache := 0, wait_line := 0, wait_line_bak := 0,
                      is_thunderboot := false }
    let d :=
      if priv.mode.rdbk_mode = .RKISP_VICAP_ONLINE_UNITE then
        e.rkcif_reinit_right_half_config d cur_stream
      else d
    some { priv with cif_dev := d }

/-- Lines 1027-1064: `sditf_change_to_online`; `none` as in
`change_to_online_thunderboot`. -/
def sditf_change_to_online (k : cif_consts) (e : cif_ops) (priv : sditf_priv) :
    Option sditf_priv :=
  let priv := { priv with mode := priv.mode_src }
  let priv :=
    if priv.mode.rdbk_mode ≠ .RKISP_VICAP_ONLINE_UNITE ∧
        priv.mode.rdbk_mode ≠ .RKISP_VICAP_ONLINE_MULTI then
      sditf_enable_immediately k priv
    else priv
  if priv.cif_dev.is_thunderboot then change_to_online_thunderboot e priv
  else some priv

/-! ## Stopping (lines 1145-1184) -/

/-- Lines 1167-1168: `rkcif_do_stop_stream` on the streams `i`, `i + 1`, ...,
`n` of them. -/
def stop_stream_loop (e : cif_ops) (mode : rkcif_stream_mode) (d : rkcif_device) (i : Nat) :
    Nat → rkcif_device
  | 0 => d
  | n + 1 => stop_stream_loop e mode (e.rkcif_do_stop_stream d i mode) (i + 1) n

/-- Lines 1171-1176: the loop over the devices `i`, `i + 1`, ... of the
hardware, `n` of them; the result is `toisp_off`. -/
def stop_stream_toisp_off (hw : rkcif_hw) (i : Nat) : Nat → Bool
  | 0 => true
  | n + 1 => if hw.pipe_stream_cnt i ≠ 0 then false else stop_stream_toisp_off hw (i + 1) n

/-- Lines 1145-1184: `sditf_stop_stream`. -/
def sditf_stop_stream (k : cif_consts) (e : cif_ops) (priv : sditf_priv) : Int × sditf_priv :=
  let mode : rkcif_stream_mode :=
    if priv.mode.rdbk_mode = .RKISP_VICAP_ONLINE then .RKCIF_STREAM_MODE_TOISP
    else if priv.mode.rdbk_mode = .RKISP_VICAP_RDBK_AUTO then .RKCIF_STREAM_MODE_TOISP_RDBK
    else .RKCIF_STREAM_MODE_TOISP
  let stream_cnt : Nat :=
    if priv.hdr_mode = .NO_HDR ∨ priv.hdr_mode = .HDR_COMPR then 1
    else if priv.hdr_mode = .HDR_X2 then 2
    else if priv.hdr_mode = .HDR_X3 then 3
    else 0
  let priv := { priv with cif_dev := stop_stream_loop e mode priv.cif_dev 0 stream_cnt }
  let toisp_off := stop_stream_toisp_off priv.cif_dev.hw_dev 0 priv.cif_dev.hw_dev.dev_num
  let priv := if toisp_off then sditf_disable_immediately k priv else priv
  (0,
    { priv with toisp_inf :=
        { priv.toisp_inf with
          ch_info0 := { priv.toisp_inf.ch_info0 with is_valid := false },
          ch_info1 := { priv.toisp_inf.ch_info1 with is_valid := false },
          ch_info2 := { priv.toisp_inf.ch_info2 with is_valid := false } } })

/-! ## Starting (lines 1114-1143, 1186-1216) -/

/-- Lines 1139-1140: `rkcif_do_start_stream` on the streams `i`, `i + 1`, ...,
`n` of them. -/
def start_stream_loop (e : cif_ops) (mode : rkcif_stream_mode) (d : rkcif_device) (i : Nat) :
    Nat → rkcif_device
  | 0 => d
  | n + 1 => start_stream_loop e mode (e.rkcif_do_start_stream d i mode) (i + 1) n

/-- Lines 1114-1143: `sditf_start_stream`. -/
def sditf_start_stream (k : cif_consts) (e : cif_ops) (priv : sditf_priv) : Int × sditf_priv :=
  let priv := (sditf_get_set_fmt k e priv).2
  let priv :=
    if priv.mode.rdbk_mode = .RKISP_VICAP_ONLINE then sditf_enable_immediately k priv
    else priv
  let mode : rkcif_stream_mode :=
    if priv.mode.rdbk_mode = .RKISP_VICAP_ONLINE then .RKCIF_STREAM_MODE_TOISP
    else if priv.mode.rdbk_mode = .RKISP_VICAP_RDBK_AUTO then .RKCIF_STREAM_MODE_TOISP_RDBK
    else .RKCIF_STREAM_MODE_TOISP
  let stream_cnt : Nat :=
    if priv.hdr_mode = .NO_HDR ∨ priv.hdr_mode = .HDR_COMPR then 1
    else if priv.hdr_mode = .HDR_X2 then 2
    else if priv.hdr_mode = .HDR_X3 then 3
    else 0
  let d := { priv.cif_dev with is_thunderboot_start := true }
  let d := start_stream_loop e mode d 0 stream_cnt
  (0, { priv with cif_dev := d, buf_free_list := [] })

/-- Lines 1186-1216: `sditf_s_stream`. -/
def sditf_s_stream (k : cif_consts) (e : cif_ops) (priv : sditf_priv) (on_ : Int) :
    Int × sditf_priv :=
  let priv := if on_ = 0 then { priv with stream_cnt := priv.stream_cnt - 1 } else priv
  if on_ = 0 ∧ priv.stream_cnt ≠ 0 then (0, priv)
  else
    let priv := if on_ ≠ 0 then { priv with stream_cnt := priv.stream_cnt + 1 } else priv
    if on_ ≠ 0 ∧ priv.stream_cnt > 1 then (0, priv)
    else
      if priv.cif_dev.chip_id ≥ k.CHIP_RK3588_CIF then
        if priv.mode.rdbk_mode = .RKISP_VICAP_RDBK_AIQ then (0, priv)
        else
          let r : Int × sditf_priv :=
            if on_ ≠ 0 then sditf_start_stream k e priv
            else
              let r := sditf_stop_stream k e priv
              let priv := sditf_free_buf e r.2
              (r.1, { priv with mode := { priv.mode with rdbk_mode := .RKISP_VICAP_RDBK_AIQ } })
          if on_ ≠ 0 ∧ r.1 ≠ 0 then (r.1, { r.2 with stream_cnt := r.2.stream_cnt - 1 })
          else r
      else (0, priv)

/-! ## Returned buffers (lines 1252-1433) -/

/-- Lines 1271-1295: the index of the stream a returned buffer belongs to;
`none` stands for the `-EINVAL` returns. -/
def s_rx_buffer_stream (d : rkcif_device) (dbufs : rkisp_rx_buf) : Option Nat :=
  if d.hdr_mode = .NO_HDR then
    if dbufs.type = .BUF_SHORT then some 0 else none
  else if d.hdr_mode = .HDR_X2 then
    if dbufs.type = .BUF_SHORT then some 1
    else if dbufs.type = .BUF_MIDDLE then some 0
    else none
  else if d.hdr_mode = .HDR_X3 then
    if dbufs.type = .BUF_SHORT then some 2
    else if dbufs.type = .BUF_MIDDLE then some 1
    else if dbufs.type = .BUF_LONG then some 0
    else none
  else none

/-- Lines 1297-1356: the bookkeeping of the returned buffer for the stream of
index `i`.  The debug block of lines 1339-1355 writes to the memory of the
buffer only, which the state does not hold. -/
def s_rx_buffer_queue (e : cif_ops) (priv : sditf_priv) (dbufs : rkisp_rx_buf) (i : Nat) :
    sditf_priv :=
  let d := priv.cif_dev
  let d :=
    if dbufs.sequence = 0 ∧ (d.stream i).thunderboot_skip_interval ≠ 0 then
      { d with is_stop_skip := true }
    else d
  let d := set_stream d i (fun st =>
    { st with last_rx_buf_idx := (dbufs.sequence + 1) % U32, buf_cnt := st.buf_cnt + 1 })
  let is_free : Bool := (d.stream i).total_buf_num > d.fb_res_bufs ∧ d.is_thunderboot ∧
    dbufs.sequence > 2 ∧ ¬ dbufs.is_switch
  let priv := { priv with cif_dev := d }
  let priv :=
    if is_free then
      { priv with
        buf_free_list := priv.buf_free_list ++ [dbufs],
        buffree_work_scheduled := true,
        cif_dev := set_stream d i (fun st =>
          { st with buf_cnt := st.buf_cnt - 1, total_buf_num := st.total_buf_num - 1 }) }
    else priv
  if ¬ is_free ∧ ¬ dbufs.is_switch then
    let d := priv.cif_dev
    let d := set_stream d i (fun st => { st with rx_buf_head := st.rx_buf_head ++ [dbufs] })
    let d := e.rkcif_assign_check_buffer_update_toisp d i
    let d :=
      if ¬ d.resume_mode_one_frame then
        if (d.stream i).dma_en = 0 then
          let d := set_stream d i (fun st => { st with to_en_dma_by_isp := true })
          let d := e.rkcif_enable_dma_capture d i true
          if d.sensor_off ≠ 0 then
            let d := { d with sensor_off := 0, sensor_work_on := 1 }
            let d := e.rkcif_dphy_quick_stream d d.sensor_work_on
            { d with sensor_work_scheduled := true }
          else d
        else d
      else d
    { priv with cif_dev := d }
  else priv

/-- Lines 1358-1368: the switch to online mode asked for by a returned buffer,
for the stream of index `i`; `none` as in `sditf_change_to_online`. -/
def s_rx_buffer_switch (k : cif_consts) (e : cif_ops) (priv : sditf_priv)
    (dbufs : rkisp_rx_buf) (i : Nat) : Option sditf_priv :=
  if dbufs.is_switch ∧ dbufs.type = .BUF_SHORT then
    if (priv.cif_dev.stream i).is_in_vblank then
      match sditf_change_to_online k e priv with
      | none => none
      | some priv =>
        let d := e.rkcif_modify_line_int priv.cif_dev i false
        some { priv with
          cif_dev := set_stream d i (fun st => { st with is_line_inten := false }) }
    else
      some { priv with
        cif_dev := set_stream priv.cif_dev i (fun st => { st with is_change_toisp := true }) }
  else some priv

/-- Lines 1371-1382: the end of a single capture, for the stream of index `i`. -/
def s_rx_buffer_single_cap (e : cif_ops) (priv : sditf_priv) (i : Nat) : sditf_priv :=
  let d := set_stream priv.cif_dev i (fun st => { st with is_finish_single_cap := true })
  let d :=
    if (d.stream i).is_wait_single_cap ∧
        (d.hdr_mode = .NO_HDR ∨ (d.hdr_mode = .HDR_X2 ∧ (d.stream i).id = 1) ∨
          (d.hdr_mode = .HDR_X3 ∧ (d.stream i).id = 2)) then
      e.rkcif_quick_stream_on
        (set_stream d i (fun st => { st with is_wait_single_cap := false })) true
    else d
  { priv with cif_dev := d }

/-- Lines 1391-1402 and 1412-1423: the early line from the run time of the ISP;
the values are taken as `u32`, and `none` is the division by a zero line time. -/
def s_rx_buffer_early_time (d : rkcif_device) (dbufs : rkisp_rx_buf) (i : Nat) :
    Option rkcif_device :=
  let d := { d with isp_runtime_max := dbufs.runtime_us }
  let diff_time := if d.is_thunderboot then 200000 else 1000000
  let early_time :=
    if dbufs.runtime_us * 1000 % U32 < d.sensor_linetime * (d.stream i).pixm_height % U32 ∧
        (dbufs.runtime_us * 1000 % U32 + d.sensor_linetime) % U32 > diff_time then
      (dbufs.runtime_us * 1000 % U32 + U32 - diff_time) % U32
    else diff_time
  if d.sensor_linetime = 0 then none
  else
    let early_line := early_time / d.sensor_linetime
    some { d with
      early_line := early_line,
      wait_line_cache := ((d.stream i).pixm_height + U32 - early_line) % U32 }

/-- Lines 1388-1431: the update of the early line, for the stream of index `i`. -/
def s_rx_buffer_early_line (e : cif_ops) (priv : sditf_priv) (dbufs : rkisp_rx_buf)
    (i : Nat) : Option sditf_priv :=
  let d := priv.cif_dev
  if dbufs.runtime_us ≠ 0 ∧ d.early_line = 0 then
    let d :=
      if d.sensor_linetime = 0 then { d with sensor_linetime := e.rkcif_get_linetime d i }
      else d
    (s_rx_buffer_early_time d dbufs i).map (fun d => { priv with cif_dev := d })
  else if dbufs.runtime_us < d.isp_runtime_max then
    (s_rx_buffer_early_time d dbufs i).map (fun d => { priv with cif_dev := d })
  else some priv

/-- Lines 1252-1433: `sditf_s_rx_buffer`; `buf` is `none` for a `NULL` buffer. -/
def sditf_s_rx_buffer (k : cif_consts) (e : cif_ops) (priv : sditf_priv)
    (buf : Option rkisp_rx_buf) : Option (Int × sditf_priv) :=
  match buf with
  | none => some (- EINVAL, priv)
  | some dbufs =>
    match s_rx_buffer_stream priv.cif_dev dbufs with
    | none => some (- EINVAL, priv)
    | some i =>
      let priv := s_rx_buffer_queue e priv dbufs i
      match s_rx_buffer_switch k e priv dbufs i with
      | none => none
      | some priv =>
        let priv := s_rx_buffer_single_cap e priv i
        if ¬ priv.cif_dev.is_thunderboot ∨ priv.cif_dev.is_rdbk_to_online = false then
          some (0, priv)
        else (s_rx_buffer_early_line e priv dbufs i).map (fun p => (0, p))

/-! ## Example states -/

/-- A choice of values for `cif_consts`, used in the examples. -/
def sample_consts : cif_consts :=
  { CHIP_RK3562_CIF := 11, CHIP_RK3576_CIF := 12, CHIP_RK3588_CIF := 7,
    CHIP_RV1103B_CIF := 13, RKMOUDLE_UNITE_EXTEND_PIXEL := 128, CSI_ENABLE_CAPTURE := 1,
    CIF_TOISP0_FS := fun ch => 2 ^ (ch + 14), CIF_TOISP0_FE := fun ch => 2 ^ (ch + 17),
    CIF_TOISP1_FS := fun ch => 2 ^ (ch + 20), CIF_TOISP1_FE := fun ch => 2 ^ (ch + 23),
    CIF_TOISP0_FS_RK3576 := fun ch => 2 ^ (ch + 8),
    CIF_TOISP0_FE_RK3576 := fun ch => 2 ^ (ch + 11) }

/-- Functions of `capture.c` that leave the device state as it is, with a
sensor that answers `HDR_X2` at 2688x1520. -/
def sample_ops : cif_ops :=
  { rkcif_do_stop_stream := fun d _ _ => d,
    rkcif_free_rx_buf := fun d _ _ => d,
    rkcif_reinit_right_half_config := fun d _ => d,
    rkcif_modify_line_int := fun d _ _ => d,
    rkcif_assign_check_buffer_update_toisp := fun d _ => d,
    rkcif_enable_dma_capture := fun d _ _ => d,
    rkcif_dphy_quick_stream := fun d _ => d,
    rkcif_quick_stream_on := fun d _ => d,
    rkcif_get_linetime := fun _ _ => 1,
    rkcif_do_start_stream := fun d _ _ => d,
    rkcif_update_sensor_info := fun d _ => d,
    rkcif_set_fmt := fun d _ _ => d,
    rkcif_init_rx_buf := fun d _ _ => (0, d),
    rkcif_mbus_pixelcode_to_v4l2 := fun c => c,
    raw_bpp := fun _ => 10,
    sensor_get_hdr_cfg := fun _ => (0, .HDR_X2),
    sensor_get_fmt := fun _ => (0, { code := 0x3007, width := 2688, height := 1520 }),
    sensor_get_selection := fun _ => (0, 2688, 1520),
    sensor_sd_get_fmt := fun _ => (0, { code := 0x3007, width := 2688, height := 1520 }),
    sensor_sd_get_selection := fun _ => (0, 2688, 1520) }

/-- An idle stream with identifier `id`, outside of vertical blanking. -/
def sample_stream (id : Nat) : rkcif_stream :=
  { id := id, is_line_wake_up := false, is_m_online_fb_res := false, rx_buf_num := 0,
    is_in_vblank := false, is_line_inten := true, is_change_toisp := false,
    thunderboot_skip_interval := 0, last_rx_buf_idx := 0, buf_cnt := 0, total_buf_num := 0,
    rx_buf_head := [], dma_en := 1, to_en_dma_by_isp := false, is_finish_single_cap := false,
    is_wait_single_cap := false, pixm_height := 1520, is_compact := false,
    is_high_align := false }

/-- A device of chip identifier 7 on CSI host 1, in `HDR_X2`, on a hardware
with two devices of which none is streaming. -/
def sample_dev : rkcif_device :=
  { chip_id := 7, csi_host_idx := 1, inf_id := .RKCIF_MIPI_LVDS,
    capture_info := { mode := .RKMODULE_CAPTURE_MODE_OTHER, dev_num := 0, pixel_offset := 0,
                      dev_idx := fun _ => 0 },
    hdr_mode := .HDR_X2, stream := sample_stream,
    hw_dev := { dev_num := 2, pipe_stream_cnt := fun _ => 0 },
    is_thunderboot := false, is_rdbk_to_online := false, is_stop_skip := false,
    wait_line_cache := 0, wait_line := 0, wait_line_bak := 0, fb_res_bufs := 0,
    resume_mode_one_frame := false, sensor_off := 0, sensor_work_on := 0,
    sensor_work_scheduled := false, early_line := 0, sensor_linetime := 0,
    isp_runtime_max := 0, terminal_sensor_sd := true, is_thunderboot_start := false,
    resmem_size := 0, resmem_pa := 0 }

/-- An interface of `sample_dev` linked to ISP 0, in `HDR_X2` at 2688x1520, with
no valid channel and no register access made. -/
def sample_priv : sditf_priv :=
  { cif_dev := sample_dev, hdr_mode := .HDR_X2,
    toisp_inf := { link_mode := .TOISP0, ch_info0 := { is_valid := false, id := 0 },
                   ch_info1 := { is_valid := false, id := 0 },
                   ch_info2 := { is_valid := false, id := 0 } },
    cap_width := 2688, cap_height := 1520,
    mode := { rdbk_mode := .RKISP_VICAP_RDBK_AUTO, dev_id := 0 },
    mode_src := { rdbk_mode := .RKISP_VICAP_ONLINE, dev_id := 0 },
    is_toisp_off := false, is_buf_init := false, buf_num := 0, stream_cnt := 0,
    buf_free_list := [], buffree_work_scheduled := false, reg_ops := [],
    sensor_sd := false, hdr_wrap_line := 0 }

/-- The interface `sample_priv` in unite mode on a device that combines three
devices into one: the multi-device parameters do not match. -/
def sample_priv_mismatch : sditf_priv :=
  { sample_priv with
    cif_dev :=
      { sample_dev with
        capture_info := { mode := .RKMODULE_MULTI_DEV_COMBINE_ONE, dev_num := 3,
                          pixel_offset := 128, dev_idx := fun _ => 0 } },
    toisp_inf := { sample_priv.toisp_inf with link_mode := .TOISP_UNITE } }

/-- The interface `sample_priv` with both channels of `HDR_X2` valid, on a
hardware whose second device still has `n` streams running. -/
def sample_priv_routed (n : Int) : sditf_priv :=
  { sample_priv with
    cif_dev :=
      { sample_dev with
        hw_dev := { dev_num := 2, pipe_stream_cnt := fun i => if i = 1 then n else 0 } },
    toisp_inf := { link_mode := .TOISP0, ch_info0 := { is_valid := true, id := 5 },
                   ch_info1 := { is_valid := true, id := 4 },
                   ch_info2 := { is_valid := false, id := 0 } } }

/-- A returned short-frame buffer that asks for the switch to online mode. -/
def sample_switch_buf : rkisp_rx_buf :=
  { type := .BUF_SHORT, is_switch := true, sequence := 3, runtime_us := 0 }

/-- The interface `q` is the interface `p` after further register accesses
`ops`, with nothing else changed. -/
def regs_added (p q : sditf_priv) (ops : List reg_op) : Prop :=
  q = { p with reg_ops := p.reg_ops ++ ops }

/-- The interface `q` has the mode, the routing configuration, the routing
switch and the register accesses of the interface `p`. -/
def same_routing (p q : sditf_priv) : Prop :=
  q.mode = p.mode ∧ q.mode_src = p.mode_src ∧ q.reg_ops = p.reg_ops ∧
    q.toisp_inf = p.toisp_inf ∧ q.is_toisp_off = p.is_toisp_off ∧ q.hdr_mode = p.hdr_mode

/-- The interface `sample_priv` with the stream of the short frame inside
vertical blanking or outside of it. -/
def sample_priv_vblank (in_vblank : Bool) : sditf_priv :=
  { sample_priv with
    cif_dev := set_stream sample_dev 1 (fun st => { st with is_in_vblank := in_vblank }) }

/-- The functions of `sample_ops`, except that `rkcif_do_start_stream` and
`rkcif_do_stop_stream` count the running streams in `pipe.stream_cnt` of
device 0. -/
def sample_ops_counting : cif_ops :=
  { sample_ops with
    rkcif_do_start_stream := fun d _ _ =>
      { d with hw_dev := { d.hw_dev with
          pipe_stream_cnt := fun j =>
            if j = 0 then d.hw_dev.pipe_stream_cnt 0 + 1 else d.hw_dev.pipe_stream_cnt j } },
    rkcif_do_stop_stream := fun d _ _ =>
      { d with hw_dev := { d.hw_dev with
          pipe_stream_cnt := fun j =>
            if j = 0 then d.hw_dev.pipe_stream_cnt 0 - 1 else d.hw_dev.pipe_stream_cnt j } } }

/-- The interface `sample_priv` in online mode before any sensor is bound: no
capture size is known, and the routing is off. -/
def sample_priv_no_sensor : sditf_priv :=
  { sample_priv with
    cif_dev := { sample_dev with terminal_sensor_sd := false },
    mode := { rdbk_mode := .RKISP_VICAP_ONLINE, dev_id := 0 },
    cap_width := 0, cap_height := 0, is_toisp_off := true }

/-- The packed control value for `HDR_X3` on CSI host `c`, as the layout is
described: `((4c+2) << 3 | 0x1) | ((4c+1) << 11 | 0x100) | ((4c) << 19 |
0x10000)`. -/
def toisp_ctrl_x3 (c : Nat) : Nat :=
  (((4 * c + 2) <<< 3) ||| 0x1) ||| (((4 * c + 1) <<< 11) ||| 0x100)
    ||| (((4 * c) <<< 19) ||| 0x10000)

/-- The interface `sample_priv` in `HDR_X3`. -/
def sample_priv_x3 : sditf_priv := { sample_priv with hdr_mode := .HDR_X3 }

/-- A run of sequential calls of `sditf_s_stream`: `true` is a call with
`on = 1`, `false` a call with `on = 0`. -/
def s_stream_calls (k : cif_consts) (e : cif_ops) (priv : sditf_priv) (calls : List Bool) :
    sditf_priv :=
  calls.foldl (fun p on_ => (sditf_s_stream k e p (if on_ then 1 else 0)).2) priv

/-- The number of outstanding on-calls of a run: on-calls minus off-calls. -/
def outstanding (calls : List Bool) : Int :=
  (calls.count true : Int) - (calls.count false : Int)

/-- No off-call of the run is made while the number of outstanding on-calls is 0. -/
def no_off_at_zero (calls : List Bool) : Prop :=
  ∀ n, calls[n]? = some false → 0 < outstanding (calls.take n)

/-- The functions of `sample_ops` with a sensor that answers `NO_HDR`; a buffer
initialisation records the number of buffers in `rx_buf_num` of the stream. -/
def sample_ops_linear : cif_ops :=
  { sample_ops with
    sensor_get_hdr_cfg := fun _ => (0, .NO_HDR),
    rkcif_init_rx_buf := fun d i n => (0, set_stream d i (fun st => { st with rx_buf_num := n })) }

/-- The interface `sample_priv` without HDR, in online mode. -/
def sample_priv_linear : sditf_priv :=
  { sample_priv with
    cif_dev := { sample_dev with hdr_mode := .NO_HDR },
    hdr_mode := .NO_HDR,
    mode := { rdbk_mode := .RKISP_VICAP_ONLINE, dev_id := 0 } }

end Sditf

namespace Sc450ai

/-! ## Theorems -/

theorem reconstructed_gain_eq (c : gain_codes) :
    reconstructed_gain c = (reconstructed_num c : ℚ) / 8192 := by
  unfold reconstructed_gain reconstructed_num
  push_cast
  ring

theorem gain_clamp_bounds (g : Nat) : 64 ≤ gain_clamp g ∧ gain_clamp g ≤ 61975 := by
  unfold gain_clamp SC450AI_GAIN_MAX
  split_ifs <;> omega

theorem gain_clamp_of_in_range (g : Nat) (h1 : 64 ≤ g) (h2 : g ≤ 61975) :
    gain_clamp g = g := by
  unfold gain_clamp SC450AI_GAIN_MAX
  split_ifs <;> omega

/-- The `u32` product `gain * 1000` does not wrap after the clamp. -/
theorem gain_factor_of_eq (g : Nat) : gain_factor_of g = gain_clamp g * 1000 / 64 := by
  have h := gain_clamp_bounds g
  unfold gain_factor_of U32
  rw [Nat.mod_eq_of_lt (by omega)]

theorem gain_factor_of_in_range (g : Nat) (h1 : 64 ≤ g) (h2 : g ≤ 61975) :
    gain_factor_of g = g * 1000 / 64 := by
  rw [gain_factor_of_eq, gain_clamp_of_in_range g h1 h2]

/-- The bracket taken by `sc450ai_set_gain_reg` and the codes it assigns, one
disjunct per branch of the chain (the last one is the fall-through). -/
theorem gain_codes_cases (g : Nat) :
    (gain_factor_of g < 2000 ∧ sc450ai_set_gain_reg_codes g
        = ⟨0x03, 0x00, gain_factor_of g * 64 / 1000, 0x80⟩) ∨
    (2000 ≤ gain_factor_of g ∧ gain_factor_of g < 3813 ∧ sc450ai_set_gain_reg_codes g
        = ⟨0x07, 0x00, gain_factor_of g * 64 / 2000, 0x80⟩) ∨
    (3813 ≤ gain_factor_of g ∧ gain_factor_of g < 7625 ∧ sc450ai_set_gain_reg_codes g
        = ⟨0x23, 0x00, gain_factor_of g * 64 / 3813, 0x80⟩) ∨
    (7625 ≤ gain_factor_of g ∧ gain_factor_of g < 15250 ∧ sc450ai_set_gain_reg_codes g
        = ⟨0x27, 0x00, gain_factor_of g * 64 / 7625, 0x80⟩) ∨
    (15250 ≤ gain_factor_of g ∧ gain_factor_of g < 30500 ∧ sc450ai_set_gain_reg_codes g
        = ⟨0x2f, 0x00, gain_factor_of g * 64 / 15250, 0x80⟩) ∨
    (30500 ≤ gain_factor_of g ∧ gain_factor_of g ≤ 60523 ∧ sc450ai_set_gain_reg_codes g
        = ⟨0x3f, 0x00, gain_factor_of g * 64 / 30500, 0x80⟩) ∨
    (60523 < gain_factor_of g ∧ gain_factor_of g < 121046 ∧ sc450ai_set_gain_reg_codes g
        = ⟨0x3f, 0x00, 0x7f, gain_factor_of g * 128 / 60523⟩) ∨
    (121046 ≤ gain_factor_of g ∧ gain_factor_of g < 242092 ∧ sc450ai_set_gain_reg_codes g
        = ⟨0x3f, 0x01, 0x7f, gain_factor_of g * 128 / 60523 / 2⟩) ∨
    (242092 ≤ gain_factor_of g ∧ gain_factor_of g < 484184 ∧ sc450ai_set_gain_reg_codes g
        = ⟨0x3f, 0x03, 0x7f, gain_factor_of g * 128 / 60523 / 4⟩) ∨
    (484184 ≤ gain_factor_of g ∧ gain_factor_of g < 968368 ∧ sc450ai_set_gain_reg_codes g
        = ⟨0x3f, 0x07, 0x7f, gain_factor_of g * 128 / 60523 / 8⟩) ∨
    (968368 ≤ gain_factor_of g ∧ sc450ai_set_gain_reg_codes g = ⟨0, 0, 0, 0⟩) := by
  unfold sc450ai_set_gain_reg_codes
  generalize gain_factor_of g = f
  dsimp only
  by_cases h1 : f < 2000
  · exact Or.inl ⟨h1, by rw [if_pos h1]⟩
  rw [if_neg h1]; refine Or.inr ?_
  by_cases h2 : f < 3813
  · exact Or.inl ⟨by omega, h2, by rw [if_pos h2]⟩
  rw [if_neg h2]; refine Or.inr ?_
  by_cases h3 : f < 7625
  · exact Or.inl ⟨by omega, h3, by rw [if_pos h3]⟩
  rw [if_neg h3]; refine Or.inr ?_
  by_cases h4 : f < 15250
  · exact Or.inl ⟨by omega, h4, by rw [if_pos h4]⟩
  rw [if_neg h4]; refine Or.inr ?_
  by_cases h5 : f < 30500
  · exact Or.inl ⟨by omega, h5, by rw [if_pos h5]⟩
  rw [if_neg h5]; refine Or.inr ?_
  by_cases h6 : f ≤ 60523
  · exact Or.inl ⟨by omega, h6, by rw [if_pos h6]⟩
  rw [if_neg h6]; refine Or.inr ?_
  by_cases h7 : f < 60523 * 2
  · exact Or.inl ⟨by omega, by omega, by rw [if_pos h7]⟩
  rw [if_neg h7]; refine Or.inr ?_
  by_cases h8 : f < 60523 * 4
  · exact Or.inl ⟨by omega, by omega, by rw [if_pos h8]⟩
  rw [if_neg h8]; refine Or.inr ?_
  by_cases h9 : f < 60523 * 8
  · exact Or.inl ⟨by omega, by omega, by rw [if_pos h9]⟩
  rw [if_neg h9]; refine Or.inr ?_
  by_cases h10 : f < 60523 * 16
  · exact Or.inl ⟨by omega, by omega, by rw [if_pos h10]⟩
  rw [if_neg h10]
  exact Or.inr ⟨by omega, rfl⟩

/-- After the clamp the gain factor lies in `[1000, 60523 * 16)`, for every
argument. -/
theorem gain_factor_of_bounds (g : Nat) :
    1000 ≤ gain_factor_of g ∧ gain_factor_of g < 968368 := by
  have h := gain_clamp_bounds g
  rw [gain_factor_of_eq]
  omega

/-- Ranges of the two fine codes, for every argument. -/
theorem gain_fine_bounds (g : Nat) :
    0x40 ≤ (sc450ai_set_gain_reg_codes g).fine_again ∧
    (sc450ai_set_gain_reg_codes g).fine_again ≤ 0x7f ∧
    0x80 ≤ (sc450ai_set_gain_reg_codes g).fine_dgain ∧
    (sc450ai_set_gain_reg_codes g).fine_dgain ≤ 0xff := by
  have hb := gain_factor_of_bounds g
  rcases gain_codes_cases g with ⟨a, e⟩ | ⟨a, b, e⟩ | ⟨a, b, e⟩ | ⟨a, b, e⟩ | ⟨a, b, e⟩ |
    ⟨a, b, e⟩ | ⟨a, b, e⟩ | ⟨a, b, e⟩ | ⟨a, b, e⟩ | ⟨a, b, e⟩ | ⟨a, e⟩ <;>
  first
  | omega
  | (rw [e]; dsimp only; omega)

theorem reconstructed_num_mono (g1 g2 : Nat) (h1 : 64 ≤ g1) (h12 : g1 < g2)
    (h2 : g2 ≤ 61975) :
    reconstructed_num (sc450ai_set_gain_reg_codes g1)
      ≤ reconstructed_num (sc450ai_set_gain_reg_codes g2) := by
  have hf1 := gain_factor_of_in_range g1 h1 (by omega)
  have hf2 := gain_factor_of_in_range g2 (by omega) h2
  have hle : gain_factor_of g1 ≤ gain_factor_of g2 := by rw [hf1, hf2]; omega
  have hlo : 1000 ≤ gain_factor_of g1 := by rw [hf1]; omega
  have hhi : gain_factor_of g2 < 968368 := by rw [hf2]; omega
  clear hf1 hf2
  have k1 := gain_fine_bounds g1
  have k2 := gain_fine_bounds g2
  rcases gain_codes_cases g1 with ⟨a1, e1⟩ | ⟨a1, b1, e1⟩ | ⟨a1, b1, e1⟩ | ⟨a1, b1, e1⟩ |
    ⟨a1, b1, e1⟩ | ⟨a1, b1, e1⟩ | ⟨a1, b1, e1⟩ | ⟨a1, b1, e1⟩ | ⟨a1, b1, e1⟩ |
    ⟨a1, b1, e1⟩ | ⟨a1, e1⟩ <;>
  rcases gain_codes_cases g2 with ⟨a2, e2⟩ | ⟨a2, b2, e2⟩ | ⟨a2, b2, e2⟩ | ⟨a2, b2, e2⟩ |
    ⟨a2, b2, e2⟩ | ⟨a2, b2, e2⟩ | ⟨a2, b2, e2⟩ | ⟨a2, b2, e2⟩ | ⟨a2, b2, e2⟩ |
    ⟨a2, b2, e2⟩ | ⟨a2, e2⟩ <;>
  first
  | omega
  | (rw [e1] at k1 ⊢
     rw [e2] at k2 ⊢
     simp only [reconstructed_num, gain_base, gain_mult] at k1 k2 ⊢
     norm_num
     omega)

/-- C1. Gain monotonicity: for gains `g1 < g2` in `[64, 61975]` the gain
reconstructed from the codes of `g1` (base x fine_again/64 x mult x fine_dgain/128,
as a rational) is at most the gain reconstructed from the codes of `g2`. -/
theorem gain_monotone (g1 g2 : Nat) (h1 : 64 ≤ g1) (h12 : g1 < g2) (h2 : g2 ≤ 61975) :
    reconstructed_gain (sc450ai_set_gain_reg_codes g1)
      ≤ reconstructed_gain (sc450ai_set_gain_reg_codes g2) := by
  rw [reconstructed_gain_eq, reconstructed_gain_eq]
  have h := reconstructed_num_mono g1 g2 h1 h12 h2
  have hq : (reconstructed_num (sc450ai_set_gain_reg_codes g1) : ℚ)
      ≤ (reconstructed_num (sc450ai_set_gain_reg_codes g2) : ℚ) := by exact_mod_cast h
  exact div_le_div_of_nonneg_right hq (by norm_num)

theorem gain_monotone_witness :
    64 ≤ 127 ∧ 127 < 128 ∧ 128 ≤ 61975 ∧
      reconstructed_gain (sc450ai_set_gain_reg_codes 127)
        ≤ reconstructed_gain (sc450ai_set_gain_reg_codes 128) :=
  ⟨by decide, by decide, by decide, gain_monotone 127 128 (by decide) (by decide) (by decide)⟩

/-- C2. Boundary codes: gain 64 gives coarse_again 0x03, coarse_dgain 0x00,
fine_again 0x40, fine_dgain 0x80; gain `SC450AI_GAIN_MAX` = 61975 has gain factor
968359 and gives the codes of the highest bracket, coarse_again 0x3f,
coarse_dgain 0x07, fine_again 0x7f, fine_dgain
`968359 * 128 / 60523 / 8` = 255. -/
theorem gain_boundary_codes :
    sc450ai_set_gain_reg_codes 64
      = { coarse_again := 0x03, coarse_dgain := 0x00, fine_again := 0x40, fine_dgain := 0x80 } ∧
    SC450AI_GAIN_MAX = 61975 ∧
    gain_factor_of SC450AI_GAIN_MAX = 968359 ∧
    sc450ai_set_gain_reg_codes SC450AI_GAIN_MAX
      = { coarse_again := 0x3f, coarse_dgain := 0x07, fine_again := 0x7f,
          fine_dgain := 968359 * 128 / 60523 / 8 } ∧
    968359 * 128 / 60523 / 8 = 255 := by
  decide

/-- C3. Gain clamping: the codes of any gain are the codes of that gain clamped
to `[64, 61975]`; below 64 they are the codes of 64, above 61975 the codes of
61975. -/
theorem gain_clamping (g : Nat) :
    sc450ai_set_gain_reg_codes g = sc450ai_set_gain_reg_codes (min (max g 64) 61975) ∧
    (g < 64 → sc450ai_set_gain_reg_codes g = sc450ai_set_gain_reg_codes 64) ∧
    (61975 < g → sc450ai_set_gain_reg_codes g = sc450ai_set_gain_reg_codes 61975) := by
  have key : ∀ a b : Nat, gain_clamp a = gain_clamp b →
      sc450ai_set_gain_reg_codes a = sc450ai_set_gain_reg_codes b := by
    intro a b h
    unfold sc450ai_set_gain_reg_codes gain_factor_of
    rw [h]
  refine ⟨key _ _ ?_, fun h => key _ _ ?_, fun h => key _ _ ?_⟩
  · unfold gain_clamp SC450AI_GAIN_MAX
    split_ifs <;> omega
  · unfold gain_clamp SC450AI_GAIN_MAX
    split_ifs <;> omega
  · unfold gain_clamp SC450AI_GAIN_MAX
    split_ifs <;> omega

theorem gain_clamping_witness :
    sc450ai_set_gain_reg_codes 10 = sc450ai_set_gain_reg_codes 64 ∧
    sc450ai_set_gain_reg_codes 4294967295 = sc450ai_set_gain_reg_codes 61975 :=
  ⟨(gain_clamping 10).2.1 (by decide), (gain_clamping 4294967295).2.2 (by decide)⟩

/-- C4. Gain totality: for every argument, the clamped product `gain * 1000`
fits in 32 bits, the gain factor is `floor(gain * 1000 / 64)` and lies in
`[1000, 60523 * 16)`, the product `gain_factor * 128` fits in a signed 32-bit
`int`, the fall-through of the chain is not taken (the codes are not all zero),
coarse_again is one of 0x03, 0x07, 0x23, 0x27, 0x2f, 0x3f, and the gain factor
lies in the range of one of the ten brackets (the ranges are pairwise
disjoint), whose assignments give the codes. -/
theorem gain_total (g : Nat) :
    gain_clamp g * 1000 < 2 ^ 32 ∧
    gain_factor_of g = gain_clamp g * 1000 / 64 ∧
    1000 ≤ gain_factor_of g ∧ gain_factor_of g < 60523 * 16 ∧
    gain_factor_of g * 128 < 2 ^ 31 ∧
    sc450ai_set_gain_reg_codes g
      ≠ { coarse_again := 0, coarse_dgain := 0, fine_again := 0, fine_dgain := 0 } ∧
    (sc450ai_set_gain_reg_codes g).coarse_again ∈ [0x03, 0x07, 0x23, 0x27, 0x2f, 0x3f] ∧
    ((gain_factor_of g < 2000 ∧ sc450ai_set_gain_reg_codes g
        = ⟨0x03, 0x00, gain_factor_of g * 64 / 1000, 0x80⟩) ∨
    (2000 ≤ gain_factor_of g ∧ gain_factor_of g < 3813 ∧ sc450ai_set_gain_reg_codes g
        = ⟨0x07, 0x00, gain_factor_of g * 64 / 2000, 0x80⟩) ∨
    (3813 ≤ gain_factor_of g ∧ gain_factor_of g < 7625 ∧ sc450ai_set_gain_reg_codes g
        = ⟨0x23, 0x00, gain_factor_of g * 64 / 3813, 0x80⟩) ∨
    (7625 ≤ gain_factor_of g ∧ gain_factor_of g < 15250 ∧ sc450ai_set_gain_reg_codes g
        = ⟨0x27, 0x00, gain_factor_of g * 64 / 7625, 0x80⟩) ∨
    (15250 ≤ gain_factor_of g ∧ gain_factor_of g < 30500 ∧ sc450ai_set_gain_reg_codes g
        = ⟨0x2f, 0x00, gain_factor_of g * 64 / 15250, 0x80⟩) ∨
    (30500 ≤ gain_factor_of g ∧ gain_factor_of g ≤ 60523 ∧ sc450ai_set_gain_reg_codes g
        = ⟨0x3f, 0x00, gain_factor_of g * 64 / 30500, 0x80⟩) ∨
    (60523 < gain_factor_of g ∧ gain_factor_of g < 121046 ∧ sc450ai_set_gain_reg_codes g
        = ⟨0x3f, 0x00, 0x7f, gain_factor_of g * 128 / 60523⟩) ∨
    (121046 ≤ gain_factor_of g ∧ gain_factor_of g < 242092 ∧ sc450ai_set_gain_reg_codes g
        = ⟨0x3f, 0x01, 0x7f, gain_factor_of g * 128 / 60523 / 2⟩) ∨
    (242092 ≤ gain_factor_of g ∧ gain_factor_of g < 484184 ∧ sc450ai_set_gain_reg_codes g
        = ⟨0x3f, 0x03, 0x7f, gain_factor_of g * 128 / 60523 / 4⟩) ∨
    (484184 ≤ gain_factor_of g ∧ gain_factor_of g < 968368 ∧ sc450ai_set_gain_reg_codes g
        = ⟨0x3f, 0x07, 0x7f, gain_factor_of g * 128 / 60523 / 8⟩)) := by
  have hc := gain_clamp_bounds g
  have hb := gain_factor_of_bounds g
  refine ⟨by omega, gain_factor_of_eq g, hb.1, by omega, by omega, ?_, ?_, ?_⟩
  · rcases gain_codes_cases g with ⟨a, e⟩ | ⟨a, b, e⟩ | ⟨a, b, e⟩ | ⟨a, b, e⟩ | ⟨a, b, e⟩ |
      ⟨a, b, e⟩ | ⟨a, b, e⟩ | ⟨a, b, e⟩ | ⟨a, b, e⟩ | ⟨a, b, e⟩ | ⟨a, e⟩ <;>
    first
    | omega
    | (rw [e]; intro h; injection h with h0; omega)
  · rcases gain_codes_cases g with ⟨a, e⟩ | ⟨a, b, e⟩ | ⟨a, b, e⟩ | ⟨a, b, e⟩ | ⟨a, b, e⟩ |
      ⟨a, b, e⟩ | ⟨a, b, e⟩ | ⟨a, b, e⟩ | ⟨a, b, e⟩ | ⟨a, b, e⟩ | ⟨a, e⟩ <;>
    first
    | omega
    | (rw [e]; simp)
  · rcases gain_codes_cases g with h | h | h | h | h | h | h | h | h | h | ⟨a, e⟩
    · left; exact h
    · right; left; exact h
    · right; right; left; exact h
    · right; right; right; left; exact h
    · right; right; right; right; left; exact h
    · right; right; right; right; right; left; exact h
    · right; right; right; right; right; right; left; exact h
    · right; right; right; right; right; right; right; left; exact h
    · right; right; right; right; right; right; right; right; left; exact h
    · right; right; right; right; right; right; right; right; right; exact h
    · omega

/-- C5. Quantization error bound: for a gain in `[64, 61975]` with
`gf = floor(gain * 1000 / 64)`, in the analog brackets (`gf <= 60523`) the
base `B` of the bracket taken satisfies `B * fine_again <= 64 * gf <
B * (fine_again + 1)`, and in the digital brackets (`gf > 60523`) the
multiplier `m` of the bracket taken satisfies `60523 * m * fine_dgain <=
128 * gf < 60523 * m * (fine_dgain + 1)`. -/
theorem gain_quantization (g : Nat) (h1 : 64 ≤ g) (h2 : g ≤ 61975) :
    (g * 1000 / 64 ≤ 60523 →
      gain_base (sc450ai_set_gain_reg_codes g).coarse_again
          * (sc450ai_set_gain_reg_codes g).fine_again ≤ 64 * (g * 1000 / 64) ∧
      64 * (g * 1000 / 64) < gain_base (sc450ai_set_gain_reg_codes g).coarse_again
          * ((sc450ai_set_gain_reg_codes g).fine_again + 1)) ∧
    (60523 < g * 1000 / 64 →
      60523 * gain_mult (sc450ai_set_gain_reg_codes g).coarse_dgain
          * (sc450ai_set_gain_reg_codes g).fine_dgain ≤ 128 * (g * 1000 / 64) ∧
      128 * (g * 1000 / 64) < 60523 * gain_mult (sc450ai_set_gain_reg_codes g).coarse_dgain
          * ((sc450ai_set_gain_reg_codes g).fine_dgain + 1)) := by
  have hf := gain_factor_of_in_range g h1 h2
  have hb := gain_factor_of_bounds g
  rw [← hf]
  clear hf
  rcases gain_codes_cases g with ⟨a, e⟩ | ⟨a, b, e⟩ | ⟨a, b, e⟩ | ⟨a, b, e⟩ | ⟨a, b, e⟩ |
    ⟨a, b, e⟩ | ⟨a, b, e⟩ | ⟨a, b, e⟩ | ⟨a, b, e⟩ | ⟨a, b, e⟩ | ⟨a, e⟩ <;>
  first
  | omega
  | (rw [e]
     simp only [gain_base, gain_mult]
     norm_num
     omega)

theorem gain_quantization_witness :
    (64 ≤ 300 ∧ 300 ≤ 61975) ∧
    ((300 * 1000 / 64 ≤ 60523 →
      gain_base (sc450ai_set_gain_reg_codes 300).coarse_again
          * (sc450ai_set_gain_reg_codes 300).fine_again ≤ 64 * (300 * 1000 / 64) ∧
      64 * (300 * 1000 / 64) < gain_base (sc450ai_set_gain_reg_codes 300).coarse_again
          * ((sc450ai_set_gain_reg_codes 300).fine_again + 1)) ∧
    (60523 < 300 * 1000 / 64 →
      60523 * gain_mult (sc450ai_set_gain_reg_codes 300).coarse_dgain
          * (sc450ai_set_gain_reg_codes 300).fine_dgain ≤ 128 * (300 * 1000 / 64) ∧
      128 * (300 * 1000 / 64) < 60523 * gain_mult (sc450ai_set_gain_reg_codes 300).coarse_dgain
          * ((sc450ai_set_gain_reg_codes 300).fine_dgain + 1))) :=
  ⟨⟨by decide, by decide⟩, gain_quantization 300 (by decide) (by decide)⟩

/-- For sizes below `2^30` the `u32` difference read back through `abs()` is
the absolute difference. -/
theorem abs_u32_sub_eq (a b : Nat) (ha : a < 2 ^ 30) (hb : b < 2 ^ 30) :
    abs_u32 (u32_sub a b) = |(a : Int) - (b : Int)| := by
  unfold abs_u32 to_s32 wrap_s32 u32_sub U32
  rcases Nat.lt_or_ge a b with hlt | hge
  · rw [abs_of_neg (by omega)]
    split_ifs <;> omega
  · rw [abs_of_nonneg (by omega)]
    split_ifs <;> omega

/-- For sizes below `2^30` the distance computed by the driver is the
Manhattan distance. -/
theorem reso_dist_eq_manhattan (m : sc450ai_mode) (w h : Nat)
    (hmw : m.width < 2 ^ 30) (hmh : m.height < 2 ^ 30) (hw : w < 2 ^ 30) (hh : h < 2 ^ 30) :
    sc450ai_get_reso_dist m w h = manhattan_dist m w h := by
  unfold sc450ai_get_reso_dist manhattan_dist
  rw [abs_u32_sub_eq _ _ hmw hw, abs_u32_sub_eq _ _ hmh hh]
  have h1 : |(m.width : Int) - (w : Int)| < 2 ^ 30 := by
    rw [abs_lt]; constructor <;> omega
  have h2 : |(m.height : Int) - (h : Int)| < 2 ^ 30 := by
    rw [abs_lt]; constructor <;> omega
  have h3 := abs_nonneg ((m.width : Int) - (w : Int))
  have h4 := abs_nonneg ((m.height : Int) - (h : Int))
  unfold wrap_s32
  omega

/-- Loop invariant of `sc450ai_find_best_fit` when no distance is negative:
either the carried pair survives because no entry is strictly closer, or the
loop ends on the first entry of least distance, which is strictly closer than
the carried one. -/
theorem find_best_fit_loop_spec (w h : Nat) (l : List sc450ai_mode) (i b : Nat) (d : Int)
    (hd : d = -1 ∨ 0 ≤ d) (hl : ∀ m ∈ l, 0 ≤ sc450ai_get_reso_dist m w h) :
    (find_best_fit_loop w h l i (b, d) = (b, d) ∧
      (l = [] ∨ (0 ≤ d ∧ ∀ m ∈ l, d ≤ sc450ai_get_reso_dist m w h))) ∨
    (∃ (k : Nat) (m : sc450ai_mode), l[k]? = some m ∧
      find_best_fit_loop w h l i (b, d) = (i + k, sc450ai_get_reso_dist m w h) ∧
      (d = -1 ∨ sc450ai_get_reso_dist m w h < d) ∧
      (∀ (j : Nat) (n : sc450ai_mode), j < k → l[j]? = some n →
        sc450ai_get_reso_dist m w h < sc450ai_get_reso_dist n w h) ∧
      (∀ n ∈ l, sc450ai_get_reso_dist m w h ≤ sc450ai_get_reso_dist n w h)) := by
  induction l generalizing i b d with
  | nil => exact Or.inl ⟨rfl, Or.inl rfl⟩
  | cons a rest ih =>
    have ha : 0 ≤ sc450ai_get_reso_dist a w h := hl a (List.mem_cons_self _ _)
    have hrest : ∀ m ∈ rest, 0 ≤ sc450ai_get_reso_dist m w h :=
      fun m hm => hl m (List.mem_cons_of_mem _ hm)
    by_cases hc : d = -1 ∨ sc450ai_get_reso_dist a w h < d
    · have e : find_best_fit_loop w h (a :: rest) i (b, d)
          = find_best_fit_loop w h rest (i + 1) (i, sc450ai_get_reso_dist a w h) := by
        simp only [find_best_fit_loop, if_pos hc]
      rw [e]
      refine Or.inr ?_
      rcases ih (i + 1) i (sc450ai_get_reso_dist a w h) (Or.inr ha) hrest with
        ⟨hr, hmin⟩ | ⟨k, m, hk, hr, hlt, hfirst, hmin⟩
      · refine ⟨0, a, by simp, by rw [hr]; rfl, hc, ?_, ?_⟩
        · intro j n hj
          omega
        · intro n hn
          rcases List.mem_cons.mp hn with rfl | hn
          · exact le_refl _
          · rcases hmin with rfl | ⟨-, hmin⟩
            · simp at hn
            · exact hmin n hn
      · have hlt2 : sc450ai_get_reso_dist m w h < sc450ai_get_reso_dist a w h := by
          rcases hlt with h1 | h1
          · omega
          · exact h1
        refine ⟨k + 1, m, by simpa using hk, by rw [hr]; congr 1; omega, ?_, ?_, ?_⟩
        · rcases hc with h1 | h1
          · exact Or.inl h1
          · exact Or.inr (lt_trans hlt2 h1)
        · intro j n hj hjn
          cases j with
          | zero =>
            simp only [List.getElem?_cons_zero, Option.some.injEq] at hjn
            rw [← hjn]
            exact hlt2
          | succ j =>
            simp only [List.getElem?_cons_succ] at hjn
            exact hfirst j n (by omega) hjn
        · intro n hn
          rcases List.mem_cons.mp hn with rfl | hn
          · exact le_of_lt hlt2
          · exact hmin n hn
    · have e : find_best_fit_loop w h (a :: rest) i (b, d)
          = find_best_fit_loop w h rest (i + 1) (b, d) := by
        simp only [find_best_fit_loop, if_neg hc]
      rw [e]
      have hd0 : 0 ≤ d := by
        rcases hd with h1 | h1
        · exact absurd (Or.inl h1) hc
        · exact h1
      have hda : d ≤ sc450ai_get_reso_dist a w h := by
        by_contra hlt
        exact hc (Or.inr (by omega))
      rcases ih (i + 1) b d hd hrest with ⟨hr, hmin⟩ | ⟨k, m, hk, hr, hlt, hfirst, hmin⟩
      · refine Or.inl ⟨hr, Or.inr ⟨hd0, ?_⟩⟩
        intro n hn
        rcases List.mem_cons.mp hn with rfl | hn
        · exact hda
        · rcases hmin with rfl | ⟨-, hmin⟩
          · simp at hn
          · exact hmin n hn
      · have hlt2 : sc450ai_get_reso_dist m w h < d := by
          rcases hlt with h1 | h1
          · omega
          · exact h1
        refine Or.inr ⟨k + 1, m, by simpa using hk, by rw [hr]; congr 1; omega,
          Or.inr hlt2, ?_, ?_⟩
        · intro j n hj hjn
          cases j with
          | zero =>
            simp only [List.getElem?_cons_zero, Option.some.injEq] at hjn
            rw [← hjn]
            omega
          | succ j =>
            simp only [List.getElem?_cons_succ] at hjn
            exact hfirst j n (by omega) hjn
        · intro n hn
          rcases List.mem_cons.mp hn with rfl | hn
          · omega
          · exact hmin n hn

/-- Best fit on sizes that do not wrap: for a non-empty catalog whose sizes and
the requested size are all below `2^30`, `sc450ai_find_best_fit` returns the
entry of least Manhattan distance, and among those the one of least index. -/
theorem find_best_fit_first_min (modes : List sc450ai_mode) (w h : Nat) (hne : modes ≠ [])
    (hm : ∀ m ∈ modes, m.width < 2 ^ 30 ∧ m.height < 2 ^ 30)
    (hw : w < 2 ^ 30) (hh : h < 2 ^ 30) :
    ∃ m, modes[sc450ai_find_best_fit modes w h]? = some m ∧
      (∀ n ∈ modes, manhattan_dist m w h ≤ manhattan_dist n w h) ∧
      (∀ (j : Nat) (n : sc450ai_mode), j < sc450ai_find_best_fit modes w h →
        modes[j]? = some n → manhattan_dist m w h < manhattan_dist n w h) := by
  have heq : ∀ m ∈ modes, sc450ai_get_reso_dist m w h = manhattan_dist m w h :=
    fun m hmem => reso_dist_eq_manhattan m w h (hm m hmem).1 (hm m hmem).2 hw hh
  have hnn : ∀ m ∈ modes, 0 ≤ sc450ai_get_reso_dist m w h := by
    intro m hmem
    rw [heq m hmem]
    unfold manhattan_dist
    exact add_nonneg (abs_nonneg _) (abs_nonneg _)
  rcases find_best_fit_loop_spec w h modes 0 0 (-1) (Or.inl rfl) hnn with
    ⟨-, hbad⟩ | ⟨k, m, hk, hr, -, hfirst, hmin⟩
  · rcases hbad with h1 | ⟨h1, -⟩
    · exact absurd h1 hne
    · omega
  · have hidx : sc450ai_find_best_fit modes w h = k := by
      unfold sc450ai_find_best_fit
      rw [hr]
      simp
    have hmem : m ∈ modes := List.getElem?_mem hk
    rw [hidx]
    refine ⟨m, hk, ?_, ?_⟩
    · intro n hn
      rw [← heq m hmem, ← heq n hn]
      exact hmin n hn
    · intro j n hj hjn
      rw [← heq m hmem, ← heq n (List.getElem?_mem hjn)]
      exact hfirst j n hj hjn

/-- C6 (failing input). On the 2-lane catalog a request of 4294967295 x
4294967295 makes `sc450ai_find_best_fit` return entry 2 (1344x760), whose
distance `|width - w| + |height - h|` from the request is larger than that of
entry 0 (2688x1520): the `u32` differences wrap. -/
theorem find_best_fit_wraps :
    sc450ai_find_best_fit supported_modes_2lane 4294967295 4294967295 = 2 ∧
    (supported_modes_2lane.map fun m => manhattan_dist m 4294967295 4294967295)
      = [8589930382, 8589930382, 8589932486] ∧
    (supported_modes_2lane.map fun m => sc450ai_get_reso_dist m 4294967295 4294967295)
      = [4210, 4210, 2106] := by
  decide

/-- C7 (as stated, refuted). On the 2-lane catalog the entry returned for a
request of 2688x1520 is not the HDR_X2 entry with `vts_def = 0x0c26`. -/
theorem best_fit_2688x1520_not_hdr :
    ¬ ((supported_modes_2lane[sc450ai_find_best_fit supported_modes_2lane 2688 1520]?).map
        (fun m => (m.hdr_mode, m.vts_def)) = some (HDR_X2, 0x0c26)) := by
  decide

/-- C7 (amended). On the 2-lane catalog a request of 2688x1520 returns entry 0,
the linear (NO_HDR) 2688x1520 mode with `vts_def = 0x0638`, not the 1344x760
mode; the HDR_X2 entry of the same size is at distance 0 as well and loses the
tie to the smaller index. -/
theorem best_fit_2688x1520_linear :
    sc450ai_find_best_fit supported_modes_2lane 2688 1520 = 0 ∧
    (supported_modes_2lane[sc450ai_find_best_fit supported_modes_2lane 2688 1520]?).map
        (fun m => (m.width, m.height, m.hdr_mode, m.vts_def, m.lanes))
      = some (2688, 1520, NO_HDR, 0x0638, 2) ∧
    (supported_modes_2lane.map fun m => sc450ai_get_reso_dist m 2688 1520) = [0, 0, 2104] ∧
    (supported_modes_2lane.map fun m => (m.width, m.height, m.hdr_mode))
      = [(2688, 1520, NO_HDR), (2688, 1520, HDR_X2), (1344, 760, NO_HDR)] := by
  decide

/-- The search loop of `RKMODULE_SET_HDR_CFG` leaves `i` at the first matching
entry, or at the end of the catalog when no entry matches. -/
theorem set_hdr_cfg_loop_spec (w h hdr : Nat) (l : List sc450ai_mode) (i : Nat) :
    i ≤ set_hdr_cfg_loop w h hdr l i ∧
    set_hdr_cfg_loop w h hdr l i ≤ i + l.length ∧
    (∀ j m, j < set_hdr_cfg_loop w h hdr l i - i → l[j]? = some m →
      ¬ (w = m.width ∧ h = m.height ∧ m.hdr_mode = hdr)) ∧
    (set_hdr_cfg_loop w h hdr l i < i + l.length →
      ∃ m, l[set_hdr_cfg_loop w h hdr l i - i]? = some m ∧
        w = m.width ∧ h = m.height ∧ m.hdr_mode = hdr) := by
  induction l generalizing i with
  | nil =>
    refine ⟨Nat.le_refl _, Nat.le_refl _, ?_, ?_⟩
    · intro j m hj
      simp [set_hdr_cfg_loop] at hj
    · intro hk
      simp [set_hdr_cfg_loop] at hk
  | cons a rest ih =>
    by_cases hm : w = a.width ∧ h = a.height ∧ a.hdr_mode = hdr
    · have e : set_hdr_cfg_loop w h hdr (a :: rest) i = i := by
        simp only [set_hdr_cfg_loop, if_pos hm]
      rw [e]
      refine ⟨Nat.le_refl _, Nat.le_add_right _ _, ?_, ?_⟩
      · intro j m hj
        omega
      · intro _
        exact ⟨a, by simp, hm⟩
    · have e : set_hdr_cfg_loop w h hdr (a :: rest) i
          = set_hdr_cfg_loop w h hdr rest (i + 1) := by
        simp only [set_hdr_cfg_loop, if_neg hm]
      rw [e]
      obtain ⟨h1, h2, h3, h4⟩ := ih (i + 1)
      refine ⟨by omega, by simp only [List.length_cons]; omega, ?_, ?_⟩
      · intro j m hj hget
        cases j with
        | zero =>
          simp only [List.getElem?_cons_zero, Option.some.injEq] at hget
          rw [← hget]
          exact hm
        | succ j =>
          simp only [List.getElem?_cons_succ] at hget
          exact h3 j m (by omega) hget
      · intro hk
        simp only [List.length_cons] at hk
        obtain ⟨m, hget, hmm⟩ := h4 (by omega)
        refine ⟨m, ?_, hmm⟩
        have : set_hdr_cfg_loop w h hdr rest (i + 1) - i
            = (set_hdr_cfg_loop w h hdr rest (i + 1) - (i + 1)) + 1 := by omega
        rw [this, List.getElem?_cons_succ]
        exact hget

/-- C8. HDR mode lookup (`RKMODULE_SET_HDR_CFG`): with `(w, h)` the geometry of
the current mode, the call returns 0 exactly when some catalog entry has that
width and height and the requested HDR mode; then `cur_mode` is the first such
entry and `cur_fps` its `max_fps`; otherwise it returns `-EINVAL` and leaves
`cur_mode` and `cur_fps` as they were. -/
theorem set_hdr_cfg_lookup (s : sc450ai) (hdr_mode : Nat) :
    ((sc450ai_ioctl s (.RKMODULE_SET_HDR_CFG hdr_mode)).1 = 0 ↔
      ∃ m ∈ s.supported_modes,
        m.width = s.cur_mode.width ∧ m.height = s.cur_mode.height ∧ m.hdr_mode = hdr_mode) ∧
    ((sc450ai_ioctl s (.RKMODULE_SET_HDR_CFG hdr_mode)).1 = 0 →
      ∃ i m, s.supported_modes[i]? = some m ∧
        (m.width = s.cur_mode.width ∧ m.height = s.cur_mode.height ∧ m.hdr_mode = hdr_mode) ∧
        (∀ (j : Nat) (n : sc450ai_mode), j < i → s.supported_modes[j]? = some n →
          ¬ (n.width = s.cur_mode.width ∧ n.height = s.cur_mode.height ∧
              n.hdr_mode = hdr_mode)) ∧
        (sc450ai_ioctl s (.RKMODULE_SET_HDR_CFG hdr_mode)).2.1.cur_mode = m ∧
        (sc450ai_ioctl s (.RKMODULE_SET_HDR_CFG hdr_mode)).2.1.cur_fps = m.max_fps) ∧
    ((sc450ai_ioctl s (.RKMODULE_SET_HDR_CFG hdr_mode)).1 ≠ 0 →
      (sc450ai_ioctl s (.RKMODULE_SET_HDR_CFG hdr_mode)).1 = - EINVAL ∧
      (sc450ai_ioctl s (.RKMODULE_SET_HDR_CFG hdr_mode)).2.1.cur_mode = s.cur_mode ∧
      (sc450ai_ioctl s (.RKMODULE_SET_HDR_CFG hdr_mode)).2.1.cur_fps = s.cur_fps) := by
  obtain ⟨-, h2, h3, h4⟩ :=
    set_hdr_cfg_loop_spec s.cur_mode.width s.cur_mode.height hdr_mode s.supported_modes 0
  simp only [Nat.zero_add, Nat.sub_zero] at h2 h3 h4
  have hne : (- EINVAL : Int) ≠ 0 := by decide
  by_cases hi : set_hdr_cfg_loop s.cur_mode.width s.cur_mode.height hdr_mode
      s.supported_modes 0 = s.supported_modes.length
  · -- no entry matches
    have hr : sc450ai_ioctl s (.RKMODULE_SET_HDR_CFG hdr_mode) = (- EINVAL, s, none) := by
      simp only [sc450ai_ioctl, hi, if_true]
    have hno : ¬ ∃ m ∈ s.supported_modes,
        m.width = s.cur_mode.width ∧ m.height = s.cur_mode.height ∧ m.hdr_mode = hdr_mode := by
      rintro ⟨m, hmem, hw, hh, hhdr⟩
      obtain ⟨j, hget⟩ := List.mem_iff_getElem?.mp hmem
      have hj : j < s.supported_modes.length := by
        by_contra hge
        rw [List.getElem?_eq_none (by omega)] at hget
        exact absurd hget (by simp)
      exact h3 j m (by omega) hget ⟨hw.symm, hh.symm, hhdr⟩
    rw [hr]
    refine ⟨⟨fun h0 => absurd h0 hne, fun hex => absurd hex hno⟩,
      fun h0 => absurd h0 hne, fun _ => ⟨rfl, rfl, rfl⟩⟩
  · -- the loop stops at the first matching entry
    obtain ⟨m, hget, hw, hh, hhdr⟩ := h4 (by omega)
    have hr : sc450ai_ioctl s (.RKMODULE_SET_HDR_CFG hdr_mode)
        = (0, set_hdr_cfg_update s m, none) := by
      simp only [sc450ai_ioctl, hi, if_false, hget]
    rw [hr]
    refine ⟨⟨fun _ => ⟨m, List.getElem?_mem hget, hw.symm, hh.symm, hhdr⟩, fun _ => rfl⟩,
      fun _ => ⟨_, m, hget, ⟨hw.symm, hh.symm, hhdr⟩, ?_, rfl, rfl⟩, fun h0 => absurd rfl h0⟩
    intro j n hj hjn hn
    exact h3 j n hj hjn ⟨hn.1.symm, hn.2.1.symm, hn.2.2⟩

theorem set_hdr_cfg_lookup_witness :
    ((sc450ai_ioctl (sc450ai_probe i2c_all_ok 2 NO_HDR false)
        (.RKMODULE_SET_HDR_CFG HDR_X3)).1 = - EINVAL ∧
      (sc450ai_ioctl (sc450ai_probe i2c_all_ok 2 NO_HDR false)
        (.RKMODULE_SET_HDR_CFG HDR_X3)).2.1.cur_mode
        = (sc450ai_probe i2c_all_ok 2 NO_HDR false).cur_mode ∧
      (sc450ai_ioctl (sc450ai_probe i2c_all_ok 2 NO_HDR false)
        (.RKMODULE_SET_HDR_CFG HDR_X3)).2.1.cur_fps
        = (sc450ai_probe i2c_all_ok 2 NO_HDR false).cur_fps) ∧
    (sc450ai_ioctl (sc450ai_probe i2c_all_ok 2 NO_HDR false)
        (.RKMODULE_SET_HDR_CFG HDR_X2)).1 = 0 ∧
    (∃ m ∈ (sc450ai_probe i2c_all_ok 2 NO_HDR false).supported_modes,
        m.width = (sc450ai_probe i2c_all_ok 2 NO_HDR false).cur_mode.width ∧
        m.height = (sc450ai_probe i2c_all_ok 2 NO_HDR false).cur_mode.height ∧
        m.hdr_mode = HDR_X2) :=
  ⟨(set_hdr_cfg_lookup (sc450ai_probe i2c_all_ok 2 NO_HDR false) HDR_X3).2.2 (by decide),
    by decide,
    (set_hdr_cfg_lookup (sc450ai_probe i2c_all_ok 2 NO_HDR false) HDR_X2).1.mp (by decide)⟩

/-- `sc450ai_set_ctrl` leaves the stored exposure record, the mode and the
streaming flags alone. -/
theorem sc450ai_set_ctrl_keeps (in_use : Bool) (s : sc450ai) (id : v4l2_cid) (val : Int) :
    (sc450ai_set_ctrl in_use s id val).2.has_init_exp = s.has_init_exp ∧
    (sc450ai_set_ctrl in_use s id val).2.init_hdrae_exp = s.init_hdrae_exp ∧
    (sc450ai_set_ctrl in_use s id val).2.cur_mode = s.cur_mode ∧
    (sc450ai_set_ctrl in_use s id val).2.streaming = s.streaming ∧
    (sc450ai_set_ctrl in_use s id val).2.is_thunderboot = s.is_thunderboot ∧
    (sc450ai_set_ctrl in_use s id val).2.supported_modes = s.supported_modes := by
  cases in_use <;> cases id <;>
    simp only [sc450ai_set_ctrl, sc450ai_set_gain_reg, sc450ai_enable_test_pattern,
      sc450ai_modify_fps_info] <;>
    split_ifs <;> simp

/-- The control pass of stream start leaves the stored exposure record, the
mode and the streaming flags alone. -/
theorem ctrl_handler_setup_keeps (in_use : Bool) (ctrls : List (v4l2_cid × Int))
    (s : sc450ai) :
    (__v4l2_ctrl_handler_setup in_use s ctrls).2.has_init_exp = s.has_init_exp ∧
    (__v4l2_ctrl_handler_setup in_use s ctrls).2.init_hdrae_exp = s.init_hdrae_exp ∧
    (__v4l2_ctrl_handler_setup in_use s ctrls).2.cur_mode = s.cur_mode ∧
    (__v4l2_ctrl_handler_setup in_use s ctrls).2.streaming = s.streaming ∧
    (__v4l2_ctrl_handler_setup in_use s ctrls).2.is_thunderboot = s.is_thunderboot ∧
    (__v4l2_ctrl_handler_setup in_use s ctrls).2.supported_modes = s.supported_modes := by
  induction ctrls generalizing s with
  | nil => simp [__v4l2_ctrl_handler_setup]
  | cons c rest ih =>
    have hk := sc450ai_set_ctrl_keeps in_use s c.1 c.2
    by_cases hr : (sc450ai_set_ctrl in_use s c.1 c.2).1 ≠ 0
    · simp only [__v4l2_ctrl_handler_setup, if_pos hr]
      exact hk
    · simp only [__v4l2_ctrl_handler_setup, if_neg hr]
      obtain ⟨h1, h2, h3, h4, h5, h6⟩ := ih (sc450ai_set_ctrl in_use s c.1 c.2).2
      obtain ⟨k1, k2, k3, k4, k5, k6⟩ := hk
      exact ⟨h1.trans k1, h2.trans k2, h3.trans k3, h4.trans k4, h5.trans k5, h6.trans k6⟩

/-- When a record is held and the mode is an HDR mode, the HDR-apply step of
stream start programs the held record and then writes the streaming bit. -/
theorem start_stream_hdr_apply_eq (c : sc450ai) (ae : preisp_hdrae_exp_s)
    (h1 : c.has_init_exp = true) (h2 : c.init_hdrae_exp = ae)
    (h3 : c.cur_mode.hdr_mode ≠ NO_HDR) :
    start_stream_hdr_apply c
      = if (sc450ai_set_hdrae_apply c ae).1 ≠ 0 then sc450ai_set_hdrae_apply c ae
        else start_stream_mode_write (sc450ai_set_hdrae_apply c ae).2 := by
  have hcond : (c.has_init_exp && c.cur_mode.hdr_mode != NO_HDR) = true := by
    simp [h1, h3]
  have hset : sc450ai_set_hdrae c ae = sc450ai_set_hdrae_apply c ae := by
    simp [sc450ai_set_hdrae, h1]
  unfold start_stream_hdr_apply
  rw [if_pos hcond, h2]
  simp only [sc450ai_ioctl, hset]

/-- C9 (as stated, refuted). After probing a 2-lane HDR_X2 sensor and storing a
first record, the sensor is still not streaming, yet a second
`sc450ai_set_hdrae` writes registers at once and the record held for the next
stream start is still the first one. -/
theorem set_hdrae_not_always_deferred :
    (sc450ai_set_hdrae (sc450ai_probe i2c_all_ok 2 HDR_X2 false)
        ⟨1, 64, 2, 64, 3, 64⟩).2.streaming = false ∧
    (sc450ai_set_hdrae
        (sc450ai_set_hdrae (sc450ai_probe i2c_all_ok 2 HDR_X2 false) ⟨1, 64, 2, 64, 3, 64⟩).2
        ⟨10, 128, 20, 128, 30, 128⟩).2.client.log
      ≠ (sc450ai_set_hdrae (sc450ai_probe i2c_all_ok 2 HDR_X2 false)
          ⟨1, 64, 2, 64, 3, 64⟩).2.client.log ∧
    (sc450ai_set_hdrae
        (sc450ai_set_hdrae (sc450ai_probe i2c_all_ok 2 HDR_X2 false) ⟨1, 64, 2, 64, 3, 64⟩).2
        ⟨10, 128, 20, 128, 30, 128⟩).2.init_hdrae_exp
      ≠ ⟨10, 128, 20, 128, 30, 128⟩ := by
  decide

/-- C9 (amended). When the sensor is not streaming and holds no record yet,
`sc450ai_set_hdrae` writes no register and stores the record; whatever state
still holds that record when `__sc450ai_start_stream` next reaches its
HDR-apply step (no thunderboot, an HDR mode, register list and control pass
written without error) has exactly that record programmed there, before the
streaming bit is written. -/
theorem set_hdrae_deferred (s : sc450ai) (ae : preisp_hdrae_exp_s)
    (hs : s.streaming = false) (hi : s.has_init_exp = false) :
    (sc450ai_set_hdrae s ae).1 = 0 ∧
    (sc450ai_set_hdrae s ae).2.client.log = s.client.log ∧
    (sc450ai_set_hdrae s ae).2.init_hdrae_exp = ae ∧
    (sc450ai_set_hdrae s ae).2.has_init_exp = true ∧
    ∀ (env : kernel_env) (t : sc450ai),
      t.has_init_exp = (sc450ai_set_hdrae s ae).2.has_init_exp →
      t.init_hdrae_exp = (sc450ai_set_hdrae s ae).2.init_hdrae_exp →
      t.is_thunderboot = false →
      t.cur_mode.hdr_mode ≠ NO_HDR →
      (sc450ai_write_array t.client t.cur_mode.reg_list).1 = 0 →
      (__v4l2_ctrl_handler_setup env.pm_in_use
        { t with client := (sc450ai_write_array t.client t.cur_mode.reg_list).2 }
        env.ctrls).1 = 0 →
      __sc450ai_start_stream env t
        = if (sc450ai_set_hdrae_apply
                (__v4l2_ctrl_handler_setup env.pm_in_use
                  { t with client := (sc450ai_write_array t.client t.cur_mode.reg_list).2 }
                  env.ctrls).2 ae).1 ≠ 0
          then sc450ai_set_hdrae_apply
                (__v4l2_ctrl_handler_setup env.pm_in_use
                  { t with client := (sc450ai_write_array t.client t.cur_mode.reg_list).2 }
                  env.ctrls).2 ae
          else start_stream_mode_write
                (sc450ai_set_hdrae_apply
                  (__v4l2_ctrl_handler_setup env.pm_in_use
                    { t with client := (sc450ai_write_array t.client t.cur_mode.reg_list).2 }
                    env.ctrls).2 ae).2 := by
  have hr : sc450ai_set_hdrae s ae
      = (0, { s with init_hdrae_exp := ae, has_init_exp := true }) := by
    simp [sc450ai_set_hdrae, hs, hi]
  rw [hr]
  refine ⟨rfl, rfl, rfl, rfl, ?_⟩
  intro env t h1 h2 htb hhdr hw hc
  obtain ⟨k1, k2, k3, -, -, -⟩ := ctrl_handler_setup_keeps env.pm_in_use env.ctrls
    { t with client := (sc450ai_write_array t.client t.cur_mode.reg_list).2 }
  have e := start_stream_hdr_apply_eq
    (__v4l2_ctrl_handler_setup env.pm_in_use
      { t with client := (sc450ai_write_array t.client t.cur_mode.reg_list).2 } env.ctrls).2
    ae (k1.trans h1) (k2.trans h2) (by rw [k3]; exact hhdr)
  rw [← e]
  unfold __sc450ai_start_stream
  rw [if_pos (show (!t.is_thunderboot) = true by rw [htb]; rfl)]
  dsimp only
  rw [if_neg (by rw [hw]; simp), if_neg (by rw [hc]; simp)]

set_option maxRecDepth 100000 in
theorem set_hdrae_deferred_witness :
    (probed_hdr_2lane.streaming = false ∧ probed_hdr_2lane.has_init_exp = false) ∧
    (sc450ai_set_hdrae probed_hdr_2lane sample_hdrae).1 = 0 ∧
    (sc450ai_set_hdrae probed_hdr_2lane sample_hdrae).2.client.log
      = probed_hdr_2lane.client.log ∧
    (sc450ai_set_hdrae probed_hdr_2lane sample_hdrae).2.init_hdrae_exp = sample_hdrae ∧
    (sc450ai_set_hdrae probed_hdr_2lane sample_hdrae).2.has_init_exp = true ∧
    __sc450ai_start_stream sample_env (sc450ai_set_hdrae probed_hdr_2lane sample_hdrae).2
      = if (sc450ai_set_hdrae_apply
              (__v4l2_ctrl_handler_setup sample_env.pm_in_use
                { (sc450ai_set_hdrae probed_hdr_2lane sample_hdrae).2 with
                  client := (sc450ai_write_array
                    (sc450ai_set_hdrae probed_hdr_2lane sample_hdrae).2.client
                    (sc450ai_set_hdrae probed_hdr_2lane sample_hdrae).2.cur_mode.reg_list).2 }
                sample_env.ctrls).2 sample_hdrae).1 ≠ 0
        then sc450ai_set_hdrae_apply
              (__v4l2_ctrl_handler_setup sample_env.pm_in_use
                { (sc450ai_set_hdrae probed_hdr_2lane sample_hdrae).2 with
                  client := (sc450ai_write_array
                    (sc450ai_set_hdrae probed_hdr_2lane sample_hdrae).2.client
                    (sc450ai_set_hdrae probed_hdr_2lane sample_hdrae).2.cur_mode.reg_list).2 }
                sample_env.ctrls).2 sample_hdrae
        else start_stream_mode_write
              (sc450ai_set_hdrae_apply
                (__v4l2_ctrl_handler_setup sample_env.pm_in_use
                  { (sc450ai_set_hdrae probed_hdr_2lane sample_hdrae).2 with
                    client := (sc450ai_write_array
                      (sc450ai_set_hdrae probed_hdr_2lane sample_hdrae).2.client
                      (sc450ai_set_hdrae probed_hdr_2lane sample_hdrae).2.cur_mode.reg_list).2 }
                  sample_env.ctrls).2 sample_hdrae).2 :=
  ⟨⟨by decide, by decide⟩,
    (set_hdrae_deferred probed_hdr_2lane sample_hdrae (by decide) (by decide)).1,
    (set_hdrae_deferred probed_hdr_2lane sample_hdrae (by decide) (by decide)).2.1,
    (set_hdrae_deferred probed_hdr_2lane sample_hdrae (by decide) (by decide)).2.2.1,
    (set_hdrae_deferred probed_hdr_2lane sample_hdrae (by decide) (by decide)).2.2.2.1,
    (set_hdrae_deferred probed_hdr_2lane sample_hdrae (by decide) (by decide)).2.2.2.2
      sample_env _ rfl rfl (by decide) (by decide) (by decide) (by decide)⟩

/-- A one-byte register write appends one transfer to the log and reports
`-EIO` when the transfer fails. -/
theorem sc450ai_write_reg_08bit (client : i2c_client) (reg val : Nat) :
    sc450ai_write_reg client reg SC450AI_REG_VALUE_08BIT val
      = (if client.xfer_ok client.log.length then 0 else - EIO,
          { client with log := client.log
              ++ [i2c_msg.write reg 1 (val % 256) (client.xfer_ok client.log.length)] }) := by
  unfold sc450ai_write_reg SC450AI_REG_VALUE_08BIT
  rw [if_neg (by omega)]
  dsimp only
  split_ifs <;> rfl

/-- C10. Stop always succeeds and clears the pending exposure: from any state
with `streaming = true`, `sc450ai_s_stream` with `on = 0` returns 0 and ends
with `streaming = false` and `has_init_exp = false`; the standby write is
attempted once and its outcome does not matter. -/
theorem s_stream_off (env : kernel_env) (s : sc450ai) (hs : s.streaming = true) :
    (sc450ai_s_stream env s 0).1 = 0 ∧
    (sc450ai_s_stream env s 0).2.streaming = false ∧
    (sc450ai_s_stream env s 0).2.has_init_exp = false ∧
    (sc450ai_s_stream env s 0).2.client.log
      = s.client.log ++ [i2c_msg.write SC450AI_REG_CTRL_MODE 1 SC450AI_MODE_SW_STANDBY
          (s.client.xfer_ok s.client.log.length)] := by
  have hon : decide ((0 : Int) ≠ 0) = false := by decide
  simp only [sc450ai_s_stream, hon, hs]
  refine ⟨by simp, by simp, ?_, ?_⟩
  · simp only [__sc450ai_stop_stream, sc450ai_write_reg_08bit]
    simp
    split_ifs <;> rfl
  · simp only [__sc450ai_stop_stream, sc450ai_write_reg_08bit]
    simp
    split_ifs <;> simp [SC450AI_MODE_SW_STANDBY]

theorem s_stream_off_witness :
    ({ sc450ai_probe i2c_all_fail 2 HDR_X2 false with
        streaming := true, has_init_exp := true }).streaming = true ∧
    (sc450ai_s_stream sample_env
      { sc450ai_probe i2c_all_fail 2 HDR_X2 false with
        streaming := true, has_init_exp := true } 0).1 = 0 ∧
    (sc450ai_s_stream sample_env
      { sc450ai_probe i2c_all_fail 2 HDR_X2 false with
        streaming := true, has_init_exp := true } 0).2.streaming = false ∧
    (sc450ai_s_stream sample_env
      { sc450ai_probe i2c_all_fail 2 HDR_X2 false with
        streaming := true, has_init_exp := true } 0).2.has_init_exp = false ∧
    (sc450ai_s_stream sample_env
      { sc450ai_probe i2c_all_fail 2 HDR_X2 false with
        streaming := true, has_init_exp := true } 0).2.client.log
      = [i2c_msg.write SC450AI_REG_CTRL_MODE 1 SC450AI_MODE_SW_STANDBY false] :=
  ⟨rfl, s_stream_off sample_env
    { sc450ai_probe i2c_all_fail 2 HDR_X2 false with
      streaming := true, has_init_exp := true } rfl⟩

/-! ### Return codes and the transfer log -/

theorem int_or_errno (a b : Int) (ha : a = 0 ∨ a = - EIO) (hb : b = 0 ∨ b = - EIO) :
    (int_or a b = 0 ∨ int_or a b = - EIO) ∧ (int_or a b = 0 → a = 0 ∧ b = 0) := by
  rcases ha with rfl | rfl <;> rcases hb with rfl | rfl <;> decide

theorem runs_to_refl (c : i2c_client) : runs_to c c 0 :=
  ⟨Or.inl rfl, rfl, rfl, [], by simp, fun _ m hm => by simp at hm⟩

theorem runs_to_trans {c1 c2 c3 : i2c_client} {r1 r2 r : Int}
    (h1 : runs_to c1 c2 r1) (h2 : runs_to c2 c3 r2)
    (hr : r = 0 ∨ r = - EIO) (h0 : r = 0 → r1 = 0 ∧ r2 = 0) : runs_to c1 c3 r := by
  obtain ⟨-, x1, d1, n1, l1, f1⟩ := h1
  obtain ⟨-, x2, d2, n2, l2, f2⟩ := h2
  refine ⟨hr, x2.trans x1, d2.trans d1, n1 ++ n2, by rw [l2, l1, List.append_assoc], ?_⟩
  intro hz m hm
  rcases List.mem_append.mp hm with hm | hm
  · exact f1 (h0 hz).1 m hm
  · exact f2 (h0 hz).2 m hm

/-- Two calls in a row whose return codes are or-ed together. -/
theorem runs_to_or {c1 c2 c3 : i2c_client} {r1 r2 : Int}
    (h1 : runs_to c1 c2 r1) (h2 : runs_to c2 c3 r2) : runs_to c1 c3 (int_or r1 r2) :=
  runs_to_trans h1 h2 (int_or_errno r1 r2 h1.1 h2.1).1 (int_or_errno r1 r2 h1.1 h2.1).2

/-- A call made only after an earlier one returned 0. -/
theorem runs_to_after {c1 c2 c3 : i2c_client} {r : Int}
    (h1 : runs_to c1 c2 0) (h2 : runs_to c2 c3 r) : runs_to c1 c3 r :=
  runs_to_trans h1 h2 h2.1 (fun hz => ⟨rfl, hz⟩)

/-- A failed transfer among those added forces a non-zero return code. -/
theorem runs_to_failed {c1 c2 : i2c_client} {r : Int} (h : runs_to c1 c2 r)
    (hf : ∃ m ∈ c2.log.drop c1.log.length, m.failed = true) : r ≠ 0 := by
  obtain ⟨-, -, -, n, hl, hok⟩ := h
  obtain ⟨m, hm, hfail⟩ := hf
  rw [hl, List.drop_left] at hm
  intro hz
  rw [hok hz m hm] at hfail
  exact absurd hfail (by decide)

/-! ### Start of streaming -/


theorem write_reg_08bit_runs (client : i2c_client) (reg val : Nat) :
    runs_to client (sc450ai_write_reg client reg SC450AI_REG_VALUE_08BIT val).2
      (sc450ai_write_reg client reg SC450AI_REG_VALUE_08BIT val).1 := by
  rw [sc450ai_write_reg_08bit]
  refine ⟨?_, rfl, rfl, _, rfl, ?_⟩
  · dsimp only
    split_ifs
    · exact Or.inl rfl
    · exact Or.inr rfl
  · dsimp only
    intro hz m hm
    simp only [List.mem_singleton] at hm
    subst hm
    by_cases hok : client.xfer_ok client.log.length = true
    · simp [i2c_msg.failed, hok]
    · rw [if_neg hok] at hz
      exact absurd hz (by decide)

theorem read_reg_08bit_runs (client : i2c_client) (reg val : Nat) :
    runs_to client (sc450ai_read_reg client reg SC450AI_REG_VALUE_08BIT val).2.2
      (sc450ai_read_reg client reg SC450AI_REG_VALUE_08BIT val).1 := by
  unfold sc450ai_read_reg SC450AI_REG_VALUE_08BIT
  rw [if_neg (by omega)]
  dsimp only
  by_cases hok : client.xfer_ok client.log.length = true
  · rw [if_pos hok]
    refine ⟨Or.inl rfl, rfl, rfl, _, rfl, ?_⟩
    intro _ m hm
    simp only [List.mem_singleton] at hm
    subst hm
    simp [i2c_msg.failed, hok]
  · rw [if_neg hok]
    refine ⟨Or.inr rfl, rfl, rfl, _, rfl, ?_⟩
    intro hz
    exact absurd (show (- EIO : Int) = 0 from hz) (by decide)

theorem write_array_runs (regs : List regval) (client : i2c_client) :
    runs_to client (sc450ai_write_array client regs).2 (sc450ai_write_array client regs).1 := by
  induction regs generalizing client with
  | nil => exact runs_to_refl client
  | cons r rest ih =>
    unfold sc450ai_write_array
    by_cases hn : r.addr = REG_NULL
    · rw [if_pos hn]
      exact runs_to_refl client
    · rw [if_neg hn]
      dsimp only
      have hw := write_reg_08bit_runs client r.addr r.val
      by_cases h0 : (sc450ai_write_reg client r.addr SC450AI_REG_VALUE_08BIT r.val).1 = 0
      · rw [if_pos h0]
        rw [h0] at hw
        exact runs_to_after hw (ih _)
      · rw [if_neg h0]
        exact hw

theorem set_gain_reg_runs (s : sc450ai) (gain : Nat) :
    runs_to s.client (sc450ai_set_gain_reg s gain).2.client (sc450ai_set_gain_reg s gain).1 := by
  unfold sc450ai_set_gain_reg
  dsimp only
  split_ifs
  · exact runs_to_or (runs_to_or (runs_to_or (runs_to_or (runs_to_or (runs_to_or (runs_to_or
      (write_reg_08bit_runs _ _ _) (write_reg_08bit_runs _ _ _)) (write_reg_08bit_runs _ _ _))
      (write_reg_08bit_runs _ _ _)) (write_reg_08bit_runs _ _ _)) (write_reg_08bit_runs _ _ _))
      (write_reg_08bit_runs _ _ _)) (write_reg_08bit_runs _ _ _)
  · exact runs_to_or (runs_to_or (runs_to_or
      (write_reg_08bit_runs _ _ _) (write_reg_08bit_runs _ _ _)) (write_reg_08bit_runs _ _ _))
      (write_reg_08bit_runs _ _ _)

/-- `sc450ai_set_gain_reg` changes nothing but the bus. -/
theorem set_gain_reg_state (s : sc450ai) (gain : Nat) :
    (sc450ai_set_gain_reg s gain).2
      = { s with client := (sc450ai_set_gain_reg s gain).2.client } := by
  unfold sc450ai_set_gain_reg
  dsimp only
  split_ifs <;> rfl

theorem set_hdrae_apply_runs (s : sc450ai) (ae : preisp_hdrae_exp_s) :
    runs_to s.client (sc450ai_set_hdrae_apply s ae).2.client
      (sc450ai_set_hdrae_apply s ae).1 := by
  unfold sc450ai_set_hdrae_apply
  dsimp only
  exact runs_to_or (runs_to_or (runs_to_or (runs_to_or (runs_to_or
    (write_reg_08bit_runs _ _ _) (write_reg_08bit_runs _ _ _)) (write_reg_08bit_runs _ _ _))
    (write_reg_08bit_runs _ _ _)) (write_reg_08bit_runs _ _ _)) (set_gain_reg_runs _ _)

/-- The programming path of `sc450ai_set_hdrae` changes nothing but the bus. -/
theorem set_hdrae_apply_state (s : sc450ai) (ae : preisp_hdrae_exp_s) :
    (sc450ai_set_hdrae_apply s ae).2
      = { s with client := (sc450ai_set_hdrae_apply s ae).2.client } := by
  unfold sc450ai_set_hdrae_apply
  dsimp only
  rw [set_gain_reg_state]

theorem enable_test_pattern_runs (s : sc450ai) (pattern : Nat) :
    runs_to s.client (sc450ai_enable_test_pattern s pattern).2.client
      (sc450ai_enable_test_pattern s pattern).1 := by
  unfold sc450ai_enable_test_pattern
  dsimp only
  exact runs_to_or (read_reg_08bit_runs _ _ _) (write_reg_08bit_runs _ _ _)

theorem set_ctrl_runs (in_use : Bool) (s : sc450ai) (id : v4l2_cid) (val : Int) :
    runs_to s.client (sc450ai_set_ctrl in_use s id val).2.client
      (sc450ai_set_ctrl in_use s id val).1 := by
  cases in_use
  · cases id <;>
      simp only [sc450ai_set_ctrl, reduceCtorEq, if_false, if_true, Bool.not_false] <;>
      exact runs_to_refl _
  · cases id
    · simp only [sc450ai_set_ctrl, reduceCtorEq, if_false, Bool.not_true, Bool.false_eq_true]
      split_ifs
      · exact runs_to_or (runs_to_or (write_reg_08bit_runs _ _ _) (write_reg_08bit_runs _ _ _))
          (write_reg_08bit_runs _ _ _)
      · exact runs_to_refl _
    · simp only [sc450ai_set_ctrl, reduceCtorEq, if_false, Bool.not_true, Bool.false_eq_true]
      split_ifs
      · exact set_gain_reg_runs _ _
      · exact runs_to_refl _
    · simp only [sc450ai_set_ctrl, sc450ai_modify_fps_info, reduceCtorEq, if_false, if_true,
        Bool.not_true, Bool.false_eq_true]
      split_ifs <;>
        exact runs_to_or (write_reg_08bit_runs _ _ _) (write_reg_08bit_runs _ _ _)
    · simp only [sc450ai_set_ctrl, reduceCtorEq, if_false, Bool.not_true, Bool.false_eq_true]
      exact enable_test_pattern_runs _ _
    · simp only [sc450ai_set_ctrl, reduceCtorEq, if_false, Bool.not_true, Bool.false_eq_true]
      exact runs_to_or (read_reg_08bit_runs _ _ _) (write_reg_08bit_runs _ _ _)
    · simp only [sc450ai_set_ctrl, reduceCtorEq, if_false, Bool.not_true, Bool.false_eq_true]
      exact runs_to_or (read_reg_08bit_runs _ _ _) (write_reg_08bit_runs _ _ _)
    · simp only [sc450ai_set_ctrl, reduceCtorEq, if_false, Bool.not_true, Bool.false_eq_true]
      exact runs_to_refl _

theorem ctrl_handler_setup_runs (in_use : Bool) (ctrls : List (v4l2_cid × Int))
    (s : sc450ai) :
    runs_to s.client (__v4l2_ctrl_handler_setup in_use s ctrls).2.client
      (__v4l2_ctrl_handler_setup in_use s ctrls).1 := by
  induction ctrls generalizing s with
  | nil => exact runs_to_refl _
  | cons c rest ih =>
    have hc := set_ctrl_runs in_use s c.1 c.2
    by_cases hr : (sc450ai_set_ctrl in_use s c.1 c.2).1 ≠ 0
    · simp only [__v4l2_ctrl_handler_setup, if_pos hr]
      exact hc
    · simp only [__v4l2_ctrl_handler_setup, if_neg hr]
      rw [not_not.mp hr] at hc
      exact runs_to_after hc (ih _)

theorem start_stream_mode_write_runs (s : sc450ai) :
    runs_to s.client (start_stream_mode_write s).2.client (start_stream_mode_write s).1 :=
  write_reg_08bit_runs _ _ _

/-- With a record held, `sc450ai_set_hdrae` takes the programming path. -/
theorem set_hdrae_of_has_init (s : sc450ai) (ae : preisp_hdrae_exp_s)
    (h : s.has_init_exp = true) : sc450ai_set_hdrae s ae = sc450ai_set_hdrae_apply s ae := by
  simp [sc450ai_set_hdrae, h]

theorem start_stream_hdr_apply_runs (s : sc450ai) :
    runs_to s.client (start_stream_hdr_apply s).2.client (start_stream_hdr_apply s).1 := by
  unfold start_stream_hdr_apply
  by_cases hc : (s.has_init_exp && s.cur_mode.hdr_mode != NO_HDR) = true
  · rw [if_pos hc]
    have hi : s.has_init_exp = true := by
      simp only [Bool.and_eq_true] at hc
      exact hc.1
    have ha := set_hdrae_apply_runs s s.init_hdrae_exp
    simp only [sc450ai_ioctl, set_hdrae_of_has_init s _ hi]
    by_cases hr : (sc450ai_set_hdrae_apply s s.init_hdrae_exp).1 ≠ 0
    · rw [if_pos hr]
      exact ha
    · rw [if_neg hr]
      rw [not_not.mp hr] at ha
      exact runs_to_after ha (start_stream_mode_write_runs _)
  · rw [if_neg hc]
    exact start_stream_mode_write_runs _

theorem start_stream_runs (env : kernel_env) (s : sc450ai) :
    runs_to s.client (__sc450ai_start_stream env s).2.client
      (__sc450ai_start_stream env s).1 := by
  unfold __sc450ai_start_stream
  dsimp only
  have hw := write_array_runs s.cur_mode.reg_list s.client
  by_cases h1 : (!s.is_thunderboot) = true
  · rw [if_pos h1]
    by_cases h2 : (sc450ai_write_array s.client s.cur_mode.reg_list).1 ≠ 0
    · rw [if_pos h2]
      exact hw
    · rw [if_neg h2]
      rw [not_not.mp h2] at hw
      have hc := ctrl_handler_setup_runs env.pm_in_use env.ctrls
        { s with client := (sc450ai_write_array s.client s.cur_mode.reg_list).2 }
      by_cases h3 : (__v4l2_ctrl_handler_setup env.pm_in_use
          { s with client := (sc450ai_write_array s.client s.cur_mode.reg_list).2 }
          env.ctrls).1 ≠ 0
      · rw [if_pos h3]
        exact runs_to_after hw hc
      · rw [if_neg h3]
        rw [not_not.mp h3] at hc
        exact runs_to_after hw (runs_to_after hc (start_stream_hdr_apply_runs _))
  · rw [if_neg h1]
    exact start_stream_mode_write_runs _

/-- A failing `sc450ai_write_array` wrote the entries before the failing one,
all of them ahead of the sentinel, then the failing entry, and nothing more. -/
theorem write_array_stops (regs : List regval) (client : i2c_client)
    (h : (sc450ai_write_array client regs).1 ≠ 0) :
    ∃ (pre : List regval) (x : regval) (post : List regval),
      regs = pre ++ x :: post ∧ (∀ y ∈ pre, y.addr ≠ REG_NULL) ∧ x.addr ≠ REG_NULL ∧
      (sc450ai_write_array client regs).2.log
        = client.log ++ pre.map (fun y => i2c_msg.write y.addr 1 (y.val % 256) true)
            ++ [i2c_msg.write x.addr 1 (x.val % 256) false] := by
  induction regs generalizing client with
  | nil => exact absurd rfl h
  | cons r rest ih =>
    unfold sc450ai_write_array at h ⊢
    by_cases hn : r.addr = REG_NULL
    · rw [if_pos hn] at h
      exact absurd rfl h
    · rw [if_neg hn] at h ⊢
      dsimp only at h ⊢
      rw [sc450ai_write_reg_08bit] at h ⊢
      by_cases hok : client.xfer_ok client.log.length = true
      · simp only [hok, if_true] at h ⊢
        obtain ⟨pre, x, post, e1, e2, e3, e4⟩ := ih _ h
        refine ⟨r :: pre, x, post, by rw [e1]; rfl, ?_, e3, ?_⟩
        · intro y hy
          rcases List.mem_cons.mp hy with rfl | hy
          · exact hn
          · exact e2 y hy
        · rw [e4]
          simp
      · have hne : (- EIO : Int) ≠ 0 := by decide
        simp only [hok, if_false, hne]
        refine ⟨[], r, rest, rfl, fun y hy => by simp at hy, hn, ?_⟩
        simp only [Bool.not_eq_true] at hok
        have hE : ¬ ( EIO : Int) = 0 := by decide
        simp [hok, hE]

theorem start_stream_mode_write_state (s : sc450ai) :
    (start_stream_mode_write s).2
      = { s with client := (start_stream_mode_write s).2.client } := rfl

theorem start_stream_hdr_apply_state (s : sc450ai) :
    (start_stream_hdr_apply s).2
      = { s with client := (start_stream_hdr_apply s).2.client } := by
  unfold start_stream_hdr_apply
  by_cases hc : (s.has_init_exp && s.cur_mode.hdr_mode != NO_HDR) = true
  · rw [if_pos hc]
    have hi : s.has_init_exp = true := by
      simp only [Bool.and_eq_true] at hc
      exact hc.1
    simp only [sc450ai_ioctl, set_hdrae_of_has_init s _ hi]
    have ha := set_hdrae_apply_state s s.init_hdrae_exp
    by_cases hr : (sc450ai_set_hdrae_apply s s.init_hdrae_exp).1 ≠ 0
    · rw [if_pos hr]
      exact ha
    · rw [if_neg hr, start_stream_mode_write_state, ha]
  · rw [if_neg hc]
    rfl

/-- Stream start leaves the stored exposure record, the mode and the streaming
flags alone. -/
theorem start_stream_keeps (env : kernel_env) (s : sc450ai) :
    (__sc450ai_start_stream env s).2.has_init_exp = s.has_init_exp ∧
    (__sc450ai_start_stream env s).2.init_hdrae_exp = s.init_hdrae_exp ∧
    (__sc450ai_start_stream env s).2.cur_mode = s.cur_mode ∧
    (__sc450ai_start_stream env s).2.streaming = s.streaming ∧
    (__sc450ai_start_stream env s).2.is_thunderboot = s.is_thunderboot := by
  unfold __sc450ai_start_stream
  dsimp only
  by_cases h1 : (!s.is_thunderboot) = true
  · rw [if_pos h1]
    by_cases h2 : (sc450ai_write_array s.client s.cur_mode.reg_list).1 ≠ 0
    · rw [if_pos h2]
      exact ⟨rfl, rfl, rfl, rfl, rfl⟩
    · rw [if_neg h2]
      obtain ⟨k1, k2, k3, k4, k5, -⟩ := ctrl_handler_setup_keeps env.pm_in_use env.ctrls
        { s with client := (sc450ai_write_array s.client s.cur_mode.reg_list).2 }
      by_cases h3 : (__v4l2_ctrl_handler_setup env.pm_in_use
          { s with client := (sc450ai_write_array s.client s.cur_mode.reg_list).2 }
          env.ctrls).1 ≠ 0
      · rw [if_pos h3]
        exact ⟨k1, k2, k3, k4, k5⟩
      · rw [if_neg h3, start_stream_hdr_apply_state]
        exact ⟨k1, k2, k3, k4, k5⟩
  · rw [if_neg h1]
    exact ⟨rfl, rfl, rfl, rfl, rfl⟩

/-- The shape of `sc450ai_s_stream` when streaming is switched on. -/
theorem s_stream_on_eq (env : kernel_env) (s : sc450ai) (on_ : Int) (hon : on_ ≠ 0)
    (hs : s.streaming = false) :
    sc450ai_s_stream env s on_
      = if env.pm_get_sync < 0 then
          (env.pm_get_sync,
            if s.is_thunderboot && env.tb_ng then { s with is_thunderboot := false } else s)
        else if (__sc450ai_start_stream env
            (if s.is_thunderboot && env.tb_ng then { s with is_thunderboot := false }
              else s)).1 ≠ 0 then
          __sc450ai_start_stream env
            (if s.is_thunderboot && env.tb_ng then { s with is_thunderboot := false } else s)
        else
          ((__sc450ai_start_stream env
              (if s.is_thunderboot && env.tb_ng then { s with is_thunderboot := false }
                else s)).1,
            { (__sc450ai_start_stream env
                (if s.is_thunderboot && env.tb_ng then { s with is_thunderboot := false }
                  else s)).2 with streaming := true }) := by
  have h1 : decide (on_ ≠ 0) = true := by simp [hon]
  simp only [sc450ai_s_stream, h1, hs]
  simp

/-- C11. Start is atomic on failure: when streaming is switched on from a state
with `streaming = false`, a failed transfer among those the call adds to the
log makes `sc450ai_s_stream` return a non-zero code; a non-zero code leaves
`streaming = false`; `cur_mode`, `has_init_exp` and `init_hdrae_exp` are never
changed; and when the register list is written and a write of it fails, the
log ends with that failed write, after the entries that precede it in the
list. -/
theorem s_stream_on_atomic (env : kernel_env) (s : sc450ai) (on_ : Int) (hon : on_ ≠ 0)
    (hs : s.streaming = false) :
    ((∃ m ∈ (sc450ai_s_stream env s on_).2.client.log.drop s.client.log.length,
        m.failed = true) → (sc450ai_s_stream env s on_).1 ≠ 0) ∧
    ((sc450ai_s_stream env s on_).1 ≠ 0 → (sc450ai_s_stream env s on_).2.streaming = false) ∧
    (sc450ai_s_stream env s on_).2.cur_mode = s.cur_mode ∧
    (sc450ai_s_stream env s on_).2.has_init_exp = s.has_init_exp ∧
    (sc450ai_s_stream env s on_).2.init_hdrae_exp = s.init_hdrae_exp ∧
    (0 ≤ env.pm_get_sync → (s.is_thunderboot = false ∨ env.tb_ng = true) →
      (sc450ai_write_array s.client s.cur_mode.reg_list).1 ≠ 0 →
      (sc450ai_s_stream env s on_).1 = (sc450ai_write_array s.client s.cur_mode.reg_list).1 ∧
      ∃ (pre : List regval) (x : regval) (post : List regval),
        s.cur_mode.reg_list = pre ++ x :: post ∧ (∀ y ∈ pre, y.addr ≠ REG_NULL) ∧
        x.addr ≠ REG_NULL ∧
        (sc450ai_s_stream env s on_).2.client.log
          = s.client.log ++ pre.map (fun y => i2c_msg.write y.addr 1 (y.val % 256) true)
              ++ [i2c_msg.write x.addr 1 (x.val % 256) false]) := by
  rw [s_stream_on_eq env s on_ hon hs]
  generalize hs1 : (if (s.is_thunderboot && env.tb_ng) = true
    then { s with is_thunderboot := false } else s) = s1
  have e1 : s1.client = s.client := by rw [← hs1]; split_ifs <;> rfl
  have e2 : s1.cur_mode = s.cur_mode := by rw [← hs1]; split_ifs <;> rfl
  have e3 : s1.has_init_exp = s.has_init_exp := by rw [← hs1]; split_ifs <;> rfl
  have e4 : s1.init_hdrae_exp = s.init_hdrae_exp := by rw [← hs1]; split_ifs <;> rfl
  have e5 : s1.streaming = false := by rw [← hs1]; split_ifs <;> exact hs
  have e6 : s.is_thunderboot = false ∨ env.tb_ng = true → s1.is_thunderboot = false := by
    intro h
    rw [← hs1]
    split_ifs with hc
    · rfl
    · rcases h with h | h
      · exact h
      · simp only [h, Bool.and_true, Bool.not_eq_true] at hc
        exact hc
  obtain ⟨k1, k2, k3, k4, -⟩ := start_stream_keeps env s1
  have hrun := start_stream_runs env s1
  rw [e1] at hrun
  by_cases hpm : env.pm_get_sync < 0
  · simp only [if_pos hpm]
    refine ⟨?_, fun _ => e5, e2, e3, e4, fun h0 => absurd hpm (by omega)⟩
    rintro ⟨m, hm, -⟩
    rw [e1] at hm
    simp at hm
  · simp only [if_neg hpm]
    by_cases hr : (__sc450ai_start_stream env s1).1 ≠ 0
    · simp only [if_pos hr]
      refine ⟨fun _ => hr, fun _ => k4.trans e5, k3.trans e2, k1.trans e3, k2.trans e4, ?_⟩
      intro _ htb hw
      have htb1 := e6 htb
      rw [← e1, ← e2] at hw
      have hst : __sc450ai_start_stream env s1
          = ((sc450ai_write_array s1.client s1.cur_mode.reg_list).1,
              { s1 with client := (sc450ai_write_array s1.client s1.cur_mode.reg_list).2 }) := by
        unfold __sc450ai_start_stream
        rw [if_pos (show (!s1.is_thunderboot) = true by rw [htb1]; rfl)]
        dsimp only
        rw [if_pos hw]
      rw [hst]
      obtain ⟨pre, x, post, p1, p2, p3, p4⟩ := write_array_stops _ _ hw
      dsimp only
      refine ⟨by rw [e1, e2], pre, x, post, by rw [← e2]; exact p1, p2, p3, ?_⟩
      rw [← e1]
      exact p4
    · simp only [if_neg hr]
      refine ⟨?_, fun h => absurd h hr, k3.trans e2, k1.trans e3, k2.trans e4, ?_⟩
      · intro hf
        exact absurd (runs_to_failed hrun hf) hr
      · intro _ htb hw
        exfalso
        have htb1 := e6 htb
        rw [← e1, ← e2] at hw
        apply hr
        unfold __sc450ai_start_stream
        rw [if_pos (show (!s1.is_thunderboot) = true by rw [htb1]; rfl)]
        dsimp only
        rw [if_pos hw]
        exact hw

set_option maxRecDepth 100000 in
theorem s_stream_on_atomic_witness :
    ((1 : Int) ≠ 0 ∧ (sc450ai_probe (i2c_fail_at 2) 2 HDR_X2 false).streaming = false) ∧
    (sc450ai_s_stream sample_env (sc450ai_probe (i2c_fail_at 2) 2 HDR_X2 false) 1).1 ≠ 0 ∧
    (sc450ai_s_stream sample_env (sc450ai_probe (i2c_fail_at 2) 2 HDR_X2 false) 1).2.streaming
      = false ∧
    (sc450ai_s_stream sample_env (sc450ai_probe (i2c_fail_at 2) 2 HDR_X2 false) 1).2.client.log
      = [i2c_msg.write 0x0103 1 0x01 true, i2c_msg.write 0x0100 1 0x00 true,
          i2c_msg.write 0x36e9 1 0x80 false] :=
  ⟨⟨by decide, rfl⟩,
    (s_stream_on_atomic sample_env (sc450ai_probe (i2c_fail_at 2) 2 HDR_X2 false) 1
      (by decide) rfl).1 (by decide),
    (s_stream_on_atomic sample_env (sc450ai_probe (i2c_fail_at 2) 2 HDR_X2 false) 1
      (by decide) rfl).2.1 (by decide),
    by decide⟩

/-! ### Exposure programming -/

theorem writes_of_append (a b : List i2c_msg) : writes_of (a ++ b) = writes_of a ++ writes_of b := by
  simp [writes_of, List.filterMap_append]

/-- A one-byte register write adds one (register, payload) pair. -/
theorem writes_of_write_reg (client : i2c_client) (reg val : Nat) :
    writes_of (sc450ai_write_reg client reg SC450AI_REG_VALUE_08BIT val).2.log
      = writes_of client.log ++ [(reg, val % 256)] := by
  rw [sc450ai_write_reg_08bit]
  simp [writes_of, List.filterMap_append, i2c_msg.written]

/-- The register writes of `sc450ai_set_gain_reg`. -/
theorem set_gain_reg_writes (s : sc450ai) (gain : Nat) :
    writes_of (sc450ai_set_gain_reg s gain).2.client.log
      = writes_of s.client.log ++ gain_reg_writes s gain := by
  unfold sc450ai_set_gain_reg gain_reg_writes
  dsimp only
  split_ifs <;> simp only [writes_of_write_reg, List.append_assoc, List.singleton_append,
    List.cons_append, List.nil_append, List.append_nil]

/-- The register writes of the programming path of `sc450ai_set_hdrae`: the
three bytes of the long exposure, the two low bytes of the short exposure, then
the gain codes. -/
theorem set_hdrae_apply_writes (s : sc450ai) (ae : preisp_hdrae_exp_s) :
    writes_of (sc450ai_set_hdrae_apply s ae).2.client.log
      = writes_of s.client.log
        ++ [(SC450AI_REG_EXPOSURE_H, SC450AI_FETCH_EXP_H (set_hdrae_l_exp_time s ae) % 256),
            (SC450AI_REG_EXPOSURE_M, SC450AI_FETCH_EXP_M (set_hdrae_l_exp_time s ae) % 256),
            (SC450AI_REG_EXPOSURE_L, SC450AI_FETCH_EXP_L (set_hdrae_l_exp_time s ae) % 256),
            (SC450AI_REG_EXPOSURE_SHORT_M, SC450AI_FETCH_EXP_M (set_hdrae_s_exp_time ae) % 256),
            (SC450AI_REG_EXPOSURE_SHORT_L, SC450AI_FETCH_EXP_L (set_hdrae_s_exp_time ae) % 256)]
        ++ gain_reg_writes s (set_hdrae_l_a_gain s ae) := by
  unfold sc450ai_set_hdrae_apply
  dsimp only
  rw [set_gain_reg_writes]
  simp only [writes_of_write_reg, List.append_assoc, List.singleton_append,
    List.cons_append, List.nil_append]
  rfl

/-- The exposure values programmed by `sc450ai_set_hdrae`, as minima, while the
`u32` bound on the long exposure does not wrap. -/
theorem set_hdrae_exp_times (s : sc450ai) (ae : preisp_hdrae_exp_s)
    (hlo : 0xba + 7 ≤ s.cur_vts) (hhi : s.cur_vts ≤ 2147483840)
    (hL : (if s.cur_mode.hdr_mode = HDR_X2 then ae.middle_exp_reg else ae.long_exp_reg) < 2 ^ 31)
    (hS : ae.short_exp_reg < 2 ^ 31) :
    set_hdrae_l_exp_time s ae
      = min (2 * (if s.cur_mode.hdr_mode = HDR_X2 then ae.middle_exp_reg else ae.long_exp_reg))
          (2 * (s.cur_vts - 0xba) - 13) ∧
    set_hdrae_s_exp_time ae = min (2 * ae.short_exp_reg) (2 * 0xba - 11) := by
  refine ⟨?_, ?_⟩
  · unfold set_hdrae_l_exp_time u32_sub U32
    dsimp only
    generalize (if s.cur_mode.hdr_mode = HDR_X2 then ae.middle_exp_reg else ae.long_exp_reg)
      = L at hL ⊢
    have h1 : (s.cur_vts % 4294967296 + 4294967296 - 186 % 4294967296) % 4294967296
        = s.cur_vts - 186 := by omega
    rw [h1]
    have h2 : (2 * (s.cur_vts - 186) % 4294967296 % 4294967296 + 4294967296
        - 13 % 4294967296) % 4294967296 = 2 * (s.cur_vts - 186) - 13 := by omega
    rw [h2]
    have h3 : L * 2 % 4294967296 = 2 * L := by omega
    rw [h3]
    split_ifs <;> omega
  · unfold set_hdrae_s_exp_time U32
    dsimp only
    have h3 : ae.short_exp_reg * 2 % 4294967296 = 2 * ae.short_exp_reg := by omega
    rw [h3]
    split_ifs <;> omega

/-- C12. HDR exposure clamping when applied: with `L` the long exposure used
(after 2-stagger aliasing) and `S` the short exposure, for `cur_vts >= 0xba + 7`
and `L, S < 2^31`, the value split into the long exposure registers is
`min (2 * L) (2 * (cur_vts - 0xba) - 13)` and the value split into the short
exposure registers is `min (2 * S) (2 * 0xba - 11)`.  The driver stores
`cur_vts` only in the `V4L2_CID_VBLANK` branch of `sc450ai_set_ctrl` (line
2332), from a control whose range ends at `SC450AI_VTS_MAX - height`, so every
value it holds is at most `0x7fff`; the statement covers every `cur_vts` up to
`2^31 + 0xba + 6`. -/
theorem hdrae_exposure_clamp (s : sc450ai) (ae : preisp_hdrae_exp_s)
    (hlo : 0xba + 7 ≤ s.cur_vts) (hhi : s.cur_vts ≤ 2147483840)
    (hL : (if s.cur_mode.hdr_mode = HDR_X2 then ae.middle_exp_reg else ae.long_exp_reg) < 2 ^ 31)
    (hS : ae.short_exp_reg < 2 ^ 31) :
    set_hdrae_l_exp_time s ae
      = min (2 * (if s.cur_mode.hdr_mode = HDR_X2 then ae.middle_exp_reg else ae.long_exp_reg))
          (2 * (s.cur_vts - 0xba) - 13) ∧
    set_hdrae_s_exp_time ae = min (2 * ae.short_exp_reg) (2 * 0xba - 11) ∧
    (writes_of (sc450ai_set_hdrae_apply s ae).2.client.log).take (writes_of s.client.log).length
      = writes_of s.client.log ∧
    ((writes_of (sc450ai_set_hdrae_apply s ae).2.client.log).drop
        (writes_of s.client.log).length).take 5
      = [(SC450AI_REG_EXPOSURE_H, SC450AI_FETCH_EXP_H (set_hdrae_l_exp_time s ae) % 256),
          (SC450AI_REG_EXPOSURE_M, SC450AI_FETCH_EXP_M (set_hdrae_l_exp_time s ae) % 256),
          (SC450AI_REG_EXPOSURE_L, SC450AI_FETCH_EXP_L (set_hdrae_l_exp_time s ae) % 256),
          (SC450AI_REG_EXPOSURE_SHORT_M, SC450AI_FETCH_EXP_M (set_hdrae_s_exp_time ae) % 256),
          (SC450AI_REG_EXPOSURE_SHORT_L, SC450AI_FETCH_EXP_L (set_hdrae_s_exp_time ae) % 256)] := by
  refine ⟨(set_hdrae_exp_times s ae hlo hhi hL hS).1,
    (set_hdrae_exp_times s ae hlo hhi hL hS).2, ?_, ?_⟩
  · rw [set_hdrae_apply_writes, List.append_assoc, List.take_left]
  · rw [set_hdrae_apply_writes, List.append_assoc, List.drop_left]
    rfl

theorem hdrae_exposure_clamp_witness :
    (0xba + 7 ≤ ({ probed_hdr_2lane with cur_vts := 0x0c26, streaming := true }).cur_vts ∧
      ({ probed_hdr_2lane with cur_vts := 0x0c26, streaming := true }).cur_vts ≤ 2147483840) ∧
    set_hdrae_l_exp_time { probed_hdr_2lane with cur_vts := 0x0c26, streaming := true }
        ⟨7, 64, 5000, 64, 300, 64⟩
      = min (2 * (if ({ probed_hdr_2lane with cur_vts := 0x0c26, streaming := true }
            ).cur_mode.hdr_mode = HDR_X2 then 5000 else 7))
          (2 * (0x0c26 - 0xba) - 13) ∧
    set_hdrae_s_exp_time ⟨7, 64, 5000, 64, 300, 64⟩ = min (2 * 300) (2 * 0xba - 11) :=
  ⟨⟨by decide, by decide⟩,
    (hdrae_exposure_clamp { probed_hdr_2lane with cur_vts := 0x0c26, streaming := true }
      ⟨7, 64, 5000, 64, 300, 64⟩ (by decide) (by decide) (by decide) (by decide)).1,
    (hdrae_exposure_clamp { probed_hdr_2lane with cur_vts := 0x0c26, streaming := true }
      ⟨7, 64, 5000, 64, 300, 64⟩ (by decide) (by decide) (by decide) (by decide)).2.1⟩

/-- C13. 2-stagger aliasing: in HDR_X2 mode the programming path of
`sc450ai_set_hdrae` takes the long exposure from `middle_exp_reg` and the gain
from `middle_gain_reg`; replacing `long_exp_reg` and `long_gain_reg` by any
other values changes neither the return code nor anything written. -/
theorem hdrae_two_stagger (s : sc450ai) (ae : preisp_hdrae_exp_s)
    (h : s.cur_mode.hdr_mode = HDR_X2) :
    (∀ l g : Nat, sc450ai_set_hdrae_apply s { ae with long_exp_reg := l, long_gain_reg := g }
        = sc450ai_set_hdrae_apply s ae) ∧
    set_hdrae_l_exp_time s ae
      = (if ae.middle_exp_reg * 2 % U32 > u32_sub (2 * u32_sub s.cur_vts 0xba % U32) 13
          then u32_sub (2 * u32_sub s.cur_vts 0xba % U32) 13
          else ae.middle_exp_reg * 2 % U32) ∧
    set_hdrae_l_a_gain s ae = ae.middle_gain_reg ∧
    writes_of (sc450ai_set_hdrae_apply s ae).2.client.log
      = writes_of s.client.log
        ++ [(SC450AI_REG_EXPOSURE_H, SC450AI_FETCH_EXP_H (set_hdrae_l_exp_time s ae) % 256),
            (SC450AI_REG_EXPOSURE_M, SC450AI_FETCH_EXP_M (set_hdrae_l_exp_time s ae) % 256),
            (SC450AI_REG_EXPOSURE_L, SC450AI_FETCH_EXP_L (set_hdrae_l_exp_time s ae) % 256),
            (SC450AI_REG_EXPOSURE_SHORT_M, SC450AI_FETCH_EXP_M (set_hdrae_s_exp_time ae) % 256),
            (SC450AI_REG_EXPOSURE_SHORT_L, SC450AI_FETCH_EXP_L (set_hdrae_s_exp_time ae) % 256)]
        ++ gain_reg_writes s ae.middle_gain_reg := by
  have hg : set_hdrae_l_a_gain s ae = ae.middle_gain_reg := by
    simp [set_hdrae_l_a_gain, h]
  refine ⟨?_, ?_, hg, ?_⟩
  · intro l g
    simp only [sc450ai_set_hdrae_apply, h, if_true]
  · simp only [set_hdrae_l_exp_time, h, if_true]
  · rw [set_hdrae_apply_writes, hg]

theorem hdrae_two_stagger_witness :
    probed_hdr_2lane.cur_mode.hdr_mode = HDR_X2 ∧
    sc450ai_set_hdrae_apply probed_hdr_2lane
        { sample_hdrae with long_exp_reg := 999, long_gain_reg := 4000 }
      = sc450ai_set_hdrae_apply probed_hdr_2lane sample_hdrae :=
  ⟨by decide, (hdrae_two_stagger probed_hdr_2lane sample_hdrae (by decide)).1 999 4000⟩

/-! ### Vertical blanking and the exposure split -/

/-- Every catalog mode has a non-zero height below `2^16` and a frame-rate
product `max_fps.denominator * vts_def` below `2^32`. -/
theorem catalog_mode_bounds (m : sc450ai_mode)
    (hm : m ∈ supported_modes_2lane ++ supported_modes_4lane) :
    0 < m.height ∧ m.height < 65536 ∧ m.max_fps.denominator * m.vts_def < U32 := by
  have h : ∀ m ∈ supported_modes_2lane ++ supported_modes_4lane,
      0 < m.height ∧ m.height < 65536 ∧ m.max_fps.denominator * m.vts_def < U32 := by
    decide
  exact h m hm

/-- What the VBLANK branch of `sc450ai_set_ctrl` does on a catalog mode. -/
theorem vblank_update_spec (s : sc450ai) (v : Int)
    (hm : s.cur_mode ∈ supported_modes_2lane ++ supported_modes_4lane)
    (hpos : 0 < (s.cur_mode.height : Int) + v) (hv : v < 2147483648) :
    ((sc450ai_set_ctrl true s .V4L2_CID_VBLANK v).2.cur_vts : Int) = s.cur_mode.height + v ∧
    writes_of (sc450ai_set_ctrl true s .V4L2_CID_VBLANK v).2.client.log
      = writes_of s.client.log
        ++ [(SC450AI_REG_VTS_H, (s.cur_mode.height + v).toNat / 256 % 256),
            (SC450AI_REG_VTS_L, (s.cur_mode.height + v).toNat % 256)] ∧
    (s.cur_mode.height + v ≠ s.cur_mode.vts_def →
      (sc450ai_set_ctrl true s .V4L2_CID_VBLANK v).2.cur_fps.denominator
        = s.cur_mode.max_fps.denominator * s.cur_mode.vts_def / (s.cur_mode.height + v).toNat ∧
      (sc450ai_set_ctrl true s .V4L2_CID_VBLANK v).2.cur_fps.numerator
        = s.cur_fps.numerator) ∧
    (s.cur_mode.height + v = s.cur_mode.vts_def →
      (sc450ai_set_ctrl true s .V4L2_CID_VBLANK v).2.cur_fps = s.cur_fps) := by
  obtain ⟨b1, b2, b3⟩ := catalog_mode_bounds s.cur_mode hm
  have hvts : (s32_to_u32 v + s.cur_mode.height) % U32 = (s.cur_mode.height + v).toNat := by
    unfold s32_to_u32 U32
    omega
  have hcast : (((s.cur_mode.height : Int) + v).toNat : Int) = s.cur_mode.height + v :=
    Int.toNat_of_nonneg (by omega)
  generalize hV : ((s.cur_mode.height : Int) + v).toNat = V at hvts hcast
  simp only [sc450ai_set_ctrl, if_true, Bool.not_true, Bool.false_eq_true, if_false, hvts,
    sc450ai_modify_fps_info]
  have hb3 : s.cur_mode.max_fps.denominator * s.cur_mode.vts_def % U32
      = s.cur_mode.max_fps.denominator * s.cur_mode.vts_def := Nat.mod_eq_of_lt b3
  have hne : (V ≠ s.cur_mode.vts_def) ↔ ((s.cur_mode.height : Int) + v ≠ s.cur_mode.vts_def) := by
    rw [← hcast]
    exact not_congr Nat.cast_inj.symm
  refine ⟨?_, ?_, ?_, ?_⟩
  · split_ifs <;> exact hcast
  · have hw : ∀ t : sc450ai, writes_of t.client.log = writes_of s.client.log
          ++ [(SC450AI_REG_VTS_H, V / 256 % 256), (SC450AI_REG_VTS_L, V % 256)] →
        writes_of t.client.log = writes_of s.client.log
          ++ [(SC450AI_REG_VTS_H, V / 256 % 256), (SC450AI_REG_VTS_L, V % 256)] := fun _ h => h
    have e8 : V >>> 8 = V / 256 := by rw [Nat.shiftRight_eq_div_pow]
    have eff : (V &&& 0xff) % 256 = V % 256 := by
      rw [show (0xff : Nat) = 2 ^ 8 - 1 by norm_num, Nat.and_pow_two_sub_one_eq_mod]
      norm_num
    split_ifs <;>
      simp only [writes_of_write_reg, List.append_assoc, List.singleton_append, e8, eff]
  · intro h
    rw [if_pos (hne.mpr h)]
    exact ⟨by rw [hb3], rfl⟩
  · intro h
    rw [if_neg (fun hc => (hne.mp hc) h)]

/-- C14. Blanking and frame rate: for a catalog mode and a vertical-blank value
`v` (an `s32` with `height + v > 0`), the VBLANK branch of `sc450ai_set_ctrl`
sets `cur_vts = height + v`, writes its high and low bytes to the VTS
registers, sets `cur_fps.denominator` to
`max_fps.denominator * vts_def / (height + v)` with the numerator unchanged when
`height + v` differs from `vts_def`, and leaves `cur_fps` unchanged otherwise. -/
theorem vblank_sets_vts_and_fps (s : sc450ai) (v : Int)
    (hm : s.cur_mode ∈ supported_modes_2lane ++ supported_modes_4lane)
    (hpos : 0 < (s.cur_mode.height : Int) + v) (hv : v < 2147483648) :
    ((sc450ai_set_ctrl true s .V4L2_CID_VBLANK v).2.cur_vts : Int) = s.cur_mode.height + v ∧
    writes_of (sc450ai_set_ctrl true s .V4L2_CID_VBLANK v).2.client.log
      = writes_of s.client.log
        ++ [(SC450AI_REG_VTS_H, (s.cur_mode.height + v).toNat / 256 % 256),
            (SC450AI_REG_VTS_L, (s.cur_mode.height + v).toNat % 256)] ∧
    (s.cur_mode.height + v ≠ s.cur_mode.vts_def →
      (sc450ai_set_ctrl true s .V4L2_CID_VBLANK v).2.cur_fps.denominator
        = s.cur_mode.max_fps.denominator * s.cur_mode.vts_def / (s.cur_mode.height + v).toNat ∧
      (sc450ai_set_ctrl true s .V4L2_CID_VBLANK v).2.cur_fps.numerator
        = s.cur_fps.numerator) ∧
    (s.cur_mode.height + v = s.cur_mode.vts_def →
      (sc450ai_set_ctrl true s .V4L2_CID_VBLANK v).2.cur_fps = s.cur_fps) :=
  vblank_update_spec s v hm hpos hv

set_option maxRecDepth 100000 in
theorem vblank_sets_vts_and_fps_witness :
    (probed_hdr_2lane.cur_mode ∈ supported_modes_2lane ++ supported_modes_4lane ∧
      0 < (probed_hdr_2lane.cur_mode.height : Int) + 3000 ∧ (3000 : Int) < 2147483648) ∧
    ((sc450ai_set_ctrl true probed_hdr_2lane .V4L2_CID_VBLANK 3000).2.cur_vts : Int)
      = probed_hdr_2lane.cur_mode.height + 3000 ∧
    (sc450ai_set_ctrl true probed_hdr_2lane .V4L2_CID_VBLANK 3000).2.cur_vts = 4520 :=
  ⟨⟨by decide, by decide, by decide⟩,
    (vblank_sets_vts_and_fps probed_hdr_2lane 3000 (by decide) (by decide) (by decide)).1,
    by decide⟩

/-- For a value below `2^16` the three exposure bytes are `v / 4096 % 16`,
`v / 16 % 256` and `v % 16 * 16`, and they recombine to the value. -/
theorem fetch_exp_recombine (v : Nat) (hv : v < 2 ^ 16) :
    SC450AI_FETCH_EXP_H v < 256 ∧ SC450AI_FETCH_EXP_M v < 256 ∧ SC450AI_FETCH_EXP_L v < 256 ∧
    ((SC450AI_FETCH_EXP_H v <<< 12) ||| (SC450AI_FETCH_EXP_M v <<< 4)
      ||| (SC450AI_FETCH_EXP_L v >>> 4)) = v := by
  have eH : SC450AI_FETCH_EXP_H v = v / 4096 % 16 := by
    unfold SC450AI_FETCH_EXP_H
    rw [show (0xF : Nat) = 2 ^ 4 - 1 by norm_num, Nat.and_pow_two_sub_one_eq_mod,
      Nat.shiftRight_eq_div_pow]
  have eM : SC450AI_FETCH_EXP_M v = v / 16 % 256 := by
    unfold SC450AI_FETCH_EXP_M
    rw [show (0xFF : Nat) = 2 ^ 8 - 1 by norm_num, Nat.and_pow_two_sub_one_eq_mod,
      Nat.shiftRight_eq_div_pow]
  have eL : SC450AI_FETCH_EXP_L v = v % 16 * 16 := by
    unfold SC450AI_FETCH_EXP_L
    rw [show (0xF : Nat) = 2 ^ 4 - 1 by norm_num, Nat.and_pow_two_sub_one_eq_mod,
      Nat.shiftLeft_eq]
  rw [eH, eM, eL]
  refine ⟨by omega, by omega, by omega, ?_⟩
  have e1 : (v % 16 * 16) >>> 4 = v % 16 := by
    rw [Nat.shiftRight_eq_div_pow]
    omega
  rw [e1, Nat.lor_assoc, Nat.shiftLeft_eq, Nat.shiftLeft_eq, Nat.mul_comm _ (2 ^ 4),
    Nat.mul_comm _ (2 ^ 12), ← Nat.mul_add_lt_is_or (by omega : v % 16 < 2 ^ 4),
    ← Nat.mul_add_lt_is_or (by omega : 2 ^ 4 * (v / 16 % 256) + v % 16 < 2 ^ 12)]
  omega

/-- C15 (as stated, refuted). The exposure values `0x10000` and `0` are both
below `2^20` and are split into the same three bytes, so the bytes do not
determine the value; the bytes of `0x10000` recombine to `0`. -/
theorem exp_split_drops_bit16 :
    0x10000 < 2 ^ 20 ∧
    SC450AI_FETCH_EXP_H 0x10000 = SC450AI_FETCH_EXP_H 0 ∧
    SC450AI_FETCH_EXP_M 0x10000 = SC450AI_FETCH_EXP_M 0 ∧
    SC450AI_FETCH_EXP_L 0x10000 = SC450AI_FETCH_EXP_L 0 ∧
    ((SC450AI_FETCH_EXP_H 0x10000 <<< 12) ||| (SC450AI_FETCH_EXP_M 0x10000 <<< 4)
      ||| (SC450AI_FETCH_EXP_L 0x10000 >>> 4)) = 0 := by
  decide

/-- C15 (amended). The exposure register split is lossless for 16-bit values:
for every `v` in `[0, 2^16)` the bytes `H = SC450AI_FETCH_EXP_H(v)`,
`M = SC450AI_FETCH_EXP_M(v)` and `L = SC450AI_FETCH_EXP_L(v)` each fit in 8 bits
and `v = (H << 12) | (M << 4) | (L >> 4)`. -/
theorem exp_split_lossless (v : Nat) (hv : v < 2 ^ 16) :
    SC450AI_FETCH_EXP_H v < 256 ∧ SC450AI_FETCH_EXP_M v < 256 ∧ SC450AI_FETCH_EXP_L v < 256 ∧
    ((SC450AI_FETCH_EXP_H v <<< 12) ||| (SC450AI_FETCH_EXP_M v <<< 4)
      ||| (SC450AI_FETCH_EXP_L v >>> 4)) = v :=
  fetch_exp_recombine v hv

theorem exp_split_lossless_witness :
    0xabcd < 2 ^ 16 ∧
    ((SC450AI_FETCH_EXP_H 0xabcd <<< 12) ||| (SC450AI_FETCH_EXP_M 0xabcd <<< 4)
      ||| (SC450AI_FETCH_EXP_L 0xabcd >>> 4)) = 0xabcd :=
  ⟨by decide, (exp_split_lossless 0xabcd (by decide)).2.2.2⟩

/-! ### Format and blanking -/

/-- The index returned by the best-fit loop is the carried one or the index of
an entry. -/
theorem find_best_fit_loop_index (w h : Nat) (l : List sc450ai_mode) (i b : Nat) (d : Int) :
    (find_best_fit_loop w h l i (b, d)).1 = b ∨
      (i ≤ (find_best_fit_loop w h l i (b, d)).1 ∧
        (find_best_fit_loop w h l i (b, d)).1 < i + l.length) := by
  induction l generalizing i b d with
  | nil => exact Or.inl rfl
  | cons a rest ih =>
    unfold find_best_fit_loop
    dsimp only
    split_ifs
    · rcases ih (i + 1) i (sc450ai_get_reso_dist a w h) with h1 | ⟨h1, h2⟩
      · right
        rw [h1]
        simp
      · right
        simp only [List.length_cons]
        omega
    · rcases ih (i + 1) b d with h1 | ⟨h1, h2⟩
      · exact Or.inl h1
      · right
        simp only [List.length_cons]
        omega

/-- The mode chosen by `sc450ai_find_best_fit` on a non-empty catalog is an
entry of the catalog. -/
theorem find_best_fit_mem (modes : List sc450ai_mode) (w h : Nat) (hne : modes ≠ []) :
    modes.getD (sc450ai_find_best_fit modes w h) default ∈ modes := by
  have hlen : 0 < modes.length := List.length_pos.mpr hne
  have hi : sc450ai_find_best_fit modes w h < modes.length := by
    unfold sc450ai_find_best_fit
    rcases find_best_fit_loop_index w h modes 0 0 (-1) with h1 | ⟨-, h2⟩
    · rw [h1]
      exact hlen
    · omega
  rw [List.getD_eq_getElem _ _ hi]
  exact List.getElem_mem _

/-- For an active format `sc450ai_set_fmt` returns 0 and makes the mode change
with the best-fit entry: the current mode is an entry of the catalog and the
frame rate is its `max_fps`. -/
theorem set_fmt_active (s : sc450ai) (fmt : v4l2_subdev_format) (hne : s.supported_modes ≠ [])
    (hact : fmt.which_try = false) :
    (sc450ai_set_fmt s fmt).1 = 0 ∧
    (sc450ai_set_fmt s fmt).2.1 = set_fmt_update s (sc450ai_set_fmt s fmt).2.1.cur_mode ∧
    (sc450ai_set_fmt s fmt).2.1.cur_mode ∈ s.supported_modes ∧
    (sc450ai_set_fmt s fmt).2.1.cur_fps = (sc450ai_set_fmt s fmt).2.1.cur_mode.max_fps := by
  have hm := find_best_fit_mem s.supported_modes fmt.width fmt.height hne
  have e : sc450ai_set_fmt s fmt
      = (0, set_fmt_update s (s.supported_modes.getD
            (sc450ai_find_best_fit s.supported_modes fmt.width fmt.height) default),
          { fmt with
            code := (s.supported_modes.getD
              (sc450ai_find_best_fit s.supported_modes fmt.width fmt.height) default).bus_fmt,
            width := (s.supported_modes.getD
              (sc450ai_find_best_fit s.supported_modes fmt.width fmt.height) default).width,
            height := (s.supported_modes.getD
              (sc450ai_find_best_fit s.supported_modes fmt.width fmt.height) default).height }) := by
    unfold sc450ai_set_fmt
    dsimp only
    rw [if_neg (by rw [hact]; decide)]
  rw [e]
  exact ⟨rfl, rfl, hm, rfl⟩

set_option maxRecDepth 100000 in
/-- C22 (code bug). On the 2-lane catalog a request of 1344x760 selects entry 2,
whose `hts_def = 0x03a8 = 936` is below its width 1344: the horizontal blank
set by `sc450ai_set_fmt` is the wrapped `u32` difference 4294966888, not the
integer `hts_def - width = -408`.  The default vertical blank is
`vts_def - height = 20`. -/
theorem set_fmt_hblank_wraps :
    (sc450ai_set_fmt probed_hdr_2lane
      { which_try := false, code := 0, width := 1344, height := 760 }).2.1.cur_mode
      ∈ supported_modes_2lane ∧
    (sc450ai_set_fmt probed_hdr_2lane
      { which_try := false, code := 0, width := 1344, height := 760 }).2.1.cur_mode.width
      = 1344 ∧
    (sc450ai_set_fmt probed_hdr_2lane
      { which_try := false, code := 0, width := 1344, height := 760 }).2.1.cur_mode.hts_def
      = 936 ∧
    (sc450ai_set_fmt probed_hdr_2lane
      { which_try := false, code := 0, width := 1344, height := 760 }).2.1.hblank.minimum
      = 4294966888 ∧
    (sc450ai_set_fmt probed_hdr_2lane
      { which_try := false, code := 0, width := 1344, height := 760 }).2.1.hblank.default_value
      = 4294966888 ∧
    (sc450ai_set_fmt probed_hdr_2lane
      { which_try := false, code := 0, width := 1344, height := 760 }).2.1.vblank.default_value
      = 20 := by
  decide

/-- For every mode of the two catalogs the default vertical blank of the mode
change is `vts_def - height`, and for every mode but the 1344x760 one the
horizontal blank is `hts_def - width`; neither difference wraps there. -/
theorem set_fmt_update_blanking (s : sc450ai) (m : sc450ai_mode)
    (hm : m ∈ supported_modes_2lane ++ supported_modes_4lane) :
    (set_fmt_update s m).vblank.default_value = (m.vts_def : Int) - m.height ∧
    (set_fmt_update s m).vblank.minimum = (m.vts_def : Int) - m.height ∧
    0 ≤ (m.vts_def : Int) - m.height ∧
    (m.width ≠ 1344 →
      (set_fmt_update s m).hblank.minimum = (m.hts_def : Int) - m.width ∧
      (set_fmt_update s m).hblank.maximum = (m.hts_def : Int) - m.width ∧
      (set_fmt_update s m).hblank.default_value = (m.hts_def : Int) - m.width ∧
      0 ≤ (m.hts_def : Int) - m.width) := by
  have hb : ∀ m ∈ supported_modes_2lane ++ supported_modes_4lane,
      m.height ≤ m.vts_def ∧ m.vts_def < U32 ∧ m.hts_def < U32 ∧
        (m.width ≠ 1344 → m.width ≤ m.hts_def) := by
    decide
  obtain ⟨b1, b2, b3, b4⟩ := hb m hm
  have hv : (u32_sub m.vts_def m.height : Int) = (m.vts_def : Int) - m.height := by
    unfold u32_sub U32 at *
    omega
  refine ⟨hv, hv, by omega, ?_⟩
  intro hw
  have b5 := b4 hw
  have hh : (u32_sub m.hts_def m.width : Int) = (m.hts_def : Int) - m.width := by
    unfold u32_sub U32 at *
    omega
  exact ⟨hh, hh, hh, by omega⟩

/-! ### Register fields -/

/-- C26. Gain register codes fit their fields: for every gain argument (every
natural number, so every `u32`), `sc450ai_set_gain_reg` computes `fine_again`
in `[0x40, 0x7f]`, `fine_dgain` in `[0x80, 0xff]`, `coarse_again` in
`{0x03, 0x07, 0x23, 0x27, 0x2f, 0x3f}` and `coarse_dgain` in
`{0x00, 0x01, 0x03, 0x07}`; each code is below 256, and the register writes
carry the codes themselves. -/
theorem gain_codes_fit (s : sc450ai) (g : Nat) :
    (0x40 ≤ (sc450ai_set_gain_reg_codes g).fine_again ∧
      (sc450ai_set_gain_reg_codes g).fine_again ≤ 0x7f) ∧
    (0x80 ≤ (sc450ai_set_gain_reg_codes g).fine_dgain ∧
      (sc450ai_set_gain_reg_codes g).fine_dgain ≤ 0xff) ∧
    (sc450ai_set_gain_reg_codes g).coarse_again ∈ [0x03, 0x07, 0x23, 0x27, 0x2f, 0x3f] ∧
    (sc450ai_set_gain_reg_codes g).coarse_dgain ∈ [0x00, 0x01, 0x03, 0x07] ∧
    ((sc450ai_set_gain_reg_codes g).fine_again < 256 ∧
      (sc450ai_set_gain_reg_codes g).fine_dgain < 256 ∧
      (sc450ai_set_gain_reg_codes g).coarse_again < 256 ∧
      (sc450ai_set_gain_reg_codes g).coarse_dgain < 256) ∧
    writes_of (sc450ai_set_gain_reg s g).2.client.log
      = writes_of s.client.log
        ++ [(SC450AI_REG_DIG_GAIN, (sc450ai_set_gain_reg_codes g).coarse_dgain),
            (SC450AI_REG_DIG_FINE_GAIN, (sc450ai_set_gain_reg_codes g).fine_dgain),
            (SC450AI_REG_ANA_GAIN, (sc450ai_set_gain_reg_codes g).coarse_again),
            (SC450AI_REG_ANA_FINE_GAIN, (sc450ai_set_gain_reg_codes g).fine_again)]
        ++ (if s.cur_mode.hdr_mode = HDR_X2 then
            [(SC450AI_REG_DIG_GAIN_SHORT, (sc450ai_set_gain_reg_codes g).coarse_dgain),
              (SC450AI_REG_DIG_FINE_GAIN_SHORT, (sc450ai_set_gain_reg_codes g).fine_dgain),
              (SC450AI_REG_ANA_GAIN_SHORT, (sc450ai_set_gain_reg_codes g).coarse_again),
              (SC450AI_REG_ANA_FINE_GAIN_SHORT, (sc450ai_set_gain_reg_codes g).fine_again)]
          else []) := by
  have hf := gain_fine_bounds g
  have hb := gain_factor_of_bounds g
  have hc : (sc450ai_set_gain_reg_codes g).coarse_again ∈ [0x03, 0x07, 0x23, 0x27, 0x2f, 0x3f] ∧
      (sc450ai_set_gain_reg_codes g).coarse_dgain ∈ [0x00, 0x01, 0x03, 0x07] := by
    rcases gain_codes_cases g with ⟨a, e⟩ | ⟨a, b, e⟩ | ⟨a, b, e⟩ | ⟨a, b, e⟩ | ⟨a, b, e⟩ |
      ⟨a, b, e⟩ | ⟨a, b, e⟩ | ⟨a, b, e⟩ | ⟨a, b, e⟩ | ⟨a, b, e⟩ | ⟨a, e⟩
    all_goals first
      | (rw [e]; dsimp only; exact ⟨by decide, by decide⟩)
      | (exfalso; omega)
  have hlt : (sc450ai_set_gain_reg_codes g).coarse_again < 256 ∧
      (sc450ai_set_gain_reg_codes g).coarse_dgain < 256 := by
    obtain ⟨h1, h2⟩ := hc
    simp only [List.mem_cons, List.mem_singleton, List.not_mem_nil, or_false] at h1 h2
    constructor
    · rcases h1 with h | h | h | h | h | h <;> rw [h] <;> decide
    · rcases h2 with h | h | h | h <;> rw [h] <;> decide
  refine ⟨⟨hf.1, hf.2.1⟩, ⟨hf.2.2.1, hf.2.2.2⟩, hc.1, hc.2,
    ⟨by omega, by omega, hlt.1, hlt.2⟩, ?_⟩
  rw [set_gain_reg_writes]
  unfold gain_reg_writes
  dsimp only
  rw [Nat.mod_eq_of_lt hlt.2, Nat.mod_eq_of_lt hlt.1,
    Nat.mod_eq_of_lt (show (sc450ai_set_gain_reg_codes g).fine_dgain < 256 by omega),
    Nat.mod_eq_of_lt (show (sc450ai_set_gain_reg_codes g).fine_again < 256 by omega),
    List.append_assoc]

/-- C27. Clamped HDR exposures survive the register split: for `cur_vts` in
`[0xba + 7, SC450AI_VTS_MAX]` and requested exposures below `2^31`, the clamped
long value is below `2^16` and the clamped short value is at most 361; the
three long bytes recombine to the clamped long value and the bytes M and L of
the short value recombine to the clamped short value; these five bytes are
written as they are, and the short high register is not written. -/
theorem hdrae_bytes_recombine (s : sc450ai) (ae : preisp_hdrae_exp_s)
    (hlo : 0xba + 7 ≤ s.cur_vts) (hhi : s.cur_vts ≤ SC450AI_VTS_MAX)
    (hL : (if s.cur_mode.hdr_mode = HDR_X2 then ae.middle_exp_reg else ae.long_exp_reg) < 2 ^ 31)
    (hS : ae.short_exp_reg < 2 ^ 31) :
    set_hdrae_l_exp_time s ae < 2 ^ 16 ∧
    set_hdrae_s_exp_time ae ≤ 361 ∧
    ((SC450AI_FETCH_EXP_H (set_hdrae_l_exp_time s ae) <<< 12)
      ||| (SC450AI_FETCH_EXP_M (set_hdrae_l_exp_time s ae) <<< 4)
      ||| (SC450AI_FETCH_EXP_L (set_hdrae_l_exp_time s ae) >>> 4))
      = set_hdrae_l_exp_time s ae ∧
    ((SC450AI_FETCH_EXP_M (set_hdrae_s_exp_time ae) <<< 4)
      ||| (SC450AI_FETCH_EXP_L (set_hdrae_s_exp_time ae) >>> 4))
      = set_hdrae_s_exp_time ae ∧
    writes_of (sc450ai_set_hdrae_apply s ae).2.client.log
      = writes_of s.client.log
        ++ [(SC450AI_REG_EXPOSURE_H, SC450AI_FETCH_EXP_H (set_hdrae_l_exp_time s ae)),
            (SC450AI_REG_EXPOSURE_M, SC450AI_FETCH_EXP_M (set_hdrae_l_exp_time s ae)),
            (SC450AI_REG_EXPOSURE_L, SC450AI_FETCH_EXP_L (set_hdrae_l_exp_time s ae)),
            (SC450AI_REG_EXPOSURE_SHORT_M, SC450AI_FETCH_EXP_M (set_hdrae_s_exp_time ae)),
            (SC450AI_REG_EXPOSURE_SHORT_L, SC450AI_FETCH_EXP_L (set_hdrae_s_exp_time ae))]
        ++ gain_reg_writes s (set_hdrae_l_a_gain s ae) ∧
    (∀ w ∈ (writes_of (sc450ai_set_hdrae_apply s ae).2.client.log).drop
        (writes_of s.client.log).length, w.1 ≠ SC450AI_REG_EXPOSURE_SHORT_H) := by
  have hhi2 : s.cur_vts ≤ 32767 := hhi
  obtain ⟨e1, e2⟩ := set_hdrae_exp_times s ae hlo (by omega) hL hS
  have hl : set_hdrae_l_exp_time s ae < 2 ^ 16 := by
    rw [e1]
    have : 2 * (s.cur_vts - 0xba) - 13 < 2 ^ 16 := by norm_num; omega
    exact lt_of_le_of_lt (min_le_right _ _) this
  have hs : set_hdrae_s_exp_time ae ≤ 361 := by
    rw [e2]
    exact min_le_right _ _
  obtain ⟨l1, l2, l3, l4⟩ := fetch_exp_recombine _ hl
  obtain ⟨s1, s2, s3, s4⟩ := fetch_exp_recombine (set_hdrae_s_exp_time ae)
    (lt_of_le_of_lt hs (by norm_num))
  have hH : SC450AI_FETCH_EXP_H (set_hdrae_s_exp_time ae) = 0 := by
    unfold SC450AI_FETCH_EXP_H
    rw [Nat.shiftRight_eq_div_pow]
    have : set_hdrae_s_exp_time ae / 2 ^ 12 = 0 := by
      apply Nat.div_eq_of_lt
      exact lt_of_le_of_lt hs (by norm_num)
    rw [this]
    rfl
  have hw : writes_of (sc450ai_set_hdrae_apply s ae).2.client.log
      = writes_of s.client.log
        ++ [(SC450AI_REG_EXPOSURE_H, SC450AI_FETCH_EXP_H (set_hdrae_l_exp_time s ae)),
            (SC450AI_REG_EXPOSURE_M, SC450AI_FETCH_EXP_M (set_hdrae_l_exp_time s ae)),
            (SC450AI_REG_EXPOSURE_L, SC450AI_FETCH_EXP_L (set_hdrae_l_exp_time s ae)),
            (SC450AI_REG_EXPOSURE_SHORT_M, SC450AI_FETCH_EXP_M (set_hdrae_s_exp_time ae)),
            (SC450AI_REG_EXPOSURE_SHORT_L, SC450AI_FETCH_EXP_L (set_hdrae_s_exp_time ae))]
        ++ gain_reg_writes s (set_hdrae_l_a_gain s ae) := by
    rw [set_hdrae_apply_writes, Nat.mod_eq_of_lt l1, Nat.mod_eq_of_lt l2, Nat.mod_eq_of_lt l3,
      Nat.mod_eq_of_lt s2, Nat.mod_eq_of_lt s3]
  refine ⟨hl, hs, l4, ?_, hw, ?_⟩
  · rw [hH] at s4
    simpa using s4
  · rw [hw, List.append_assoc, List.drop_left]
    intro w hmem
    unfold gain_reg_writes at hmem
    simp only [List.mem_append, List.mem_cons, List.mem_singleton, List.not_mem_nil,
      or_false] at hmem
    split_ifs at hmem
    all_goals
      simp only [List.mem_cons, List.mem_singleton, List.not_mem_nil, or_false] at hmem
      casesm* _ ∨ _
      all_goals
        rename_i h
        rw [h]
        dsimp only
        decide

theorem hdrae_bytes_recombine_witness :
    (0xba + 7 ≤ ({ probed_hdr_2lane with cur_vts := 0x0c26 }).cur_vts ∧
      ({ probed_hdr_2lane with cur_vts := 0x0c26 }).cur_vts ≤ SC450AI_VTS_MAX) ∧
    set_hdrae_l_exp_time { probed_hdr_2lane with cur_vts := 0x0c26 } ⟨7, 64, 5000, 64, 300, 64⟩
      < 2 ^ 16 ∧
    set_hdrae_s_exp_time ⟨7, 64, 5000, 64, 300, 64⟩ ≤ 361 :=
  ⟨⟨by decide, by decide⟩,
    (hdrae_bytes_recombine { probed_hdr_2lane with cur_vts := 0x0c26 }
      ⟨7, 64, 5000, 64, 300, 64⟩ (by decide) (by decide) (by decide) (by decide)).1,
    (hdrae_bytes_recombine { probed_hdr_2lane with cur_vts := 0x0c26 }
      ⟨7, 64, 5000, 64, 300, 64⟩ (by decide) (by decide) (by decide) (by decide)).2.1⟩

/-! ### Frame rate and vertical total -/

theorem vblank_updates_append (s : sc450ai) (vs : List Int) (v : Int) :
    vblank_updates s (vs ++ [v])
      = (sc450ai_set_ctrl true (vblank_updates s vs) .V4L2_CID_VBLANK v).2 := by
  simp [vblank_updates, List.foldl_append]

theorem fps_denominator_after_append (m : sc450ai_mode) (vs : List Int) (v : Int) :
    fps_denominator_after m (vs ++ [v])
      = (if (m.height : Int) + v ≠ m.vts_def then
          m.max_fps.denominator * m.vts_def / ((m.height : Int) + v).toNat
        else fps_denominator_after m vs) := by
  unfold fps_denominator_after
  rw [List.filter_append]
  by_cases h : (m.height : Int) + v ≠ m.vts_def
  · rw [if_pos h]
    have : List.filter (fun v => decide ((m.height : Int) + v ≠ m.vts_def)) [v] = [v] := by
      simp [List.filter, h]
    rw [this, List.getLast?_append]
    simp
  · rw [if_neg h]
    have : List.filter (fun v => decide ((m.height : Int) + v ≠ m.vts_def)) [v] = [] := by
      simp only [ne_eq, not_not] at h
      simp [List.filter, h]
    rw [this, List.append_nil]

set_option maxRecDepth 100000 in
/-- C28 (as stated, refuted). From the state set by `sc450ai_set_fmt` for
2688x1520 on the 2-lane catalog (`vts_def = 1592`, `max_fps = 10000/300000`),
the vertical blanks 1480 and then 72 bring `cur_vts` to 3000 and back to
`vts_def`; the denominator stays at `300000 * 1592 / 3000 = 159200`, which is
neither `floor(300000 * 1592 / 1592)` nor the one of `max_fps`. -/
theorem fps_not_restored_at_default :
    formatted_2lane.cur_fps = formatted_2lane.cur_mode.max_fps ∧
    formatted_2lane.cur_mode.vts_def = 1592 ∧
    formatted_2lane.cur_mode.max_fps = { numerator := 10000, denominator := 300000 } ∧
    (vblank_updates formatted_2lane [1480]).cur_vts = 3000 ∧
    (vblank_updates formatted_2lane [1480]).cur_fps.denominator = 159200 ∧
    (vblank_updates formatted_2lane [1480, 72]).cur_vts = 1592 ∧
    (vblank_updates formatted_2lane [1480, 72]).cur_fps.denominator = 159200 ∧
    159200 ≠ 300000 * 1592 / 1592 := by
  decide

/-- C28 (amended). Reported frame rate tracks the last non-default vertical
total: starting from a state on a catalog mode with `cur_fps = max_fps` (the
state set by `sc450ai_set_fmt`) and for every finite run of vertical-blank
updates on that mode, the numerator of `cur_fps` is the one of `max_fps` and
the denominator is `floor(max_fps.denominator * vts_def / (height + v))` for
the last update `v` whose vertical total differs from `vts_def`, and the one
of `max_fps` when there is none; so after an update with `cur_vts != vts_def`
the denominator is `floor(max_fps.denominator * vts_def / cur_vts)`, and an
update to `cur_vts = vts_def` leaves `cur_fps` as it was. -/
theorem fps_tracks_vts (s : sc450ai) (vs : List Int)
    (hm : s.cur_mode ∈ supported_modes_2lane ++ supported_modes_4lane)
    (hfps : s.cur_fps = s.cur_mode.max_fps)
    (hvs : ∀ v ∈ vs, 0 < (s.cur_mode.height : Int) + v ∧ v < 2147483648) :
    (vblank_updates s vs).cur_mode = s.cur_mode ∧
    (vblank_updates s vs).cur_fps.numerator = s.cur_mode.max_fps.numerator ∧
    (vblank_updates s vs).cur_fps.denominator = fps_denominator_after s.cur_mode vs ∧
    (∀ v, 0 < (s.cur_mode.height : Int) + v → v < 2147483648 →
      ((vblank_updates s (vs ++ [v])).cur_vts : Int) = s.cur_mode.height + v ∧
      ((vblank_updates s (vs ++ [v])).cur_vts ≠ s.cur_mode.vts_def →
        (vblank_updates s (vs ++ [v])).cur_fps.denominator
          = s.cur_mode.max_fps.denominator * s.cur_mode.vts_def
            / (vblank_updates s (vs ++ [v])).cur_vts) ∧
      ((vblank_updates s (vs ++ [v])).cur_vts = s.cur_mode.vts_def →
        (vblank_updates s (vs ++ [v])).cur_fps = (vblank_updates s vs).cur_fps)) := by
  have main : ∀ l : List Int, (∀ v ∈ l, 0 < (s.cur_mode.height : Int) + v ∧ v < 2147483648) →
      (vblank_updates s l).cur_mode = s.cur_mode ∧
      (vblank_updates s l).cur_fps.numerator = s.cur_mode.max_fps.numerator ∧
      (vblank_updates s l).cur_fps.denominator = fps_denominator_after s.cur_mode l := by
    intro l
    induction l using List.reverseRecOn with
    | nil =>
      intro _
      refine ⟨rfl, ?_, ?_⟩
      · show s.cur_fps.numerator = _
        rw [hfps]
      · show s.cur_fps.denominator = _
        rw [hfps]
        rfl
    | append_singleton a v ih =>
      intro hl
      obtain ⟨i1, i2, i3⟩ := ih (fun x hx => hl x (List.mem_append_left _ hx))
      obtain ⟨hv1, hv2⟩ := hl v (List.mem_append_right _ (List.mem_singleton_self v))
      have hk := (sc450ai_set_ctrl_keeps true (vblank_updates s a) .V4L2_CID_VBLANK v).2.2.1
      obtain ⟨-, -, u3, u4⟩ := vblank_update_spec (vblank_updates s a) v (by rw [i1]; exact hm)
        (by rw [i1]; exact hv1) hv2
      rw [vblank_updates_append, fps_denominator_after_append]
      rw [i1] at u3 u4
      refine ⟨hk.trans i1, ?_, ?_⟩
      · by_cases hd : (s.cur_mode.height : Int) + v ≠ s.cur_mode.vts_def
        · rw [(u3 hd).2, i2]
        · rw [u4 (not_not.mp hd), i2]
      · by_cases hd : (s.cur_mode.height : Int) + v ≠ s.cur_mode.vts_def
        · rw [if_pos hd, (u3 hd).1]
        · rw [if_neg hd, u4 (not_not.mp hd), i3]
  obtain ⟨m1, m2, m3⟩ := main vs hvs
  refine ⟨m1, m2, m3, ?_⟩
  intro v hv1 hv2
  obtain ⟨u1, -, u3, u4⟩ := vblank_update_spec (vblank_updates s vs) v (by rw [m1]; exact hm)
    (by rw [m1]; exact hv1) hv2
  rw [m1] at u1 u3 u4
  rw [vblank_updates_append]
  have hcast : ((sc450ai_set_ctrl true (vblank_updates s vs) .V4L2_CID_VBLANK v).2.cur_vts)
      = ((s.cur_mode.height : Int) + v).toNat := by
    have := congrArg Int.toNat u1
    simpa using this
  refine ⟨u1, ?_, ?_⟩
  · intro hne
    have hd : (s.cur_mode.height : Int) + v ≠ s.cur_mode.vts_def := by
      intro hc
      apply hne
      rw [hcast, hc]
      simp
    rw [(u3 hd).1, hcast]
  · intro he
    have hd : (s.cur_mode.height : Int) + v = s.cur_mode.vts_def := by
      rw [← u1, he]
    exact u4 hd

set_option maxRecDepth 100000 in
theorem fps_tracks_vts_witness :
    (formatted_2lane.cur_mode ∈ supported_modes_2lane ++ supported_modes_4lane ∧
      formatted_2lane.cur_fps = formatted_2lane.cur_mode.max_fps ∧
      ∀ v ∈ [1480, 72], 0 < (formatted_2lane.cur_mode.height : Int) + v ∧ v < 2147483648) ∧
    (vblank_updates formatted_2lane [1480, 72]).cur_fps.denominator
      = fps_denominator_after formatted_2lane.cur_mode [1480, 72] ∧
    fps_denominator_after formatted_2lane.cur_mode [1480, 72] = 159200 :=
  ⟨⟨by decide, by decide, by decide⟩,
    (fps_tracks_vts formatted_2lane [1480, 72] (by decide) (by decide) (by decide)).2.2.1,
    by decide⟩

/-! ### Restart of the stream -/

theorem bus_agree_self (c : i2c_client) (h : ∀ n, c.xfer_ok n = true) : bus_agree c c :=
  ⟨h, h, fun _ => rfl⟩

theorem alike_refl (c d : i2c_client) : alike c d c d 0 0 :=
  fun hb => ⟨hb, rfl, rfl, [], by simp, by simp⟩

theorem alike_trans {c d c2 d2 c3 d3 : i2c_client} {r1 q1 r2 q2 r q : Int}
    (h1 : alike c d c2 d2 r1 q1) (h2 : alike c2 d2 c3 d3 r2 q2)
    (hr : r1 = 0 → r2 = 0 → r = 0) (hq : q1 = 0 → q2 = 0 → q = 0) :
    alike c d c3 d3 r q := by
  intro hb
  obtain ⟨hb2, e1, f1, a1, l1, m1⟩ := h1 hb
  obtain ⟨hb3, e2, f2, a2, l2, m2⟩ := h2 hb2
  exact ⟨hb3, hr e1 e2, hq f1 f2, a1 ++ a2, by rw [l2, l1, List.append_assoc],
    by rw [m2, m1, List.append_assoc]⟩

/-- Two calls in a row whose return codes are or-ed together. -/
theorem alike_or {c d c2 d2 c3 d3 : i2c_client} {r1 q1 r2 q2 : Int}
    (h1 : alike c d c2 d2 r1 q1) (h2 : alike c2 d2 c3 d3 r2 q2) :
    alike c d c3 d3 (int_or r1 r2) (int_or q1 q2) :=
  alike_trans h1 h2 (fun a b => by rw [a, b]; decide) (fun a b => by rw [a, b]; decide)

/-- A call made after an earlier one, whose return code is the result. -/
theorem alike_after {c d c2 d2 c3 d3 : i2c_client} {r1 q1 r2 q2 : Int}
    (h1 : alike c d c2 d2 r1 q1) (h2 : alike c2 d2 c3 d3 r2 q2) :
    alike c d c3 d3 r2 q2 :=
  alike_trans h1 h2 (fun _ b => b) (fun _ b => b)

theorem write_alike (c d : i2c_client) (reg val : Nat) :
    alike c d (sc450ai_write_reg c reg SC450AI_REG_VALUE_08BIT val).2
      (sc450ai_write_reg d reg SC450AI_REG_VALUE_08BIT val).2
      (sc450ai_write_reg c reg SC450AI_REG_VALUE_08BIT val).1
      (sc450ai_write_reg d reg SC450AI_REG_VALUE_08BIT val).1 := by
  intro hb
  obtain ⟨hc, hd, hr⟩ := hb
  rw [sc450ai_write_reg_08bit c, sc450ai_write_reg_08bit d]
  simp only [hc, hd, if_true]
  refine ⟨⟨hc, hd, ?_⟩, trivial, trivial, [i2c_msg.write reg 1 (val % 256) true], rfl, rfl⟩
  intro j
  simp only [List.length_append, List.length_singleton]
  have := hr (1 + j)
  rw [← Nat.add_assoc, ← Nat.add_assoc] at this
  exact this

/-- A one-byte read on a bus without faults. -/
theorem read_reg_08bit_ok (c : i2c_client) (reg val : Nat) (h : ∀ n, c.xfer_ok n = true) :
    sc450ai_read_reg c reg SC450AI_REG_VALUE_08BIT val
      = (0, c.rd_data c.log.length % 256,
          { c with log := c.log ++ [i2c_msg.read reg 1 true] }) := by
  have hlen : ¬ (1 > 4 ∨ 1 = 0) := by omega
  unfold sc450ai_read_reg SC450AI_REG_VALUE_08BIT
  rw [if_neg hlen]
  simp only [h, if_true]
  rfl

theorem read_alike (c d : i2c_client) (reg val : Nat) :
    alike c d (sc450ai_read_reg c reg SC450AI_REG_VALUE_08BIT val).2.2
      (sc450ai_read_reg d reg SC450AI_REG_VALUE_08BIT val).2.2
      (sc450ai_read_reg c reg SC450AI_REG_VALUE_08BIT val).1
      (sc450ai_read_reg d reg SC450AI_REG_VALUE_08BIT val).1 := by
  intro hb
  obtain ⟨hc, hd, hr⟩ := hb
  rw [read_reg_08bit_ok c reg val hc, read_reg_08bit_ok d reg val hd]
  refine ⟨⟨hc, hd, ?_⟩, rfl, rfl, [i2c_msg.read reg 1 true], rfl, rfl⟩
  intro j
  simp only [List.length_append, List.length_singleton]
  have := hr (1 + j)
  rw [← Nat.add_assoc, ← Nat.add_assoc] at this
  exact this

/-- Reads on buses that answer alike return the same value. -/
theorem read_val_alike {c d : i2c_client} (hb : bus_agree c d) (reg val : Nat) :
    (sc450ai_read_reg c reg SC450AI_REG_VALUE_08BIT val).2.1
      = (sc450ai_read_reg d reg SC450AI_REG_VALUE_08BIT val).2.1 := by
  obtain ⟨hc, hd, hr⟩ := hb
  rw [read_reg_08bit_ok c reg val hc, read_reg_08bit_ok d reg val hd]
  have := hr 0
  rw [Nat.add_zero, Nat.add_zero] at this
  show c.rd_data c.log.length % 256 = d.rd_data d.log.length % 256
  rw [this]

/-- A read-modify-write of one register. -/
theorem rmw_alike (c d : i2c_client) (reg : Nat) (f : Nat → Nat) :
    alike c d
      (sc450ai_write_reg (sc450ai_read_reg c reg SC450AI_REG_VALUE_08BIT 0).2.2 reg
        SC450AI_REG_VALUE_08BIT
        (f (sc450ai_read_reg c reg SC450AI_REG_VALUE_08BIT 0).2.1)).2
      (sc450ai_write_reg (sc450ai_read_reg d reg SC450AI_REG_VALUE_08BIT 0).2.2 reg
        SC450AI_REG_VALUE_08BIT
        (f (sc450ai_read_reg d reg SC450AI_REG_VALUE_08BIT 0).2.1)).2
      (int_or (sc450ai_read_reg c reg SC450AI_REG_VALUE_08BIT 0).1
        (sc450ai_write_reg (sc450ai_read_reg c reg SC450AI_REG_VALUE_08BIT 0).2.2 reg
          SC450AI_REG_VALUE_08BIT
          (f (sc450ai_read_reg c reg SC450AI_REG_VALUE_08BIT 0).2.1)).1)
      (int_or (sc450ai_read_reg d reg SC450AI_REG_VALUE_08BIT 0).1
        (sc450ai_write_reg (sc450ai_read_reg d reg SC450AI_REG_VALUE_08BIT 0).2.2 reg
          SC450AI_REG_VALUE_08BIT
          (f (sc450ai_read_reg d reg SC450AI_REG_VALUE_08BIT 0).2.1)).1) := by
  intro hb
  rw [read_val_alike hb reg 0]
  exact alike_or (read_alike c d reg 0) (write_alike _ _ reg _) hb

theorem write_array_alike (regs : List regval) (c d : i2c_client) :
    alike c d (sc450ai_write_array c regs).2 (sc450ai_write_array d regs).2
      (sc450ai_write_array c regs).1 (sc450ai_write_array d regs).1 := by
  induction regs generalizing c d with
  | nil => exact alike_refl c d
  | cons r rest ih =>
    unfold sc450ai_write_array
    by_cases hn : r.addr = REG_NULL
    · rw [if_pos hn, if_pos hn]
      exact alike_refl c d
    · rw [if_neg hn, if_neg hn]
      intro hb
      have hw := write_alike c d r.addr r.val
      obtain ⟨-, e, f, -⟩ := hw hb
      dsimp only
      rw [if_pos e, if_pos f]
      exact alike_after hw (ih _ _) hb

/-- On a bus without faults `sc450ai_write_array` returns 0 and has written
the entries before the sentinel, in order. -/
theorem write_array_ok (regs : List regval) (c : i2c_client)
    (h : ∀ n, c.xfer_ok n = true) :
    (sc450ai_write_array c regs).1 = 0 ∧
    (sc450ai_write_array c regs).2.xfer_ok = c.xfer_ok ∧
    (sc450ai_write_array c regs).2.rd_data = c.rd_data ∧
    (sc450ai_write_array c regs).2.log
      = c.log ++ (regs.takeWhile (fun r => decide (r.addr ≠ REG_NULL))).map
          (fun r => i2c_msg.write r.addr 1 (r.val % 256) true) := by
  induction regs generalizing c with
  | nil => simp [sc450ai_write_array]
  | cons r rest ih =>
    unfold sc450ai_write_array
    by_cases hn : r.addr = REG_NULL
    · rw [if_pos hn]
      simp [List.takeWhile, hn]
    · rw [if_neg hn, sc450ai_write_reg_08bit]
      simp only [h, if_true]
      obtain ⟨i1, i2, i3, i4⟩ := ih
        { c with log := c.log ++ [i2c_msg.write r.addr 1 (r.val % 256) true] } h
      refine ⟨i1, i2, i3, ?_⟩
      rw [i4]
      simp [List.takeWhile, hn]

theorem set_gain_reg_alike (s t : sc450ai) (hm : s.cur_mode = t.cur_mode) (gain : Nat) :
    alike s.client t.client (sc450ai_set_gain_reg s gain).2.client
      (sc450ai_set_gain_reg t gain).2.client (sc450ai_set_gain_reg s gain).1
      (sc450ai_set_gain_reg t gain).1 := by
  unfold sc450ai_set_gain_reg
  dsimp only
  rw [hm]
  split_ifs
  · exact alike_or (alike_or (alike_or (alike_or (alike_or (alike_or (alike_or
      (write_alike _ _ _ _) (write_alike _ _ _ _)) (write_alike _ _ _ _))
      (write_alike _ _ _ _)) (write_alike _ _ _ _)) (write_alike _ _ _ _))
      (write_alike _ _ _ _)) (write_alike _ _ _ _)
  · exact alike_or (alike_or (alike_or
      (write_alike _ _ _ _) (write_alike _ _ _ _)) (write_alike _ _ _ _))
      (write_alike _ _ _ _)

theorem set_ctrl_alike (in_use : Bool) (s t : sc450ai) (hm : s.cur_mode = t.cur_mode)
    (id : v4l2_cid) (val : Int) :
    alike s.client t.client (sc450ai_set_ctrl in_use s id val).2.client
      (sc450ai_set_ctrl in_use t id val).2.client (sc450ai_set_ctrl in_use s id val).1
      (sc450ai_set_ctrl in_use t id val).1 := by
  cases in_use
  · cases id <;>
      simp only [sc450ai_set_ctrl, reduceCtorEq, if_false, if_true, Bool.not_false] <;>
      exact alike_refl _ _
  · cases id
    · simp only [sc450ai_set_ctrl, reduceCtorEq, if_false, Bool.not_true, Bool.false_eq_true]
      rw [hm]
      split_ifs
      · exact alike_or (alike_or (write_alike _ _ _ _) (write_alike _ _ _ _))
          (write_alike _ _ _ _)
      · exact alike_refl _ _
    · simp only [sc450ai_set_ctrl, reduceCtorEq, if_false, Bool.not_true, Bool.false_eq_true]
      rw [hm]
      split_ifs
      · exact set_gain_reg_alike _ _ hm _
      · exact alike_refl _ _
    · simp only [sc450ai_set_ctrl, sc450ai_modify_fps_info, reduceCtorEq, if_false, if_true,
        Bool.not_true, Bool.false_eq_true]
      rw [hm]
      split_ifs <;>
        exact alike_or (write_alike _ _ _ _) (write_alike _ _ _ _)
    · simp only [sc450ai_set_ctrl, reduceCtorEq, if_false, Bool.not_true, Bool.false_eq_true]
      unfold sc450ai_enable_test_pattern
      dsimp only
      exact rmw_alike _ _ _ (fun x =>
        if s32_to_u32 val ≠ 0 then x ||| SC450AI_TEST_PATTERN_BIT_MASK
        else x &&& (U32 - 1 - SC450AI_TEST_PATTERN_BIT_MASK))
    · simp only [sc450ai_set_ctrl, reduceCtorEq, if_false, Bool.not_true, Bool.false_eq_true]
      exact rmw_alike _ _ _ (fun x => SC450AI_FETCH_MIRROR x (val ≠ 0))
    · simp only [sc450ai_set_ctrl, reduceCtorEq, if_false, Bool.not_true, Bool.false_eq_true]
      exact rmw_alike _ _ _ (fun x => SC450AI_FETCH_FLIP x (val ≠ 0))
    · simp only [sc450ai_set_ctrl, reduceCtorEq, if_false, Bool.not_true, Bool.false_eq_true]
      exact alike_refl _ _

theorem ctrl_handler_setup_alike (in_use : Bool) (ctrls : List (v4l2_cid × Int))
    (s t : sc450ai) (hm : s.cur_mode = t.cur_mode) :
    alike s.client t.client (__v4l2_ctrl_handler_setup in_use s ctrls).2.client
      (__v4l2_ctrl_handler_setup in_use t ctrls).2.client
      (__v4l2_ctrl_handler_setup in_use s ctrls).1
      (__v4l2_ctrl_handler_setup in_use t ctrls).1 := by
  induction ctrls generalizing s t with
  | nil => exact alike_refl _ _
  | cons c rest ih =>
    intro hb
    have h1 := set_ctrl_alike in_use s t hm c.1 c.2
    obtain ⟨-, e, f, -⟩ := h1 hb
    have hm2 : (sc450ai_set_ctrl in_use s c.1 c.2).2.cur_mode
        = (sc450ai_set_ctrl in_use t c.1 c.2).2.cur_mode := by
      rw [(sc450ai_set_ctrl_keeps in_use s c.1 c.2).2.2.1,
        (sc450ai_set_ctrl_keeps in_use t c.1 c.2).2.2.1, hm]
    simp only [__v4l2_ctrl_handler_setup, e, f, ne_eq, not_true_eq_false, if_false]
    exact alike_after h1 (ih _ _ hm2) hb

/-- Without thunderboot and without a stored exposure record, on a bus without
faults, `__sc450ai_start_stream` is the register list, the control pass and
the write of the streaming bit. -/
theorem start_stream_ok_eq (env : kernel_env) (t : sc450ai)
    (htb : t.is_thunderboot = false) (hie : t.has_init_exp = false)
    (hok : ∀ n, t.client.xfer_ok n = true) :
    __sc450ai_start_stream env t
      = start_stream_mode_write
          (__v4l2_ctrl_handler_setup env.pm_in_use (after_reg_list t) env.ctrls).2 := by
  obtain ⟨w1, w2, -, -⟩ := write_array_ok t.cur_mode.reg_list t.client hok
  have hok2 : ∀ n, (after_reg_list t).client.xfer_ok n = true := by
    intro n
    show (sc450ai_write_array t.client t.cur_mode.reg_list).2.xfer_ok n = true
    rw [w2]
    exact hok n
  obtain ⟨-, c1, -, -⟩ := ctrl_handler_setup_alike env.pm_in_use env.ctrls (after_reg_list t)
    (after_reg_list t) rfl (bus_agree_self _ hok2)
  have k : (__v4l2_ctrl_handler_setup env.pm_in_use (after_reg_list t) env.ctrls).2.has_init_exp
      = false := (ctrl_handler_setup_keeps env.pm_in_use env.ctrls (after_reg_list t)).1.trans hie
  unfold __sc450ai_start_stream
  dsimp only
  rw [if_pos (by rw [htb]; rfl), if_neg (by rw [w1]; decide)]
  show (if (__v4l2_ctrl_handler_setup env.pm_in_use (after_reg_list t) env.ctrls).1 ≠ 0
    then __v4l2_ctrl_handler_setup env.pm_in_use (after_reg_list t) env.ctrls
    else start_stream_hdr_apply
      (__v4l2_ctrl_handler_setup env.pm_in_use (after_reg_list t) env.ctrls).2) = _
  rw [if_neg (by rw [c1]; decide)]
  unfold start_stream_hdr_apply
  rw [if_neg (by rw [k]; simp)]

theorem start_stream_alike (env : kernel_env) (s t : sc450ai) (hm : s.cur_mode = t.cur_mode)
    (h1 : s.is_thunderboot = false) (h2 : t.is_thunderboot = false)
    (h3 : s.has_init_exp = false) (h4 : t.has_init_exp = false) :
    alike s.client t.client (__sc450ai_start_stream env s).2.client
      (__sc450ai_start_stream env t).2.client (__sc450ai_start_stream env s).1
      (__sc450ai_start_stream env t).1 := by
  intro hb
  rw [start_stream_ok_eq env s h1 h3 hb.1, start_stream_ok_eq env t h2 h4 hb.2.1]
  have ha : alike s.client t.client (after_reg_list s).client (after_reg_list t).client
      (sc450ai_write_array s.client s.cur_mode.reg_list).1
      (sc450ai_write_array t.client t.cur_mode.reg_list).1 := by
    show alike s.client t.client (sc450ai_write_array s.client s.cur_mode.reg_list).2
      (sc450ai_write_array t.client t.cur_mode.reg_list).2 _ _
    rw [← hm]
    exact write_array_alike s.cur_mode.reg_list s.client t.client
  exact alike_after (alike_after ha (ctrl_handler_setup_alike env.pm_in_use env.ctrls
    (after_reg_list s) (after_reg_list t) hm)) (write_alike _ _ _ _) hb

set_option maxRecDepth 1000000 in
/-- Every value of the register tables of the catalogs is a byte. -/
theorem reg_list_vals_byte :
    ∀ m ∈ supported_modes_2lane ++ supported_modes_4lane, ∀ r ∈ m.reg_list, r.val < 256 := by
  decide

/-- The pairs written for the entries of a catalog register list. -/
theorem writes_of_reg_list (m : sc450ai_mode)
    (hm : m ∈ supported_modes_2lane ++ supported_modes_4lane) :
    writes_of ((m.reg_list.takeWhile (fun r => decide (r.addr ≠ REG_NULL))).map
      (fun r => i2c_msg.write r.addr 1 (r.val % 256) true)) = reg_list_writes m.reg_list := by
  unfold writes_of reg_list_writes
  rw [List.filterMap_map]
  rw [← List.filterMap_eq_map]
  apply List.filterMap_congr
  intro r hr
  have hb := reg_list_vals_byte m hm r (List.takeWhile_subset _ hr)
  simp [i2c_msg.written, Nat.mod_eq_of_lt hb]

/-- The register writes of `__sc450ai_start_stream` without thunderboot and
without a stored exposure record, on a bus without faults. -/
theorem start_stream_writes (env : kernel_env) (t : sc450ai)
    (hm : t.cur_mode ∈ supported_modes_2lane ++ supported_modes_4lane)
    (htb : t.is_thunderboot = false) (hie : t.has_init_exp = false)
    (hok : ∀ n, t.client.xfer_ok n = true) :
    (__sc450ai_start_stream env t).1 = 0 ∧
    writes_of ((__sc450ai_start_stream env t).2.client.log.drop t.client.log.length)
      = reg_list_writes t.cur_mode.reg_list ++ ctrl_setup_writes env (after_reg_list t)
          ++ [(SC450AI_REG_CTRL_MODE, SC450AI_MODE_STREAMING)] := by
  obtain ⟨-, w2, -, w4⟩ := write_array_ok t.cur_mode.reg_list t.client hok
  have hrun := ctrl_handler_setup_runs env.pm_in_use env.ctrls (after_reg_list t)
  obtain ⟨-, x2, -, L2, l2, -⟩ := hrun
  have hT : (after_reg_list t).client.log = t.client.log ++
      (t.cur_mode.reg_list.takeWhile (fun r => decide (r.addr ≠ REG_NULL))).map
        (fun r => i2c_msg.write r.addr 1 (r.val % 256) true) := w4
  have hx : (__v4l2_ctrl_handler_setup env.pm_in_use (after_reg_list t) env.ctrls).2.client.xfer_ok
      (__v4l2_ctrl_handler_setup env.pm_in_use (after_reg_list t)
        env.ctrls).2.client.log.length = true := by
    rw [x2]
    show (sc450ai_write_array t.client t.cur_mode.reg_list).2.xfer_ok _ = true
    rw [w2]
    exact hok _
  have hc : ctrl_setup_writes env (after_reg_list t) = writes_of L2 := by
    unfold ctrl_setup_writes
    rw [l2, List.drop_left]
  rw [start_stream_ok_eq env t htb hie hok, hc]
  unfold start_stream_mode_write
  dsimp only
  rw [sc450ai_write_reg_08bit, hx]
  dsimp only
  refine ⟨by simp, ?_⟩
  rw [l2, hT, List.append_assoc, List.append_assoc, List.drop_left, writes_of_append,
    writes_of_append, writes_of_reg_list t.cur_mode hm, List.append_assoc]
  rfl

/-- The state a stop leaves: `sc450ai_s_stream` with 0 on a streaming sensor
without thunderboot. -/
theorem s_stream_off_state (env : kernel_env) (s : sc450ai) (hst : s.streaming = true)
    (htb : s.is_thunderboot = false) :
    (sc450ai_s_stream env s 0).2.cur_mode = s.cur_mode ∧
    (sc450ai_s_stream env s 0).2.is_thunderboot = false ∧
    (sc450ai_s_stream env s 0).2.has_init_exp = false ∧
    (sc450ai_s_stream env s 0).2.streaming = false ∧
    (sc450ai_s_stream env s 0).2.client.xfer_ok = s.client.xfer_ok ∧
    (sc450ai_s_stream env s 0).2.client.rd_data = s.client.rd_data := by
  have hon : decide ((0 : Int) ≠ 0) = false := by decide
  simp only [sc450ai_s_stream, hon, hst, __sc450ai_stop_stream, sc450ai_write_reg_08bit, htb]
  simp

/-- A start that goes through: `sc450ai_s_stream` with 1 on a stopped sensor. -/
theorem s_stream_on_ok (env : kernel_env) (t : sc450ai) (hst : t.streaming = false)
    (htb : t.is_thunderboot = false) (hpm : 0 ≤ env.pm_get_sync)
    (h0 : (__sc450ai_start_stream env t).1 = 0) :
    sc450ai_s_stream env t 1
      = (0, { (__sc450ai_start_stream env t).2 with streaming := true }) := by
  rw [s_stream_on_eq env t 1 (by decide) hst]
  have e : (if (t.is_thunderboot && env.tb_ng) = true then { t with is_thunderboot := false }
      else t) = t := by
    rw [htb]
    simp
  rw [e, if_neg (by omega), if_neg (by rw [h0]; decide), h0]

/-- A restart of a streaming sensor on a catalog mode, without thunderboot and
on a bus without faults, is a stop followed by a start that goes through. -/
theorem restart_eq (env : kernel_env) (s : sc450ai)
    (htb : s.is_thunderboot = false) (hst : s.streaming = true)
    (hok : ∀ n, s.client.xfer_ok n = true) (hpm : 0 ≤ env.pm_get_sync) :
    restart env s
      = (0, { (__sc450ai_start_stream env (sc450ai_s_stream env s 0).2).2 with
                streaming := true }) := by
  obtain ⟨-, o2, o3, o4, o5, -⟩ := s_stream_off_state env s hst htb
  have hok2 : ∀ n, (sc450ai_s_stream env s 0).2.client.xfer_ok n = true := by
    intro n
    rw [o5]
    exact hok n
  have h0 : (__sc450ai_start_stream env (sc450ai_s_stream env s 0).2).1 = 0 := by
    rw [start_stream_ok_eq env _ o2 o3 hok2]
    obtain ⟨-, r, -, -⟩ := alike_after (alike_after
      (write_array_alike (sc450ai_s_stream env s 0).2.cur_mode.reg_list
        (sc450ai_s_stream env s 0).2.client (sc450ai_s_stream env s 0).2.client)
      (ctrl_handler_setup_alike env.pm_in_use env.ctrls
        (after_reg_list (sc450ai_s_stream env s 0).2)
        (after_reg_list (sc450ai_s_stream env s 0).2) rfl)) (write_alike _ _ _ _)
      (bus_agree_self _ hok2)
    exact r
  unfold restart
  exact s_stream_on_ok env _ o4 o2 hpm h0

/-- C21. Idempotent restart: for a streaming sensor on a catalog mode, with
thunderboot off and every bus transfer going through, `sc450ai_s_stream` with 0
followed by `sc450ai_s_stream` with 1 clears `has_init_exp`, returns 0 with
`streaming` set, and the register writes of the start are exactly the entries
of the mode's `reg_list` before the `REG_NULL` sentinel, in order and with
their table values, then the writes of the control pass, then the write of the
streaming bit: no exposure record is applied.  A second restart, with the
same control values and register reads returning the same data, writes the
same sequence. -/
theorem restart_idempotent (env : kernel_env) (s : sc450ai)
    (hm : s.cur_mode ∈ supported_modes_2lane ++ supported_modes_4lane)
    (htb : s.is_thunderboot = false) (hst : s.streaming = true)
    (hok : ∀ n, s.client.xfer_ok n = true) (hpm : 0 ≤ env.pm_get_sync)
    (hrd : ∀ j, s.client.rd_data ((sc450ai_s_stream env s 0).2.client.log.length + j)
      = s.client.rd_data
          ((sc450ai_s_stream env (restart env s).2 0).2.client.log.length + j)) :
    (sc450ai_s_stream env s 0).2.has_init_exp = false ∧
    (restart env s).1 = 0 ∧ (restart env s).2.streaming = true ∧
    restart_writes env s
      = reg_list_writes s.cur_mode.reg_list
          ++ ctrl_setup_writes env (after_reg_list (sc450ai_s_stream env s 0).2)
          ++ [(SC450AI_REG_CTRL_MODE, SC450AI_MODE_STREAMING)] ∧
    restart_writes env (restart env s).2 = restart_writes env s := by
  obtain ⟨o1, o2, o3, -, o5, o6⟩ := s_stream_off_state env s hst htb
  have hok1 : ∀ n, (sc450ai_s_stream env s 0).2.client.xfer_ok n = true := by
    intro n
    rw [o5]
    exact hok n
  have e1 := restart_eq env s htb hst hok hpm
  obtain ⟨k1, k2, k3, -, k5⟩ := start_stream_keeps env (sc450ai_s_stream env s 0).2
  obtain ⟨-, x1, d1, -⟩ := start_stream_runs env (sc450ai_s_stream env s 0).2
  -- the state the first restart leaves
  have m2 : (restart env s).2.cur_mode = s.cur_mode := by
    rw [e1]
    exact k3.trans o1
  have t2 : (restart env s).2.is_thunderboot = false := by
    rw [e1]
    exact k5.trans o2
  have s2 : (restart env s).2.streaming = true := by
    rw [e1]
  have x2 : (restart env s).2.client.xfer_ok = s.client.xfer_ok := by
    rw [e1]
    exact x1.trans o5
  have d2 : (restart env s).2.client.rd_data = s.client.rd_data := by
    rw [e1]
    exact d1.trans o6
  have hok2 : ∀ n, (restart env s).2.client.xfer_ok n = true := by
    intro n
    rw [x2]
    exact hok n
  obtain ⟨p1, p2, p3, -, p5, p6⟩ := s_stream_off_state env (restart env s).2 s2 t2
  have e2 := restart_eq env (restart env s).2 t2 s2 hok2 hpm
  have w1 : restart_writes env s = writes_of ((__sc450ai_start_stream env
      (sc450ai_s_stream env s 0).2).2.client.log.drop
        (sc450ai_s_stream env s 0).2.client.log.length) := by
    unfold restart_writes
    rw [e1]
  have w2 : restart_writes env (restart env s).2 = writes_of ((__sc450ai_start_stream env
      (sc450ai_s_stream env (restart env s).2 0).2).2.client.log.drop
        (sc450ai_s_stream env (restart env s).2 0).2.client.log.length) := by
    unfold restart_writes
    rw [e2]
  have hb : bus_agree (sc450ai_s_stream env s 0).2.client
      (sc450ai_s_stream env (restart env s).2 0).2.client := by
    refine ⟨hok1, ?_, ?_⟩
    · intro n
      rw [p5]
      exact hok2 n
    · intro j
      rw [o6, p6, d2]
      exact hrd j
  obtain ⟨-, -, -, added, l1, l2⟩ := start_stream_alike env (sc450ai_s_stream env s 0).2
    (sc450ai_s_stream env (restart env s).2 0).2 (o1.trans (m2.symm.trans p1.symm)) o2 p2 o3 p3 hb
  refine ⟨o3, by rw [e1], s2, ?_, ?_⟩
  · rw [w1, (start_stream_writes env (sc450ai_s_stream env s 0).2 (by rw [o1]; exact hm)
      o2 o3 hok1).2, o1]
  · rw [w1, w2, l1, l2, List.drop_left, List.drop_left]

set_option maxRecDepth 100000 in
theorem restart_idempotent_witness :
    (streaming_hdr_2lane.cur_mode ∈ supported_modes_2lane ++ supported_modes_4lane ∧
      streaming_hdr_2lane.is_thunderboot = false ∧ streaming_hdr_2lane.streaming = true ∧
      (0 : Int) ≤ sample_env.pm_get_sync) ∧
    (restart sample_env streaming_hdr_2lane).1 = 0 ∧
    restart_writes sample_env (restart sample_env streaming_hdr_2lane).2
      = restart_writes sample_env streaming_hdr_2lane :=
  ⟨⟨by decide, rfl, rfl, by decide⟩,
    (restart_idempotent sample_env streaming_hdr_2lane (by decide) rfl rfl (fun _ => rfl)
      (by decide) (fun _ => rfl)).2.1,
    (restart_idempotent sample_env streaming_hdr_2lane (by decide) rfl rfl (fun _ => rfl)
      (by decide) (fun _ => rfl)).2.2.2.2⟩

end Sc450ai

namespace Sditf

/-! ## Theorems on routing and stream control -/

set_option maxRecDepth 100000 in
/-- C16 (code bug). On `sample_priv` (`HDR_X2`, CSI host 1, 2688x1520, the three
channels invalid) `sditf_channel_enable` returns 0 and sets the identifiers 5
and 4, but leaves `ch_info[1]` invalid: one valid channel, not two.
`sditf_channel_enable_rv1103b` on the same state marks both valid. -/
theorem channel_enable_hdr_x2_one_valid :
    (sditf_channel_enable sample_consts sample_priv 0).1 = 0 ∧
    (sditf_channel_enable sample_consts sample_priv 0).2.toisp_inf.ch_info0
      = { is_valid := true, id := 5 } ∧
    (sditf_channel_enable sample_consts sample_priv 0).2.toisp_inf.ch_info1
      = { is_valid := false, id := 4 } ∧
    (sditf_channel_enable sample_consts sample_priv 0).2.toisp_inf.ch_info2.is_valid = false ∧
    (sditf_channel_enable sample_consts sample_priv 0).2.reg_ops
      = [reg_op.write .CIF_REG_TOISP0_CTRL 0x2129, reg_op.write .CIF_REG_TOISP0_CROP 0,
          reg_op.write .CIF_REG_TOISP0_SIZE 0x05f00a80,
          reg_op.write_or .CIF_REG_GLB_INTEN 0x6c000] ∧
    (sditf_channel_enable_rv1103b sample_consts sample_priv 0).1 = 0 ∧
    (sditf_channel_enable_rv1103b sample_consts sample_priv 0).2.toisp_inf.ch_info0
      = { is_valid := true, id := 5 } ∧
    (sditf_channel_enable_rv1103b sample_consts sample_priv 0).2.toisp_inf.ch_info1
      = { is_valid := true, id := 4 } := by
  decide

/-- The mode branches of `sditf_channel_enable` leave the validity flag of
`ch_info[1]` and of `ch_info[2]` as they find them. -/
theorem channel_enable_modes_keeps_valid (k : cif_consts) (priv : sditf_priv)
    (user csi_idx : Nat) :
    (channel_enable_modes k priv user csi_idx).2.ch_info1.is_valid
      = priv.toisp_inf.ch_info1.is_valid ∧
    (channel_enable_modes k priv user csi_idx).2.ch_info2.is_valid
      = priv.toisp_inf.ch_info2.is_valid := by
  unfold channel_enable_modes
  cases priv.hdr_mode <;> simp

/-- The routing configuration after `sditf_channel_enable`, when the
multi-device check passes, is the one left by its mode branches. -/
theorem channel_enable_toisp_inf (k : cif_consts) (priv : sditf_priv) (user : Nat) :
    (sditf_channel_enable k priv user).2.toisp_inf = priv.toisp_inf ∨
    ∃ csi_idx, (sditf_channel_enable k priv user).2.toisp_inf
      = (channel_enable_modes k priv user csi_idx).2 := by
  unfold sditf_channel_enable rkcif_write_register_or rkcif_write_register
  dsimp only
  split
  · exact Or.inl rfl
  · right
    refine ⟨if decide (priv.cif_dev.capture_info.mode = .RKMODULE_MULTI_DEV_COMBINE_ONE ∧
      priv.toisp_inf.link_mode = .TOISP_UNITE) = true then
        priv.cif_dev.capture_info.dev_idx user else priv.cif_dev.csi_host_idx, ?_⟩
    split_ifs <;> rfl

/-- Whatever the mode, `sditf_channel_enable` leaves the validity flag of
`ch_info[1]` and of `ch_info[2]` as it finds them. -/
theorem channel_enable_keeps_ch1_ch2_valid (k : cif_consts) (priv : sditf_priv) (user : Nat) :
    (sditf_channel_enable k priv user).2.toisp_inf.ch_info1.is_valid
      = priv.toisp_inf.ch_info1.is_valid ∧
    (sditf_channel_enable k priv user).2.toisp_inf.ch_info2.is_valid
      = priv.toisp_inf.ch_info2.is_valid := by
  rcases channel_enable_toisp_inf k priv user with h | ⟨c, h⟩
  · rw [h]
    exact ⟨rfl, rfl⟩
  · rw [h]
    exact channel_enable_modes_keeps_valid k priv user c

/-- C17. Multi-device mismatch is rejected: when the capture mode is
`RKMODULE_MULTI_DEV_COMBINE_ONE`, the link mode is `TOISP_UNITE` and
`multi_dev.dev_num != 2` or `multi_dev.pixel_offset !=
RKMOUDLE_UNITE_EXTEND_PIXEL`, both channel enable functions return `-EINVAL`
and leave the whole state, the register accesses and `toisp_inf` included, as
it was. -/
theorem channel_enable_multi_dev_mismatch (k : cif_consts) (priv : sditf_priv) (user : Nat)
    (hm : priv.cif_dev.capture_info.mode = .RKMODULE_MULTI_DEV_COMBINE_ONE)
    (hl : priv.toisp_inf.link_mode = .TOISP_UNITE)
    (hbad : priv.cif_dev.capture_info.dev_num ≠ 2 ∨
      priv.cif_dev.capture_info.pixel_offset ≠ k.RKMOUDLE_UNITE_EXTEND_PIXEL) :
    sditf_channel_enable k priv user = (- EINVAL, priv) ∧
    sditf_channel_enable_rv1103b k priv user = (- EINVAL, priv) ∧
    (sditf_channel_enable k priv user).2.reg_ops = priv.reg_ops ∧
    (sditf_channel_enable k priv user).2.toisp_inf = priv.toisp_inf ∧
    (sditf_channel_enable_rv1103b k priv user).2.reg_ops = priv.reg_ops ∧
    (sditf_channel_enable_rv1103b k priv user).2.toisp_inf = priv.toisp_inf := by
  have hc : decide (priv.cif_dev.capture_info.mode = .RKMODULE_MULTI_DEV_COMBINE_ONE ∧
      priv.toisp_inf.link_mode = .TOISP_UNITE) = true ∧
      (priv.cif_dev.capture_info.dev_num ≠ 2 ∨
        priv.cif_dev.capture_info.pixel_offset ≠ k.RKMOUDLE_UNITE_EXTEND_PIXEL) :=
    ⟨decide_eq_true ⟨hm, hl⟩, hbad⟩
  have h1 : sditf_channel_enable k priv user = (- EINVAL, priv) := by
    unfold sditf_channel_enable
    dsimp only
    rw [if_pos hc]
  have h2 : sditf_channel_enable_rv1103b k priv user = (- EINVAL, priv) := by
    unfold sditf_channel_enable_rv1103b
    dsimp only
    rw [if_pos hc]
  refine ⟨h1, h2, ?_, ?_, ?_, ?_⟩
  · rw [h1]
  · rw [h1]
  · rw [h2]
  · rw [h2]

theorem channel_enable_multi_dev_mismatch_witness :
    (sample_priv_mismatch.cif_dev.capture_info.mode = .RKMODULE_MULTI_DEV_COMBINE_ONE ∧
      sample_priv_mismatch.toisp_inf.link_mode = .TOISP_UNITE ∧
      sample_priv_mismatch.cif_dev.capture_info.dev_num ≠ 2) ∧
    sditf_channel_enable sample_consts sample_priv_mismatch 0
      = (- EINVAL, sample_priv_mismatch) ∧
    sditf_channel_enable_rv1103b sample_consts sample_priv_mismatch 0
      = (- EINVAL, sample_priv_mismatch) :=
  ⟨⟨rfl, rfl, by decide⟩,
    (channel_enable_multi_dev_mismatch sample_consts sample_priv_mismatch 0 rfl rfl
      (Or.inl (by decide))).1,
    (channel_enable_multi_dev_mismatch sample_consts sample_priv_mismatch 0 rfl rfl
      (Or.inl (by decide))).2.1⟩

/-! ### Stopping -/

/-- The device loop of `sditf_stop_stream` answers `true` exactly when the
stream count of each device it visits is 0. -/
theorem stop_stream_toisp_off_iff (hw : rkcif_hw) (n i : Nat) :
    stop_stream_toisp_off hw i n = true ↔ ∀ j, i ≤ j → j < i + n → hw.pipe_stream_cnt j = 0 := by
  induction n generalizing i with
  | zero =>
    simp only [stop_stream_toisp_off, true_iff]
    intro j h1 h2
    omega
  | succ n ih =>
    unfold stop_stream_toisp_off
    by_cases h : hw.pipe_stream_cnt i = 0
    · rw [if_neg (not_not.mpr h), ih]
      constructor
      · intro hh j h1 h2
        by_cases hj : j = i
        · rw [hj]; exact h
        · exact hh j (by omega) (by omega)
      · intro hh j h1 h2
        exact hh j (by omega) (by omega)
    · rw [if_pos h]
      constructor
      · intro hh
        exact absurd hh (by decide)
      · intro hh
        exact absurd (hh i (le_refl i) (by omega)) h

theorem regs_added_refl (p : sditf_priv) : regs_added p p [] := by
  simp [regs_added]

theorem regs_added_trans {p q r : sditf_priv} {a b : List reg_op} (h1 : regs_added p q a)
    (h2 : regs_added q r b) : regs_added p r (a ++ b) := by
  unfold regs_added at *
  rw [h2, h1]
  simp [List.append_assoc]

/-- The one register access of `sditf_channel_disable`. -/
theorem channel_disable_regs (priv : sditf_priv) (user : Nat) :
    regs_added priv (sditf_channel_disable priv user)
      [reg_op.write_and (if user = 0 then .CIF_REG_TOISP0_CTRL else .CIF_REG_TOISP1_CTRL)
        (u32_not 0x10101)] := by
  unfold regs_added sditf_channel_disable rkcif_write_register_and
  split_ifs <;> rfl

/-- The register accesses of `sditf_channel_disable_rv1103b`. -/
theorem channel_disable_rv1103b_regs (k : cif_consts) (priv : sditf_priv) (user : Nat) :
    regs_added priv (sditf_channel_disable_rv1103b k priv user)
      ((if priv.mode.rdbk_mode = .RKISP_VICAP_ONLINE_MULTI then
          [reg_op.write_and .CIF_REG_MIPI_LVDS_CTRL (u32_not k.CSI_ENABLE_CAPTURE)] else [])
        ++ [reg_op.write_and .CIF_REG_TOISP0_CTRL (u32_not 0x1),
            reg_op.read .CIF_REG_TOISP0_CTRL]
        ++ (if priv.hdr_mode ≠ .NO_HDR then
          [reg_op.write_and .CIF_REG_TOISP0_CH1_CTRL (u32_not 0x1)] else [])
        ++ (if priv.hdr_mode = .HDR_X3 then
          [reg_op.write_and .CIF_REG_TOISP0_CH2_CTRL (u32_not 0x1)] else [])) := by
  unfold regs_added sditf_channel_disable_rv1103b rkcif_write_register_and rkcif_read_register
  dsimp only
  split_ifs <;> simp

/-- The parts of the interface that `sditf_disable_immediately` leaves alone. -/
theorem disable_immediately_keeps (k : cif_consts) (priv : sditf_priv) :
    ∃ ops, sditf_disable_immediately k priv
      = { priv with reg_ops := priv.reg_ops ++ ops, is_toisp_off := true } := by
  have h0 := channel_disable_regs priv 0
  have h1 := channel_disable_regs priv 1
  have h01 := channel_disable_regs (sditf_channel_disable priv 0) 1
  have r0 := channel_disable_rv1103b_regs k priv 0
  have r1 := channel_disable_rv1103b_regs k priv 1
  have h2 := regs_added_trans h0 h01
  unfold regs_added at h0 h1 h01 r0 r1 h2
  unfold sditf_disable_immediately
  dsimp only
  split_ifs
  · exact ⟨_, by rw [r0]⟩
  · exact ⟨_, by rw [h0]⟩
  · exact ⟨_, by rw [r1]⟩
  · exact ⟨_, by rw [h1]⟩
  · exact ⟨_, by rw [r0]⟩
  · exact ⟨_, by rw [h2]⟩
  · exact ⟨_, by rw [h0]⟩
  · exact ⟨[], by simp⟩

/-- C18. Stop invalidates routing: for every state, every behaviour of the
functions of `capture.c` and every value of the constants,
`sditf_stop_stream` returns 0 and leaves `ch_info[0].is_valid`,
`ch_info[1].is_valid` and `ch_info[2].is_valid` false. -/
theorem stop_stream_invalidates (k : cif_consts) (e : cif_ops) (priv : sditf_priv) :
    (sditf_stop_stream k e priv).1 = 0 ∧
    (sditf_stop_stream k e priv).2.toisp_inf.ch_info0.is_valid = false ∧
    (sditf_stop_stream k e priv).2.toisp_inf.ch_info1.is_valid = false ∧
    (sditf_stop_stream k e priv).2.toisp_inf.ch_info2.is_valid = false :=
  ⟨rfl, rfl, rfl, rfl⟩

/-- The state after `sditf_stop_stream`, in terms of the device `D` left by
the calls of `rkcif_do_stop_stream`. -/
theorem stop_stream_eq (k : cif_consts) (e : cif_ops) (priv : sditf_priv) :
    ∃ D : rkcif_device, (sditf_stop_stream k e priv).2.cif_dev = D ∧
      ((stop_stream_toisp_off D.hw_dev 0 D.hw_dev.dev_num = true ∧
          (sditf_stop_stream k e priv).2.is_toisp_off = true ∧
          (sditf_stop_stream k e priv).2.reg_ops
            = (sditf_disable_immediately k { priv with cif_dev := D }).reg_ops) ∨
        (stop_stream_toisp_off D.hw_dev 0 D.hw_dev.dev_num = false ∧
          (sditf_stop_stream k e priv).2.is_toisp_off = priv.is_toisp_off ∧
          (sditf_stop_stream k e priv).2.reg_ops = priv.reg_ops)) := by
  unfold sditf_stop_stream
  dsimp only
  generalize stop_stream_loop e _ priv.cif_dev 0 _ = D
  obtain ⟨ops, hd⟩ := disable_immediately_keeps k { priv with cif_dev := D }
  refine ⟨D, ?_, ?_⟩
  · split_ifs
    · rw [hd]
    · rfl
  · by_cases ht : stop_stream_toisp_off D.hw_dev 0 D.hw_dev.dev_num = true
    · left
      rw [if_pos ht, hd]
      exact ⟨ht, rfl, rfl⟩
    · right
      rw [if_neg ht]
      exact ⟨by simpa using ht, rfl, rfl⟩

/-- C19. Routing tear-down is refcount-guarded: with the stream counts read
after the channels are stopped, `sditf_stop_stream` makes the register accesses
of `sditf_disable_immediately` and sets `is_toisp_off` when `pipe.stream_cnt`
is 0 for every device `i < dev_num`; in `TOISP0` link mode on a chip other than
RV1103B these accesses are the one write that clears the valid bits `0x10101`
of the TOISP0 control register.  When some device has a non-zero count, no
register access is made and `is_toisp_off` is unchanged. -/
theorem stop_stream_refcount (k : cif_consts) (e : cif_ops) (priv : sditf_priv) :
    ((∀ i, i < (sditf_stop_stream k e priv).2.cif_dev.hw_dev.dev_num →
        (sditf_stop_stream k e priv).2.cif_dev.hw_dev.pipe_stream_cnt i = 0) →
      (sditf_stop_stream k e priv).2.is_toisp_off = true ∧
      (sditf_stop_stream k e priv).2.reg_ops
        = (sditf_disable_immediately k
            { priv with cif_dev := (sditf_stop_stream k e priv).2.cif_dev }).reg_ops ∧
      (priv.toisp_inf.link_mode = .TOISP0 →
        (sditf_stop_stream k e priv).2.cif_dev.chip_id ≠ k.CHIP_RV1103B_CIF →
        (sditf_stop_stream k e priv).2.reg_ops
          = priv.reg_ops ++ [reg_op.write_and .CIF_REG_TOISP0_CTRL (u32_not 0x10101)])) ∧
    ((∃ i, i < (sditf_stop_stream k e priv).2.cif_dev.hw_dev.dev_num ∧
        (sditf_stop_stream k e priv).2.cif_dev.hw_dev.pipe_stream_cnt i ≠ 0) →
      (sditf_stop_stream k e priv).2.is_toisp_off = priv.is_toisp_off ∧
      (sditf_stop_stream k e priv).2.reg_ops = priv.reg_ops) := by
  obtain ⟨D, hD, h⟩ := stop_stream_eq k e priv
  rw [hD]
  have hiff := stop_stream_toisp_off_iff D.hw_dev D.hw_dev.dev_num 0
  constructor
  · intro hall
    have ht : stop_stream_toisp_off D.hw_dev 0 D.hw_dev.dev_num = true :=
      hiff.mpr (fun j _ hj => hall j (by omega))
    rcases h with ⟨_, h1, h2⟩ | ⟨hf, _, _⟩
    · refine ⟨h1, h2, ?_⟩
      intro hl hc
      rw [h2]
      unfold sditf_disable_immediately sditf_channel_disable rkcif_write_register_and
      dsimp only
      rw [if_pos hl, if_neg hc]
      rfl
    · rw [ht] at hf
      exact absurd hf (by decide)
  · rintro ⟨i, hi, hne⟩
    rcases h with ⟨ht, _, _⟩ | ⟨_, h1, h2⟩
    · exact absurd (hiff.mp ht i (Nat.zero_le i) (by omega)) hne
    · exact ⟨h1, h2⟩

set_option maxRecDepth 100000 in
theorem stop_stream_refcount_witness :
    (∀ i, i < (sditf_stop_stream sample_consts sample_ops (sample_priv_routed 0)
        ).2.cif_dev.hw_dev.dev_num →
      (sditf_stop_stream sample_consts sample_ops (sample_priv_routed 0)
        ).2.cif_dev.hw_dev.pipe_stream_cnt i = 0) ∧
    (sditf_stop_stream sample_consts sample_ops (sample_priv_routed 0)).2.is_toisp_off = true ∧
    (sditf_stop_stream sample_consts sample_ops (sample_priv_routed 0)).2.reg_ops
      = [reg_op.write_and .CIF_REG_TOISP0_CTRL 0xfffefefe] ∧
    (∃ i, i < (sditf_stop_stream sample_consts sample_ops (sample_priv_routed 1)
        ).2.cif_dev.hw_dev.dev_num ∧
      (sditf_stop_stream sample_consts sample_ops (sample_priv_routed 1)
        ).2.cif_dev.hw_dev.pipe_stream_cnt i ≠ 0) ∧
    (sditf_stop_stream sample_consts sample_ops (sample_priv_routed 1)).2.is_toisp_off = false ∧
    (sditf_stop_stream sample_consts sample_ops (sample_priv_routed 1)).2.reg_ops = [] :=
  ⟨by decide,
    ((stop_stream_refcount sample_consts sample_ops (sample_priv_routed 0)).1 (by decide)).1,
    by decide,
    ⟨1, by decide, by decide⟩,
    ((stop_stream_refcount sample_consts sample_ops (sample_priv_routed 1)).2
      ⟨1, by decide, by decide⟩).1,
    ((stop_stream_refcount sample_consts sample_ops (sample_priv_routed 1)).2
      ⟨1, by decide, by decide⟩).2⟩

/-! ### Switching to online mode -/

/-- Apart from the routing configuration and the register accesses,
`sditf_channel_enable` changes nothing. -/
theorem channel_enable_frame (k : cif_consts) (priv : sditf_priv) (user : Nat) :
    ∃ T L, (sditf_channel_enable k priv user).2 = { priv with toisp_inf := T, reg_ops := L } := by
  unfold sditf_channel_enable rkcif_write_register_or rkcif_write_register
  dsimp only
  split_ifs <;> exact ⟨_, _, rfl⟩

/-- Apart from the routing configuration and the register accesses,
`sditf_channel_enable_rv1103b` changes nothing. -/
theorem channel_enable_rv1103b_frame (k : cif_consts) (priv : sditf_priv) (user : Nat) :
    ∃ T L, (sditf_channel_enable_rv1103b k priv user).2
      = { priv with toisp_inf := T, reg_ops := L } := by
  unfold sditf_channel_enable_rv1103b
  dsimp only
  split
  · exact ⟨_, _, rfl⟩
  · split <;> exact ⟨_, _, rfl⟩

/-- Apart from the routing configuration, the register accesses and
`is_toisp_off`, `sditf_enable_immediately` changes nothing. -/
theorem enable_immediately_frame (k : cif_consts) (priv : sditf_priv) :
    ∃ T L, sditf_enable_immediately k priv
      = { priv with toisp_inf := T, reg_ops := L, is_toisp_off := false } := by
  obtain ⟨T0, L0, h0⟩ := channel_enable_frame k priv 0
  obtain ⟨T1, L1, h1⟩ := channel_enable_frame k priv 1
  obtain ⟨T2, L2, h2⟩ := channel_enable_frame k (sditf_channel_enable k priv 0).2 1
  obtain ⟨T3, L3, h3⟩ := channel_enable_rv1103b_frame k priv 0
  obtain ⟨T4, L4, h4⟩ := channel_enable_rv1103b_frame k priv 1
  unfold sditf_enable_immediately
  dsimp only
  split_ifs
  · exact ⟨_, _, by rw [h3]⟩
  · exact ⟨_, _, by rw [h0]⟩
  · exact ⟨_, _, by rw [h4]⟩
  · exact ⟨_, _, by rw [h1]⟩
  · exact ⟨_, _, by rw [h3]⟩
  · exact ⟨_, _, by rw [h2, h0]⟩
  · exact ⟨_, _, by rw [h0]⟩
  · exact ⟨priv.toisp_inf, priv.reg_ops, rfl⟩

/-- The thunderboot part of `sditf_change_to_online` changes the device only. -/
theorem change_to_online_thunderboot_frame (e : cif_ops) (priv p : sditf_priv)
    (h : change_to_online_thunderboot e priv = some p) :
    ∃ d, p = { priv with cif_dev := d } := by
  unfold change_to_online_thunderboot at h
  dsimp only at h
  split at h
  · exact absurd h (by simp)
  · exact ⟨_, (Option.some.inj h).symm⟩

/-- Whenever `sditf_change_to_online` returns, the mode is `mode_src`. -/
theorem change_to_online_mode (k : cif_consts) (e : cif_ops) (priv p : sditf_priv)
    (h : sditf_change_to_online k e priv = some p) : p.mode = priv.mode_src := by
  obtain ⟨T, L, he⟩ := enable_immediately_frame k { priv with mode := priv.mode_src }
  have hq : ∀ q : sditf_priv, q.mode = priv.mode_src →
      (if q.cif_dev.is_thunderboot = true then change_to_online_thunderboot e q else some q)
        = some p → p.mode = priv.mode_src := by
    intro q hq hh
    split_ifs at hh
    · obtain ⟨d, hd⟩ := change_to_online_thunderboot_frame e q p hh
      rw [hd]
      exact hq
    · rw [← Option.some.inj hh]
      exact hq
  have hmode : (if priv.mode_src.rdbk_mode ≠ .RKISP_VICAP_ONLINE_UNITE ∧
        priv.mode_src.rdbk_mode ≠ .RKISP_VICAP_ONLINE_MULTI then
      sditf_enable_immediately k { priv with mode := priv.mode_src }
      else { priv with mode := priv.mode_src }).mode = priv.mode_src := by
    split_ifs
    · rw [he]
    · rfl
  exact hq _ hmode h

/-- With a buffer that asks for the switch, the bookkeeping of
`sditf_s_rx_buffer` changes the device only, and not whether the stream is in
vertical blanking. -/
theorem s_rx_buffer_queue_switch (e : cif_ops) (priv : sditf_priv) (dbufs : rkisp_rx_buf)
    (i : Nat) (hsw : dbufs.is_switch = true) :
    (∃ d, s_rx_buffer_queue e priv dbufs i = { priv with cif_dev := d }) ∧
    ((s_rx_buffer_queue e priv dbufs i).cif_dev.stream i).is_in_vblank
      = (priv.cif_dev.stream i).is_in_vblank := by
  unfold s_rx_buffer_queue
  simp only [hsw, not_true_eq_false, and_false, decide_False, Bool.false_eq_true, if_false]
  constructor
  · exact ⟨_, rfl⟩
  · unfold set_stream
    split_ifs <;> simp

/-- The bookkeeping of `sditf_s_rx_buffer` leaves the mode, the routing and the
register accesses alone. -/
theorem s_rx_buffer_queue_routing (e : cif_ops) (priv : sditf_priv) (dbufs : rkisp_rx_buf)
    (i : Nat) : same_routing priv (s_rx_buffer_queue e priv dbufs i) := by
  unfold s_rx_buffer_queue same_routing
  dsimp only
  split_ifs <;> exact ⟨rfl, rfl, rfl, rfl, rfl, rfl⟩

/-- The end of a single capture changes the device only. -/
theorem s_rx_buffer_single_cap_routing (e : cif_ops) (priv : sditf_priv) (i : Nat) :
    same_routing priv (s_rx_buffer_single_cap e priv i) :=
  ⟨rfl, rfl, rfl, rfl, rfl, rfl⟩

/-- The update of the early line changes the device only. -/
theorem s_rx_buffer_early_line_routing (e : cif_ops) (priv p : sditf_priv)
    (dbufs : rkisp_rx_buf) (i : Nat) (h : s_rx_buffer_early_line e priv dbufs i = some p) :
    same_routing priv p := by
  unfold s_rx_buffer_early_line at h
  dsimp only at h
  split_ifs at h
  all_goals first
    | (rw [← Option.some.inj h]; exact ⟨rfl, rfl, rfl, rfl, rfl, rfl⟩)
    | (rw [Option.map_eq_some'] at h
       obtain ⟨d, _, hd⟩ := h
       rw [← hd]
       exact ⟨rfl, rfl, rfl, rfl, rfl, rfl⟩)

theorem same_routing_trans {p q r : sditf_priv} (h1 : same_routing p q)
    (h2 : same_routing q r) : same_routing p r := by
  unfold same_routing at *
  obtain ⟨a1, a2, a3, a4, a5, a6⟩ := h1
  obtain ⟨b1, b2, b3, b4, b5, b6⟩ := h2
  exact ⟨b1.trans a1, b2.trans a2, b3.trans a3, b4.trans a4, b5.trans a5, b6.trans a6⟩

/-- The switch block of `sditf_s_rx_buffer` outside of its in-blanking branch. -/
theorem s_rx_buffer_switch_deferred (k : cif_consts) (e : cif_ops) (priv : sditf_priv)
    (dbufs : rkisp_rx_buf) (i : Nat)
    (h : ¬ (dbufs.is_switch = true ∧ dbufs.type = .BUF_SHORT ∧
      (priv.cif_dev.stream i).is_in_vblank = true)) :
    s_rx_buffer_switch k e priv dbufs i
      = some (if dbufs.is_switch = true ∧ dbufs.type = .BUF_SHORT then
          { priv with
            cif_dev := set_stream priv.cif_dev i (fun st => { st with is_change_toisp := true }) }
        else priv) := by
  unfold s_rx_buffer_switch
  by_cases h1 : dbufs.is_switch = true ∧ dbufs.type = .BUF_SHORT
  · rw [if_pos h1, if_pos h1, if_neg (fun hv => h ⟨h1.1, h1.2, hv⟩)]
  · rw [if_neg h1, if_neg h1]

/-- C20. Switch-to-online only inside blanking.  In the switch block of
`sditf_s_rx_buffer`: with `is_switch`, `BUF_SHORT` and the stream outside of
vertical blanking, only `is_change_toisp` of the stream is set; without
`is_switch` or `BUF_SHORT` nothing is done; with all three,
`sditf_change_to_online` is run, and when it returns the mode is `mode_src`.
For the whole call: unless the buffer has `is_switch`, type `BUF_SHORT` and its
stream is in vertical blanking, a returning call leaves the mode, `mode_src`,
the routing configuration, `is_toisp_off` and the register accesses
unchanged. -/
theorem switch_only_in_vblank (k : cif_consts) (e : cif_ops) (priv : sditf_priv)
    (dbufs : rkisp_rx_buf) (i : Nat) :
    (dbufs.is_switch = true → dbufs.type = .BUF_SHORT →
      (priv.cif_dev.stream i).is_in_vblank = false →
      s_rx_buffer_switch k e priv dbufs i
        = some { priv with
            cif_dev :=
              set_stream priv.cif_dev i (fun st => { st with is_change_toisp := true }) }) ∧
    (¬ (dbufs.is_switch = true ∧ dbufs.type = .BUF_SHORT) →
      s_rx_buffer_switch k e priv dbufs i = some priv) ∧
    (dbufs.is_switch = true → dbufs.type = .BUF_SHORT →
      (priv.cif_dev.stream i).is_in_vblank = true →
      s_rx_buffer_switch k e priv dbufs i
        = (sditf_change_to_online k e priv).map (fun p =>
            { p with
              cif_dev := set_stream (e.rkcif_modify_line_int p.cif_dev i false) i
                (fun st => { st with is_line_inten := false }) }) ∧
      ∀ p, s_rx_buffer_switch k e priv dbufs i = some p → p.mode = priv.mode_src) ∧
    (s_rx_buffer_stream priv.cif_dev dbufs = some i →
      ¬ (dbufs.is_switch = true ∧ dbufs.type = .BUF_SHORT ∧
        (priv.cif_dev.stream i).is_in_vblank = true) →
      ∀ r, sditf_s_rx_buffer k e priv (some dbufs) = some r → same_routing priv r.2) := by
  refine ⟨?_, ?_, ?_, ?_⟩
  · intro h1 h2 h3
    rw [s_rx_buffer_switch_deferred k e priv dbufs i (fun hc => by rw [h3] at hc; simp at hc),
      if_pos ⟨h1, h2⟩]
  · intro h
    rw [s_rx_buffer_switch_deferred k e priv dbufs i (fun hc => h ⟨hc.1, hc.2.1⟩), if_neg h]
  · intro h1 h2 h3
    have heq : s_rx_buffer_switch k e priv dbufs i
        = (sditf_change_to_online k e priv).map (fun p =>
            { p with
              cif_dev := set_stream (e.rkcif_modify_line_int p.cif_dev i false) i
                (fun st => { st with is_line_inten := false }) }) := by
      unfold s_rx_buffer_switch
      rw [if_pos ⟨h1, h2⟩, if_pos h3]
      cases sditf_change_to_online k e priv <;> rfl
    refine ⟨heq, ?_⟩
    intro p hp
    rw [heq, Option.map_eq_some'] at hp
    obtain ⟨q, hq, hqp⟩ := hp
    rw [← hqp]
    exact change_to_online_mode k e priv q hq
  · intro hst hno r hr
    unfold sditf_s_rx_buffer at hr
    simp only [hst] at hr
    have hq := s_rx_buffer_queue_routing e priv dbufs i
    have hno2 : ¬ (dbufs.is_switch = true ∧ dbufs.type = .BUF_SHORT ∧
        ((s_rx_buffer_queue e priv dbufs i).cif_dev.stream i).is_in_vblank = true) := by
      rintro ⟨a, b, c⟩
      rw [(s_rx_buffer_queue_switch e priv dbufs i a).2] at c
      exact hno ⟨a, b, c⟩
    rw [s_rx_buffer_switch_deferred k e _ dbufs i hno2] at hr
    dsimp only at hr
    generalize hP : (if dbufs.is_switch = true ∧ dbufs.type = .BUF_SHORT then
      { s_rx_buffer_queue e priv dbufs i with
        cif_dev := set_stream (s_rx_buffer_queue e priv dbufs i).cif_dev i
          (fun st => { st with is_change_toisp := true }) }
      else s_rx_buffer_queue e priv dbufs i) = P at hr
    have hP2 : same_routing (s_rx_buffer_queue e priv dbufs i) P := by
      rw [← hP]
      split_ifs <;> exact ⟨rfl, rfl, rfl, rfl, rfl, rfl⟩
    have hS := s_rx_buffer_single_cap_routing e P i
    have h3 := same_routing_trans (same_routing_trans hq hP2) hS
    split_ifs at hr
    · rw [← Option.some.inj hr]
      exact h3
    · rw [Option.map_eq_some'] at hr
      obtain ⟨q, hq1, hq2⟩ := hr
      rw [← hq2]
      exact same_routing_trans h3 (s_rx_buffer_early_line_routing e _ q dbufs i hq1)

set_option maxRecDepth 100000 in
theorem switch_only_in_vblank_witness :
    (sample_switch_buf.is_switch = true ∧ sample_switch_buf.type = .BUF_SHORT ∧
      ((sample_priv_vblank false).cif_dev.stream 1).is_in_vblank = false) ∧
    s_rx_buffer_switch sample_consts sample_ops (sample_priv_vblank false) sample_switch_buf 1
      = some { sample_priv_vblank false with
          cif_dev := set_stream (sample_priv_vblank false).cif_dev 1
            (fun st => { st with is_change_toisp := true }) } ∧
    ((sample_priv_vblank true).cif_dev.stream 1).is_in_vblank = true ∧
    (∀ p, s_rx_buffer_switch sample_consts sample_ops (sample_priv_vblank true)
        sample_switch_buf 1 = some p →
      p.mode = (sample_priv_vblank true).mode_src) ∧
    ((sditf_s_rx_buffer sample_consts sample_ops (sample_priv_vblank true)
        (some sample_switch_buf)).map (fun r => (r.1, r.2.mode.rdbk_mode, r.2.reg_ops)))
      = some (0, .RKISP_VICAP_ONLINE,
          [reg_op.write .CIF_REG_TOISP0_CTRL 0x2129, reg_op.write .CIF_REG_TOISP0_CROP 0,
            reg_op.write .CIF_REG_TOISP0_SIZE 0x05f00a80,
            reg_op.write_or .CIF_REG_GLB_INTEN 0x6c000]) ∧
    ((sditf_s_rx_buffer sample_consts sample_ops (sample_priv_vblank false)
        (some sample_switch_buf)).map (fun r => (r.1, r.2.mode.rdbk_mode, r.2.reg_ops,
          (r.2.cif_dev.stream 1).is_change_toisp)))
      = some (0, .RKISP_VICAP_RDBK_AUTO, [], true) :=
  ⟨⟨rfl, rfl, rfl⟩,
    (switch_only_in_vblank sample_consts sample_ops (sample_priv_vblank false)
      sample_switch_buf 1).1 rfl rfl rfl,
    rfl,
    ((switch_only_in_vblank sample_consts sample_ops (sample_priv_vblank true)
      sample_switch_buf 1).2.2.1 rfl rfl rfl).2,
    by decide, by decide⟩

/-! ### Errors and register writes -/

set_option maxRecDepth 100000 in
/-- C23 (code bug). With a capture width of 0, `sditf_channel_enable` returns
`-EINVAL` after it has written the control register `CIF_REG_TOISP0_CTRL`, valid
bits included; `sditf_channel_enable_rv1103b` on the same state returns
`-EINVAL` with no register access made. -/
theorem channel_enable_writes_before_error :
    (sditf_channel_enable sample_consts { sample_priv with cap_width := 0 } 0).1 = - EINVAL ∧
    (sditf_channel_enable sample_consts { sample_priv with cap_width := 0 } 0).2.reg_ops
      = [reg_op.write .CIF_REG_TOISP0_CTRL 0x2129] ∧
    (sditf_channel_enable_rv1103b sample_consts { sample_priv with cap_width := 0 } 0).1
      = - EINVAL ∧
    (sditf_channel_enable_rv1103b sample_consts { sample_priv with cap_width := 0 } 0).2.reg_ops
      = [] := by
  decide

/-- Whenever `sditf_channel_enable_rv1103b` returns `-EINVAL`, it has made no
register access; `sditf_channel_enable` has made none when the multi-device
parameters do not match. -/
theorem channel_enable_rv1103b_error_no_access (k : cif_consts) (priv : sditf_priv)
    (user : Nat) (h : (sditf_channel_enable_rv1103b k priv user).1 = - EINVAL) :
    (sditf_channel_enable_rv1103b k priv user).2.reg_ops = priv.reg_ops := by
  unfold sditf_channel_enable_rv1103b at h ⊢
  dsimp only at h ⊢
  split at h
  · rename_i h1
    rw [if_pos h1]
  · rename_i h1
    rw [if_neg h1]
    split at h
    · rename_i h2
      rw [if_pos h2]
    · exact absurd (show (0 : Int) = - EINVAL from h) (by decide)

/-! ### Starting -/

/-- Apart from the device and the HDR mode, `sditf_get_hdr_mode` changes
nothing. -/
theorem get_hdr_mode_frame (e : cif_ops) (priv : sditf_priv) :
    ∃ d h, sditf_get_hdr_mode e priv = { priv with cif_dev := d, hdr_mode := h } := by
  unfold sditf_get_hdr_mode
  lift_lets
  intro d p r
  split_ifs <;> exact ⟨_, _, rfl⟩

/-- Apart from the device, the HDR mode and the capture size,
`sditf_get_set_fmt` changes nothing. -/
theorem get_set_fmt_frame (k : cif_consts) (e : cif_ops) (priv : sditf_priv) :
    ∃ d h cw ch, (sditf_get_set_fmt k e priv).2
      = { priv with cif_dev := d, hdr_mode := h, cap_width := cw, cap_height := ch } := by
  unfold sditf_get_set_fmt
  lift_lets
  intro d p
  obtain ⟨d1, h1, e1⟩ := get_hdr_mode_frame e p
  rw [e1]
  intros
  split_ifs <;> exact ⟨_, _, _, _, rfl⟩

/-- C24 (amended). Routing errors do not stop the start: in online mode
(`rdbk_mode = RKISP_VICAP_ONLINE`), whether or not the channel-enable step
fails with a configuration error, `sditf_start_stream` returns 0, leaves
`is_toisp_off` cleared and starts the capture channels of the HDR mode: the
device is the one left by `rkcif_do_start_stream` on streams 0, 1, ... after
`sditf_get_set_fmt`. -/
theorem start_stream_online (k : cif_consts) (e : cif_ops) (priv : sditf_priv)
    (hon : priv.mode.rdbk_mode = .RKISP_VICAP_ONLINE) :
    (sditf_start_stream k e priv).1 = 0 ∧
    (sditf_start_stream k e priv).2.is_toisp_off = false ∧
    (sditf_start_stream k e priv).2.cif_dev
      = start_stream_loop e .RKCIF_STREAM_MODE_TOISP
          { (sditf_get_set_fmt k e priv).2.cif_dev with is_thunderboot_start := true } 0
          (if (sditf_get_set_fmt k e priv).2.hdr_mode = .NO_HDR ∨
              (sditf_get_set_fmt k e priv).2.hdr_mode = .HDR_COMPR then 1
            else if (sditf_get_set_fmt k e priv).2.hdr_mode = .HDR_X2 then 2
            else if (sditf_get_set_fmt k e priv).2.hdr_mode = .HDR_X3 then 3
            else 0) := by
  obtain ⟨d, h, cw, ch, hf⟩ := get_set_fmt_frame k e priv
  obtain ⟨T, L, he⟩ := enable_immediately_frame k (sditf_get_set_fmt k e priv).2
  have hm : (sditf_get_set_fmt k e priv).2.mode.rdbk_mode = .RKISP_VICAP_ONLINE := by
    rw [hf]
    exact hon
  unfold sditf_start_stream
  dsimp only
  rw [if_pos hm, he]
  dsimp only
  rw [if_pos hm]
  exact ⟨rfl, rfl, rfl⟩

set_option maxRecDepth 100000 in
theorem start_stream_online_witness :
    sample_priv_no_sensor.mode.rdbk_mode = .RKISP_VICAP_ONLINE ∧
    (sditf_start_stream sample_consts sample_ops_counting sample_priv_no_sensor).1 = 0 ∧
    (sditf_start_stream sample_consts sample_ops_counting sample_priv_no_sensor).2.is_toisp_off
      = false :=
  ⟨rfl, (start_stream_online sample_consts sample_ops_counting sample_priv_no_sensor rfl).1,
    (start_stream_online sample_consts sample_ops_counting sample_priv_no_sensor rfl).2.1⟩

set_option maxRecDepth 100000 in
/-- C24 (as stated, refuted). On `sample_priv_no_sensor` (online mode, capture
size 0x0, `is_toisp_off` set) the channel-enable step fails with `-EINVAL`, and
yet `sditf_start_stream` returns 0, clears `is_toisp_off` and starts both
capture channels of `HDR_X2`. -/
theorem start_stream_goes_on_after_error :
    sample_priv_no_sensor.mode.rdbk_mode = .RKISP_VICAP_ONLINE ∧
    sample_priv_no_sensor.is_toisp_off = true ∧
    (sditf_channel_enable sample_consts
      (sditf_get_set_fmt sample_consts sample_ops_counting sample_priv_no_sensor).2 0).1
      = - EINVAL ∧
    (sditf_start_stream sample_consts sample_ops_counting sample_priv_no_sensor).1 = 0 ∧
    (sditf_start_stream sample_consts sample_ops_counting sample_priv_no_sensor).2.is_toisp_off
      = false ∧
    (sditf_start_stream sample_consts sample_ops_counting sample_priv_no_sensor
      ).2.cif_dev.hw_dev.pipe_stream_cnt 0 = 2 := by
  decide

/-! ### The packed control register -/

/-- The fields of the packed control value for `HDR_X3`, with or without bit 28. -/
theorem toisp_ctrl_x3_fields (c val : Nat) (hc : c ≤ 7)
    (hv : val = toisp_ctrl_x3 c ∨ val = toisp_ctrl_x3 c ||| 2 ^ 28) :
    val &&& (U32 - 1 - 2 ^ 28) = toisp_ctrl_x3 c ∧
    (val >>> 3) &&& 0x1f = 4 * c + 2 ∧ (val >>> 11) &&& 0x1f = 4 * c + 1 ∧
    (val >>> 19) &&& 0x1f = 4 * c ∧
    val.testBit 0 = true ∧ val.testBit 8 = true ∧ val.testBit 16 = true ∧
    val &&& u32_not 0x10101 = val - 0x10101 ∧
    ((val &&& u32_not 0x10101) >>> 3) &&& 0x1f = 4 * c + 2 ∧
    ((val &&& u32_not 0x10101) >>> 11) &&& 0x1f = 4 * c + 1 ∧
    ((val &&& u32_not 0x10101) >>> 19) &&& 0x1f = 4 * c ∧
    (val &&& u32_not 0x10101).testBit 0 = false ∧
    (val &&& u32_not 0x10101).testBit 8 = false ∧
    (val &&& u32_not 0x10101).testBit 16 = false := by
  interval_cases c <;> rcases hv with rfl | rfl <;> decide

/-- The packed control value computed by the `HDR_X3` branch of
`sditf_channel_enable`. -/
theorem channel_enable_modes_x3 (k : cif_consts) (priv : sditf_priv) (user csi_idx : Nat)
    (h : priv.hdr_mode = .HDR_X3) (hc : priv.cif_dev.csi_host_idx ≤ 7) :
    (channel_enable_modes k priv user csi_idx).1.ctrl_val
      = toisp_ctrl_x3 priv.cif_dev.csi_host_idx := by
  unfold channel_enable_modes
  simp only [h, reduceCtorEq, or_self, if_false, if_true]
  generalize priv.cif_dev.csi_host_idx = c at hc
  interval_cases c <;> decide

/-- Unless the multi-device check fails, the first register access of
`sditf_channel_enable` is the write of the control register of the user; in
`HDR_X3` on a CSI host `c <= 7` its value is the packed value, with or without
bit 28. -/
theorem channel_enable_first_write (k : cif_consts) (priv : sditf_priv) (user : Nat)
    (hx3 : priv.hdr_mode = .HDR_X3) (hc : priv.cif_dev.csi_host_idx ≤ 7)
    (hpass : ¬ (priv.cif_dev.capture_info.mode = .RKMODULE_MULTI_DEV_COMBINE_ONE ∧
      priv.toisp_inf.link_mode = .TOISP_UNITE ∧
      (priv.cif_dev.capture_info.dev_num ≠ 2 ∨
        priv.cif_dev.capture_info.pixel_offset ≠ k.RKMOUDLE_UNITE_EXTEND_PIXEL))) :
    ∃ val rest,
      (sditf_channel_enable k priv user).2.reg_ops
        = priv.reg_ops ++ reg_op.write
            (if user = 0 then .CIF_REG_TOISP0_CTRL else .CIF_REG_TOISP1_CTRL) val :: rest ∧
      (val = toisp_ctrl_x3 priv.cif_dev.csi_host_idx ∨
        val = toisp_ctrl_x3 priv.cif_dev.csi_host_idx ||| 2 ^ 28) := by
  have hp : ¬ (decide (priv.cif_dev.capture_info.mode = .RKMODULE_MULTI_DEV_COMBINE_ONE ∧
      priv.toisp_inf.link_mode = .TOISP_UNITE) = true ∧
      (priv.cif_dev.capture_info.dev_num ≠ 2 ∨
        priv.cif_dev.capture_info.pixel_offset ≠ k.RKMOUDLE_UNITE_EXTEND_PIXEL)) := by
    rintro ⟨a, b⟩
    have a' := of_decide_eq_true a
    exact hpass ⟨a'.1, a'.2, b⟩
  have hX : ∀ csi : Nat, (channel_enable_modes k priv user csi).1.ctrl_val
      = toisp_ctrl_x3 priv.cif_dev.csi_host_idx :=
    fun csi => channel_enable_modes_x3 k priv user csi hx3 hc
  unfold sditf_channel_enable rkcif_write_register rkcif_write_register_or
  dsimp only
  rw [if_neg hp]
  simp only [hX]
  by_cases hu : user = 0 <;> by_cases hchip : priv.cif_dev.chip_id > k.CHIP_RK3562_CIF
  · simp only [hu, hchip, if_true]
    split_ifs <;>
      simp only [List.append_assoc, List.singleton_append, List.cons_append,
        List.nil_append] <;>
      exact ⟨_, _, rfl, Or.inr rfl⟩
  · simp only [hu, hchip, if_true, if_false]
    split_ifs <;>
      simp only [List.append_assoc, List.singleton_append, List.cons_append,
        List.nil_append] <;>
      exact ⟨_, _, rfl, Or.inl rfl⟩
  · simp only [hu, hchip, if_true, if_false]
    split_ifs <;>
      simp only [List.append_assoc, List.singleton_append, List.cons_append,
        List.nil_append] <;>
      exact ⟨_, _, rfl, Or.inr rfl⟩
  · simp only [hu, hchip, if_false]
    split_ifs <;>
      simp only [List.append_assoc, List.singleton_append, List.cons_append,
        List.nil_append] <;>
      exact ⟨_, _, rfl, Or.inl rfl⟩

/-- C25. Packed control register layout: in `sditf_channel_enable` with
`HDR_X3` and a CSI host index `c <= 7` (the multi-device check passing), the
first register access is the write of the control register of the user, and
its value, bit 28 cleared, is `((4c+2) << 3 | 0x1) | ((4c+1) << 11 | 0x100) |
((4c) << 19 | 0x10000)`; the fields `(val >> 3) & 0x1f`, `(val >> 11) & 0x1f`,
`(val >> 19) & 0x1f` are `4c+2`, `4c+1`, `4c` and bits 0, 8, 16 are set.  The
mask of `sditf_channel_disable` clears those three bits and nothing else. -/
theorem packed_ctrl_layout (k : cif_consts) (priv : sditf_priv) (user : Nat)
    (hx3 : priv.hdr_mode = .HDR_X3) (hc : priv.cif_dev.csi_host_idx ≤ 7)
    (hpass : ¬ (priv.cif_dev.capture_info.mode = .RKMODULE_MULTI_DEV_COMBINE_ONE ∧
      priv.toisp_inf.link_mode = .TOISP_UNITE ∧
      (priv.cif_dev.capture_info.dev_num ≠ 2 ∨
        priv.cif_dev.capture_info.pixel_offset ≠ k.RKMOUDLE_UNITE_EXTEND_PIXEL))) :
    ∃ val rest,
      (sditf_channel_enable k priv user).2.reg_ops
        = priv.reg_ops ++ reg_op.write
            (if user = 0 then .CIF_REG_TOISP0_CTRL else .CIF_REG_TOISP1_CTRL) val :: rest ∧
      val &&& (U32 - 1 - 2 ^ 28) = toisp_ctrl_x3 priv.cif_dev.csi_host_idx ∧
      (val >>> 3) &&& 0x1f = 4 * priv.cif_dev.csi_host_idx + 2 ∧
      (val >>> 11) &&& 0x1f = 4 * priv.cif_dev.csi_host_idx + 1 ∧
      (val >>> 19) &&& 0x1f = 4 * priv.cif_dev.csi_host_idx ∧
      val.testBit 0 = true ∧ val.testBit 8 = true ∧ val.testBit 16 = true ∧
      (sditf_channel_disable priv user).reg_ops
        = priv.reg_ops ++ [reg_op.write_and
            (if user = 0 then .CIF_REG_TOISP0_CTRL else .CIF_REG_TOISP1_CTRL)
            (u32_not 0x10101)] ∧
      val &&& u32_not 0x10101 = val - 0x10101 ∧
      ((val &&& u32_not 0x10101) >>> 3) &&& 0x1f = 4 * priv.cif_dev.csi_host_idx + 2 ∧
      ((val &&& u32_not 0x10101) >>> 11) &&& 0x1f = 4 * priv.cif_dev.csi_host_idx + 1 ∧
      ((val &&& u32_not 0x10101) >>> 19) &&& 0x1f = 4 * priv.cif_dev.csi_host_idx ∧
      (val &&& u32_not 0x10101).testBit 0 = false ∧
      (val &&& u32_not 0x10101).testBit 8 = false ∧
      (val &&& u32_not 0x10101).testBit 16 = false := by
  obtain ⟨val, rest, hr, hv⟩ := channel_enable_first_write k priv user hx3 hc hpass
  have f := toisp_ctrl_x3_fields priv.cif_dev.csi_host_idx val hc hv
  have hdis := channel_disable_regs priv user
  unfold regs_added at hdis
  exact ⟨val, rest, hr, f.1, f.2.1, f.2.2.1, f.2.2.2.1, f.2.2.2.2.1, f.2.2.2.2.2.1,
    f.2.2.2.2.2.2.1, by rw [hdis], f.2.2.2.2.2.2.2⟩

set_option maxRecDepth 100000 in
theorem packed_ctrl_layout_witness :
    (sample_priv_x3.hdr_mode = .HDR_X3 ∧ sample_priv_x3.cif_dev.csi_host_idx ≤ 7) ∧
    (sditf_channel_enable sample_consts sample_priv_x3 0).2.reg_ops.head?
      = some (reg_op.write .CIF_REG_TOISP0_CTRL 0x212931) ∧
    ∃ val rest,
      (sditf_channel_enable sample_consts sample_priv_x3 0).2.reg_ops
        = sample_priv_x3.reg_ops ++ reg_op.write
            (if (0 : Nat) = 0 then .CIF_REG_TOISP0_CTRL else .CIF_REG_TOISP1_CTRL) val :: rest ∧
      val &&& (U32 - 1 - 2 ^ 28) = toisp_ctrl_x3 sample_priv_x3.cif_dev.csi_host_idx :=
  ⟨⟨rfl, by decide⟩, by decide,
    (packed_ctrl_layout sample_consts sample_priv_x3 0 rfl (by decide) (by decide)).imp
      fun _ h => h.imp fun _ h2 => ⟨h2.1, h2.2.1⟩⟩

/-! ### Start and stop pairing -/

/-- `sditf_start_stream` returns 0 and leaves the stream count and the mode
alone. -/
theorem sditf_start_stream_keeps (k : cif_consts) (e : cif_ops) (priv : sditf_priv) :
    (sditf_start_stream k e priv).1 = 0 ∧
    (sditf_start_stream k e priv).2.stream_cnt = priv.stream_cnt ∧
    (sditf_start_stream k e priv).2.is_buf_init = priv.is_buf_init := by
  obtain ⟨d, h, cw, ch, hf⟩ := get_set_fmt_frame k e priv
  obtain ⟨T, L, he⟩ := enable_immediately_frame k (sditf_get_set_fmt k e priv).2
  unfold sditf_start_stream
  dsimp only
  refine ⟨rfl, ?_, ?_⟩
  · split_ifs
    · rw [he, hf]
    · rw [hf]
  · split_ifs
    · rw [he, hf]
    · rw [hf]

/-- `sditf_stop_stream` leaves the stream count alone. -/
theorem stop_stream_keeps_cnt (k : cif_consts) (e : cif_ops) (priv : sditf_priv) :
    (sditf_stop_stream k e priv).2.stream_cnt = priv.stream_cnt := by
  unfold sditf_stop_stream
  dsimp only
  generalize stop_stream_loop e _ priv.cif_dev 0 _ = D
  obtain ⟨ops, hd⟩ := disable_immediately_keeps k { priv with cif_dev := D }
  split_ifs
  · rw [hd]
  · rfl

/-- The four ways through `sditf_s_stream`: an on-call with a count of at least
1 only raises the count; an on-call at 0 raises it and, on a chip from RK3588
on with a mode other than `RKISP_VICAP_RDBK_AIQ`, runs `sditf_start_stream`; an
off-call with a count other than 1 only lowers the count; an off-call at 1
lowers it and, under the same condition, runs `sditf_stop_stream` and
`sditf_free_buf` and resets the mode. -/
theorem s_stream_cases (k : cif_consts) (e : cif_ops) (priv : sditf_priv) :
    (1 ≤ priv.stream_cnt →
      sditf_s_stream k e priv 1 = (0, { priv with stream_cnt := priv.stream_cnt + 1 })) ∧
    (priv.stream_cnt = 0 →
      sditf_s_stream k e priv 1
        = (if priv.cif_dev.chip_id ≥ k.CHIP_RK3588_CIF ∧
              priv.mode.rdbk_mode ≠ .RKISP_VICAP_RDBK_AIQ then
            sditf_start_stream k e { priv with stream_cnt := 1 }
          else (0, { priv with stream_cnt := 1 }))) ∧
    (priv.stream_cnt ≠ 1 →
      sditf_s_stream k e priv 0 = (0, { priv with stream_cnt := priv.stream_cnt - 1 })) ∧
    (priv.stream_cnt = 1 →
      sditf_s_stream k e priv 0
        = (if priv.cif_dev.chip_id ≥ k.CHIP_RK3588_CIF ∧
              priv.mode.rdbk_mode ≠ .RKISP_VICAP_RDBK_AIQ then
            ((sditf_stop_stream k e { priv with stream_cnt := 0 }).1,
              { sditf_free_buf e (sditf_stop_stream k e { priv with stream_cnt := 0 }).2 with
                mode := { (sditf_free_buf e
                    (sditf_stop_stream k e { priv with stream_cnt := 0 }).2).mode with
                  rdbk_mode := .RKISP_VICAP_RDBK_AIQ } })
          else (0, { priv with stream_cnt := 0 }))) := by
  refine ⟨?_, ?_, ?_, ?_⟩
  · intro h
    unfold sditf_s_stream
    simp only [one_ne_zero, if_false, false_and, ne_eq, not_false_eq_true, if_true, true_and]
    rw [if_pos (by omega)]
  · intro h
    have hs := (sditf_start_stream_keeps k e { priv with stream_cnt := 1 }).1
    unfold sditf_s_stream
    simp only [one_ne_zero, if_false, false_and, ne_eq, not_false_eq_true, if_true, true_and, h,
      zero_add, gt_iff_lt, lt_self_iff_false]
    by_cases hc : priv.cif_dev.chip_id ≥ k.CHIP_RK3588_CIF
    · by_cases hm : priv.mode.rdbk_mode = .RKISP_VICAP_RDBK_AIQ
      · simp [hc, hm]
      · simp only [hc, hm, if_true, if_false, not_false_eq_true, and_self]
        rw [if_neg (by rw [hs]; simp)]
    · simp [hc]
  · intro h
    unfold sditf_s_stream
    simp only [if_true, true_and, ne_eq]
    rw [if_pos (by omega)]
  · intro h
    unfold sditf_s_stream
    simp only [if_true, true_and, ne_eq, h, sub_self, not_true_eq_false, if_false, false_and]
    by_cases hc : priv.cif_dev.chip_id ≥ k.CHIP_RK3588_CIF
    · by_cases hm : priv.mode.rdbk_mode = .RKISP_VICAP_RDBK_AIQ
      · simp [hc, hm]
      · simp [hc, hm]
    · simp [hc]

/-- Every call of `sditf_s_stream` returns 0; an on-call raises the stream
count by 1 and an off-call lowers it by 1. -/
theorem s_stream_count (k : cif_consts) (e : cif_ops) (priv : sditf_priv) (on_ : Bool) :
    (sditf_s_stream k e priv (if on_ then 1 else 0)).2.stream_cnt
      = priv.stream_cnt + (if on_ then 1 else -1) := by
  have hs := sditf_start_stream_keeps k e { priv with stream_cnt := priv.stream_cnt + 1 }
  have ht := stop_stream_keeps_cnt k e { priv with stream_cnt := priv.stream_cnt - 1 }
  cases on_
  · unfold sditf_s_stream
    simp only [Bool.false_eq_true, if_false, if_true, true_and, ne_eq, not_true_eq_false,
      false_and]
    split_ifs
    all_goals first
      | rfl
      | (show (sditf_free_buf e (sditf_stop_stream k e _).2).stream_cnt = _
         unfold sditf_free_buf
         dsimp only
         rw [ht]
         rfl)
  · unfold sditf_s_stream
    simp only [if_true, one_ne_zero, if_false, false_and, ne_eq, not_false_eq_true, true_and]
    split_ifs
    all_goals first
      | rfl
      | exact hs.2.1
      | (rename_i h4; exact absurd hs.1 h4)

theorem outstanding_append (a : List Bool) (c : Bool) :
    outstanding (a ++ [c]) = outstanding a + (if c then 1 else -1) := by
  unfold outstanding
  cases c <;> simp [List.count_append] <;> ring

/-- After a run of calls the stream count has moved by the number of
outstanding on-calls. -/
theorem s_stream_calls_count (k : cif_consts) (e : cif_ops) (priv : sditf_priv)
    (calls : List Bool) :
    (s_stream_calls k e priv calls).stream_cnt = priv.stream_cnt + outstanding calls := by
  induction calls using List.reverseRecOn with
  | nil => simp [s_stream_calls, outstanding]
  | append_singleton a c ih =>
    have h : s_stream_calls k e priv (a ++ [c])
        = (sditf_s_stream k e (s_stream_calls k e priv a) (if c then 1 else 0)).2 := by
      simp [s_stream_calls, List.foldl_append]
    rw [h, s_stream_count, ih, outstanding_append]
    ring

/-- A prefix of a run without off-calls at 0 is such a run. -/
theorem no_off_at_zero_take (calls : List Bool) (n : Nat) (h : no_off_at_zero calls) :
    no_off_at_zero (calls.take n) := by
  intro m hm
  rw [List.getElem?_take] at hm
  split_ifs at hm with hlt
  · have := h m hm
    rw [List.take_take, min_eq_left (le_of_lt hlt)]
    exact this

/-- In a run without off-calls at 0 the number of outstanding on-calls is not
negative. -/
theorem outstanding_nonneg (calls : List Bool) (h : no_off_at_zero calls) :
    0 ≤ outstanding calls := by
  induction calls using List.reverseRecOn with
  | nil => simp [outstanding]
  | append_singleton a c ih =>
    have ha : no_off_at_zero a := by
      have := no_off_at_zero_take (a ++ [c]) a.length h
      simpa using this
    rw [outstanding_append]
    cases c
    · have := h a.length (by simp)
      simp only [List.take_left'] at this
      simp only [Bool.false_eq_true, if_false]
      have h2 : 0 < outstanding a := by simpa using this
      omega
    · have := ih ha
      simp only [if_true]
      omega

/-- C29. Start/stop pairing in `sditf_s_stream`: in a run of sequential calls
that begins at `stream_cnt = 0` and makes no off-call while the count is 0,
after every prefix of the run the count equals the number of outstanding
on-calls and is not negative.  An on-call at a count of 1 or more only raises
the count, and an off-call at a count other than 1 only lowers it; on a chip
from RK3588 on, in a mode other than `RKISP_VICAP_RDBK_AIQ`, the on-call at 0
is `sditf_start_stream` and the off-call at 1 is `sditf_stop_stream` followed by
`sditf_free_buf` and the reset of `rdbk_mode`. -/
theorem s_stream_pairing (k : cif_consts) (e : cif_ops) (priv : sditf_priv)
    (calls : List Bool) (h0 : priv.stream_cnt = 0) (hv : no_off_at_zero calls) :
    (∀ n, (s_stream_calls k e priv (calls.take n)).stream_cnt = outstanding (calls.take n) ∧
      0 ≤ (s_stream_calls k e priv (calls.take n)).stream_cnt) ∧
    (s_stream_calls k e priv calls).stream_cnt = outstanding calls ∧
    (∀ p : sditf_priv,
      (1 ≤ p.stream_cnt →
        sditf_s_stream k e p 1 = (0, { p with stream_cnt := p.stream_cnt + 1 })) ∧
      (p.stream_cnt ≠ 1 →
        sditf_s_stream k e p 0 = (0, { p with stream_cnt := p.stream_cnt - 1 })) ∧
      (p.stream_cnt = 0 → p.cif_dev.chip_id ≥ k.CHIP_RK3588_CIF →
        p.mode.rdbk_mode ≠ .RKISP_VICAP_RDBK_AIQ →
        sditf_s_stream k e p 1 = sditf_start_stream k e { p with stream_cnt := 1 }) ∧
      (p.stream_cnt = 1 → p.cif_dev.chip_id ≥ k.CHIP_RK3588_CIF →
        p.mode.rdbk_mode ≠ .RKISP_VICAP_RDBK_AIQ →
        sditf_s_stream k e p 0
          = ((sditf_stop_stream k e { p with stream_cnt := 0 }).1,
              { sditf_free_buf e (sditf_stop_stream k e { p with stream_cnt := 0 }).2 with
                mode := { (sditf_free_buf e
                    (sditf_stop_stream k e { p with stream_cnt := 0 }).2).mode with
                  rdbk_mode := .RKISP_VICAP_RDBK_AIQ } }))) := by
  have hcnt : ∀ l : List Bool, (s_stream_calls k e priv l).stream_cnt = outstanding l := by
    intro l
    rw [s_stream_calls_count, h0, zero_add]
  refine ⟨?_, hcnt calls, ?_⟩
  · intro n
    refine ⟨hcnt _, ?_⟩
    rw [hcnt]
    exact outstanding_nonneg _ (no_off_at_zero_take calls n hv)
  · intro p
    obtain ⟨c1, c2, c3, c4⟩ := s_stream_cases k e p
    refine ⟨c1, c3, ?_, ?_⟩
    · intro a b c
      rw [c2 a, if_pos ⟨b, c⟩]
    · intro a b c
      rw [c4 a, if_pos ⟨b, c⟩]

theorem sample_calls_valid : no_off_at_zero [true, true, false, false, true] := by
  intro n h
  match n, h with
  | 0, h => simp at h
  | 1, h => simp at h
  | 2, _ => decide
  | 3, _ => decide
  | 4, h => simp at h
  | n + 5, h => simp at h

theorem s_stream_pairing_witness :
    (sample_priv.stream_cnt = 0 ∧ no_off_at_zero [true, true, false, false, true]) ∧
    (s_stream_calls sample_consts sample_ops sample_priv
      [true, true, false, false, true]).stream_cnt
      = outstanding [true, true, false, false, true] ∧
    outstanding [true, true, false, false, true] = 1 :=
  ⟨⟨rfl, sample_calls_valid⟩,
    (s_stream_pairing sample_consts sample_ops sample_priv [true, true, false, false, true]
      rfl sample_calls_valid).2.1,
    by decide⟩

/-! ### The buffer-initialised flag -/

set_option maxRecDepth 100000 in
/-- C30 (as stated, refuted). On `sample_priv_linear` (`NO_HDR`, online mode)
`sditf_init_buf` returns `-EINVAL` and leaves `is_buf_init` true; a first
`RKISP_VICAP_CMD_INIT_BUF` returns `-EINVAL`, and a second one returns 0 without
initialising a buffer. -/
theorem init_buf_flag_set_on_error :
    sample_priv_linear.hdr_mode = .NO_HDR ∧
    sample_priv_linear.mode.rdbk_mode ≠ .RKISP_VICAP_RDBK_AUTO ∧
    sample_priv_linear.mode.rdbk_mode ≠ .RKISP_VICAP_ONLINE_UNITE ∧
    sample_priv_linear.is_buf_init = false ∧
    (sditf_init_buf sample_ops_linear sample_priv_linear).1 = - EINVAL ∧
    (sditf_init_buf sample_ops_linear sample_priv_linear).2.is_buf_init = true ∧
    (sditf_ioctl_init_buf sample_consts sample_ops_linear sample_priv_linear
      { buf_cnt := 4, hdr_wrap_line := 0 }).1 = - EINVAL ∧
    (sditf_ioctl_init_buf sample_consts sample_ops_linear
      (sditf_ioctl_init_buf sample_consts sample_ops_linear sample_priv_linear
        { buf_cnt := 4, hdr_wrap_line := 0 }).2
      { buf_cnt := 4, hdr_wrap_line := 0 }).1 = 0 ∧
    ((sditf_ioctl_init_buf sample_consts sample_ops_linear
      (sditf_ioctl_init_buf sample_consts sample_ops_linear sample_priv_linear
        { buf_cnt := 4, hdr_wrap_line := 0 }).2
      { buf_cnt := 4, hdr_wrap_line := 0 }).2.cif_dev.stream 0).rx_buf_num = 0 := by
  decide

/-- C30 (amended). The buffer-initialised flag records the attempt: after
`sditf_init_buf` returns, `is_buf_init` is true whatever the return value; when
`hdr_mode` is `NO_HDR` and `rdbk_mode` is neither `RKISP_VICAP_RDBK_AUTO` nor
`RKISP_VICAP_ONLINE_UNITE` the call returns `-EINVAL` without initialising any
buffer, with `is_buf_init` true; and with the flag true, a
`RKISP_VICAP_CMD_INIT_BUF` returns 0, keeps the flag and does not run
`sditf_init_buf`: the state is the one left by `sditf_get_set_fmt` and the
update of `hdr_wrap_line`. -/
theorem init_buf_flag (k : cif_consts) (e : cif_ops) (priv : sditf_priv)
    (info : rkisp_init_buf) :
    (sditf_init_buf e priv).2.is_buf_init = true ∧
    (priv.hdr_mode = .NO_HDR → priv.mode.rdbk_mode ≠ .RKISP_VICAP_RDBK_AUTO →
      priv.mode.rdbk_mode ≠ .RKISP_VICAP_ONLINE_UNITE →
      sditf_init_buf e priv = (- EINVAL, { priv with is_buf_init := true })) ∧
    (priv.is_buf_init = true →
      (sditf_ioctl_init_buf k e priv info).1 = 0 ∧
      (sditf_ioctl_init_buf k e priv info).2.is_buf_init = true ∧
      (sditf_ioctl_init_buf k e priv info).2
        = (if info.hdr_wrap_line ≤
              (sditf_get_set_fmt k e { priv with
                buf_num := info.buf_cnt,
                cif_dev := { priv.cif_dev with fb_res_bufs := info.buf_cnt } }).2.cap_height then
            { (sditf_get_set_fmt k e { priv with
                buf_num := info.buf_cnt,
                cif_dev := { priv.cif_dev with fb_res_bufs := info.buf_cnt } }).2 with
              hdr_wrap_line := info.hdr_wrap_line }
          else (sditf_get_set_fmt k e { priv with
                buf_num := info.buf_cnt,
                cif_dev := { priv.cif_dev with fb_res_bufs := info.buf_cnt } }).2)) := by
  refine ⟨rfl, ?_, ?_⟩
  · intro h1 h2 h3
    unfold sditf_init_buf
    simp [h1, h2, h3]
  · intro hb
    obtain ⟨d, h, cw, ch, hf⟩ := get_set_fmt_frame k e { priv with
      buf_num := info.buf_cnt, cif_dev := { priv.cif_dev with fb_res_bufs := info.buf_cnt } }
    have hi : (sditf_get_set_fmt k e { priv with
        buf_num := info.buf_cnt,
        cif_dev := { priv.cif_dev with fb_res_bufs := info.buf_cnt } }).2.is_buf_init = true := by
      rw [hf]
      exact hb
    have hskip : ∀ q : sditf_priv, q.is_buf_init = true →
        (if ¬ q.is_buf_init = true then sditf_init_buf e q else (0, q)) = (0, q) :=
      fun q hq => if_neg (not_not.mpr hq)
    unfold sditf_ioctl_init_buf
    dsimp only
    rw [hskip _ (by split_ifs <;> exact hi)]
    refine ⟨rfl, ?_, rfl⟩
    dsimp only
    split_ifs <;> exact hi

set_option maxRecDepth 100000 in
theorem init_buf_flag_witness :
    (sample_priv_linear.hdr_mode = .NO_HDR ∧
      sample_priv_linear.mode.rdbk_mode ≠ .RKISP_VICAP_RDBK_AUTO ∧
      sample_priv_linear.mode.rdbk_mode ≠ .RKISP_VICAP_ONLINE_UNITE) ∧
    sditf_init_buf sample_ops_linear sample_priv_linear
      = (- EINVAL, { sample_priv_linear with is_buf_init := true }) :=
  ⟨⟨rfl, by decide, by decide⟩,
    (init_buf_flag sample_consts sample_ops_linear sample_priv_linear
      { buf_cnt := 4, hdr_wrap_line := 0 }).2.1 rfl (by decide) (by decide)⟩

end Sditf
